import Mathlib

/-! # D3D12 resource heap construction (LLGL)

Shallow embedding of `sources/Renderer/Direct3D12/RenderState/D3D12ResourceHeap.cpp`.

The constructor of `D3D12ResourceHeap` sizes and creates up to two descriptor heaps, then
fills them in a do/while loop, one descriptor set per iteration.  Device calls are recorded
in a log (heaps created, views written), so that statements about what was written where
can be made.

Parts of the repository that the file uses but that are not among the sources are taken
as parameters:
* the values of `BindFlags::ConstantBuffer`, `BindFlags::Sampled`, `BindFlags::Storage`,
  `StageFlags::AllGraphicsStages`, `StageFlags::ComputeStage` (`FlagConstants`);
* `D3D12PipelineLayout` (its per-kind counts, its combined stage flags and the function
  `GetBindFlagsByIndex`);
* the device (`GetDescriptorHandleIncrementSize`, `CreateDescriptorHeap`).

Machine integers: `UINT` counters wrap at `2^32`, the `SIZE_T` descriptor address wraps at
`2^64` (64-bit build); `std::size_t bindingIndex` is incremented once per view written and
cannot reach `2^64`, so it is kept as a natural number.

Two Direct3D 11 files are embedded further down, each section with its own parameters:
`D3D11RenderSystem::CreateDevice` and `D3D11ShaderProgram` (`AttachShader`, `DetachAll`,
`LinkShaders`, `BuildInputLayout`).
-/

namespace LLGL

/-! ## Data model -/

/-- Values of `ResourceType` that the resource heap distinguishes. -/
inductive ResourceType where
  | Buffer
  | Texture
  | Sampler
  deriving DecidableEq, Repr

/-- Flag constants of `BindFlags` and `StageFlags` used by the file; their values are declared
in public headers that are not part of the sources, so they are parameters. -/
structure FlagConstants where
  ConstantBuffer : Nat
  Sampled : Nat
  Storage : Nat
  AllGraphicsStages : Nat
  ComputeStage : Nat
  deriving DecidableEq, Repr

/-- A resource object: `handle` is its identity (address), `resourceType` is what
`GetResourceType()` returns, `bindFlags` what `GetBindFlags()` returns (buffers and textures). -/
structure Resource where
  handle : Nat
  resourceType : ResourceType
  bindFlags : Nat
  deriving DecidableEq, Repr

/-- One entry of `ResourceHeapDescriptor::resourceViews`; `none` is a null pointer. -/
structure ResourceViewDescriptor where
  resource : Option Resource
  deriving DecidableEq, Repr

/-- Per-kind binding counts of a pipeline layout (`D3D12RootParameterLayout`). -/
structure D3D12RootParameterLayout where
  numBufferCBV : Nat
  numBufferSRV : Nat
  numTextureSRV : Nat
  numBufferUAV : Nat
  numTextureUAV : Nat
  numSamplers : Nat
  deriving DecidableEq, Repr

/-- The part of `D3D12PipelineLayout` that the resource heap reads: `GetRootParameterLayout()`,
`GetCombinedStageFlags()` and `GetBindFlagsByIndex(idx)`. -/
structure D3D12PipelineLayout where
  rootParameterLayout : D3D12RootParameterLayout
  combinedStageFlags : Nat
  GetBindFlagsByIndex : Nat → Nat

/-- Argument of the constructor: `pipelineLayout` (`none` is a null pointer) and `resourceViews`. -/
structure ResourceHeapDescriptor where
  pipelineLayout : Option D3D12PipelineLayout
  resourceViews : List ResourceViewDescriptor

/-- The two descriptor heap types used. -/
inductive D3D12_DESCRIPTOR_HEAP_TYPE where
  | CBV_SRV_UAV
  | SAMPLER
  deriving DecidableEq, Repr

/-- The fields of `D3D12_DESCRIPTOR_HEAP_DESC` that vary (`Flags` is always shader-visible,
`NodeMask` always 0). -/
structure D3D12_DESCRIPTOR_HEAP_DESC where
  heapType : D3D12_DESCRIPTOR_HEAP_TYPE
  NumDescriptors : Nat
  deriving DecidableEq, Repr

/-- A descriptor heap returned by the device: the description it was created with and
`GetCPUDescriptorHandleForHeapStart().ptr`. -/
structure ID3D12DescriptorHeap where
  heapDesc : D3D12_DESCRIPTOR_HEAP_DESC
  cpuHandleForHeapStart : Nat
  deriving DecidableEq, Repr

/-- The device: `GetDescriptorHandleIncrementSize(type)` and `CreateDescriptorHeap`, which
yields the heap start address, or `none` when the returned `HRESULT` is a failure. -/
structure ID3D12Device where
  GetDescriptorHandleIncrementSize : D3D12_DESCRIPTOR_HEAP_TYPE → Nat
  CreateDescriptorHeap : D3D12_DESCRIPTOR_HEAP_DESC → Option Nat

/-- Exceptions thrown during construction. -/
inductive HeapError where
  | noPipelineLayout
  | nullPointerInResource
  | descriptorHeapFailed (heapType : D3D12_DESCRIPTOR_HEAP_TYPE)
  deriving DecidableEq, Repr

/-- Message of the exception (`what()`). -/
def HeapError.what : HeapError → String
  | .noPipelineLayout => "cannot create resource heap without pipeline layout"
  | .nullPointerInResource => "cannot create resource heap with null pointer in resource view"
  | .descriptorHeapFailed .CBV_SRV_UAV =>
      "failed to create D3D12 descriptor heap of type D3D12_DESCRIPTOR_HEAP_TYPE_CBV_SRV_UAV"
  | .descriptorHeapFailed .SAMPLER =>
      "failed to create D3D12 descriptor heap of type D3D12_DESCRIPTOR_HEAP_TYPE_SAMPLER"

/-- Kind of native view written into a heap. -/
inductive ViewKind where
  | ConstantBufferView
  | ShaderResourceView
  | UnorderedAccessView
  | SamplerView
  deriving DecidableEq, Repr

/-- One view written by `Create...View(device, cpuDescHandle)`: the heap whose cursor was
passed, the address `cpuDescHandle.ptr` at the time of the call, the kind of view and the
resource it was created for. -/
structure DescriptorWrite where
  heapType : D3D12_DESCRIPTOR_HEAP_TYPE
  ptr : Nat
  view : ViewKind
  resource : Resource
  deriving DecidableEq, Repr

/-- Member variables of `D3D12ResourceHeap`. -/
structure D3D12ResourceHeap where
  heapTypeCbvSrvUav : Option ID3D12DescriptorHeap
  heapTypeSampler : Option ID3D12DescriptorHeap
  descriptorHeaps : List ID3D12DescriptorHeap
  numDescriptorHeaps : Nat
  hasGraphicsDescriptors : Bool
  hasComputeDescriptors : Bool
  descriptorHandleStrides : Nat × Nat
  numDescriptorSets : Nat
  deriving DecidableEq, Repr

/-- Local variables of the constructor that the descriptor passes update by reference
(`cpuDescHandleCbvSrvUav`, `cpuDescHandleSampler`, `bindingIndex`), the member
`numDescriptorSets_`, and the log of views written so far, oldest first. -/
structure HeapBuildState where
  cpuDescHandleCbvSrvUav : Nat
  cpuDescHandleSampler : Nat
  bindingIndex : Nat
  numDescriptorSets : Nat
  written : List DescriptorWrite
  deriving DecidableEq, Repr

/-- Outcome of the constructor: an exception together with the descriptor heaps the device
had created before it was thrown, or the finished object together with the views written. -/
inductive Construction where
  | failed (error : HeapError) (heapsCreated : List ID3D12DescriptorHeap)
  | constructed (heap : D3D12ResourceHeap) (written : List DescriptorWrite)
  deriving DecidableEq, Repr

/-! ## Operations -/

/-- Function `GetD3DPipelineLayout` (lines 26-31): throws when the descriptor has no pipeline
layout. -/
def GetD3DPipelineLayout (desc : ResourceHeapDescriptor) : Except HeapError D3D12PipelineLayout :=
  match desc.pipelineLayout with
  | none => .error .noPipelineLayout
  | some pipelineLayout => .ok pipelineLayout

/-- The counting loop of `CreateHeapTypeCbvSrvUav` (lines 106-119) and of
`CreateHeapTypeSampler` (lines 146-158): walks the
resource views front to back, throws at the first null resource, and increments the `UINT`
counter for every resource whose type is counted. -/
def countDescriptors (isCounted : ResourceType → Bool) :
    List ResourceViewDescriptor → Nat → Except HeapError Nat
  | [], numDescriptors => .ok numDescriptors
  | resourceView :: rest, numDescriptors =>
    match resourceView.resource with
    | some resource =>
      countDescriptors isCounted rest
        (if isCounted resource.resourceType then (numDescriptors + 1) % 2 ^ 32 else numDescriptors)
    | none => .error .nullPointerInResource

/-- Function `AppendDescriptorHeapToArray` (lines 378-381):
`descriptorHeaps_[numDescriptorHeaps_++] = descriptorHeap`. -/
def AppendDescriptorHeapToArray (self : D3D12ResourceHeap) (descriptorHeap : ID3D12DescriptorHeap) :
    D3D12ResourceHeap :=
  { self with
    descriptorHeaps := self.descriptorHeaps ++ [descriptorHeap]
    numDescriptorHeaps := self.numDescriptorHeaps + 1 }

/-- Function `CreateHeapTypeCbvSrvUav` (lines 103-141): returns the updated object and the CPU
handle of the heap
start (`0` for the value-initialised handle when no heap is created). -/
def CreateHeapTypeCbvSrvUav (device : ID3D12Device) (desc : ResourceHeapDescriptor)
    (self : D3D12ResourceHeap) : Except HeapError (D3D12ResourceHeap × Nat) :=
  match countDescriptors (fun resType => resType = .Buffer || resType = .Texture)
      desc.resourceViews 0 with
  | .error e => .error e
  | .ok numDescriptors =>
    if numDescriptors > 0 then
      let heapDesc : D3D12_DESCRIPTOR_HEAP_DESC := ⟨.CBV_SRV_UAV, numDescriptors⟩
      match device.CreateDescriptorHeap heapDesc with
      | none => .error (.descriptorHeapFailed .CBV_SRV_UAV)
      | some start =>
        let heap : ID3D12DescriptorHeap := ⟨heapDesc, start⟩
        .ok (AppendDescriptorHeapToArray { self with heapTypeCbvSrvUav := some heap } heap, start)
    else
      .ok (self, 0)

/-- Function `CreateHeapTypeSampler` (lines 143-180): as `CreateHeapTypeCbvSrvUav`, counting the
samplers. -/
def CreateHeapTypeSampler (device : ID3D12Device) (desc : ResourceHeapDescriptor)
    (self : D3D12ResourceHeap) : Except HeapError (D3D12ResourceHeap × Nat) :=
  match countDescriptors (fun resType => resType = .Sampler) desc.resourceViews 0 with
  | .error e => .error e
  | .ok numDescriptors =>
    if numDescriptors > 0 then
      let heapDesc : D3D12_DESCRIPTOR_HEAP_DESC := ⟨.SAMPLER, numDescriptors⟩
      match device.CreateDescriptorHeap heapDesc with
      | none => .error (.descriptorHeapFailed .SAMPLER)
      | some start =>
        let heap : ID3D12DescriptorHeap := ⟨heapDesc, start⟩
        .ok (AppendDescriptorHeapToArray { self with heapTypeSampler := some heap } heap, start)
    else
      .ok (self, 0)

/-- The loop of `ForEachResourceViewOfType` over the resource views from `firstIndex` on:
it runs while views remain and `numResourceViewsInLayout > 0`, calls the callback on every
non-null resource of the requested type and decrements the count when the callback returns
true.  The callback updates the state it captured by reference. -/
def ForEachResourceViewOfType.loop {σ : Type} (resourceType : ResourceType)
    (callback : Resource → σ → Bool × σ) : List ResourceViewDescriptor → Nat → σ → σ
  | [], _, st => st
  | resourceView :: rest, numResourceViewsInLayout, st =>
    if numResourceViewsInLayout > 0 then
      match resourceView.resource with
      | some resource =>
        if resource.resourceType = resourceType then
          let r := callback resource st
          ForEachResourceViewOfType.loop resourceType callback rest
            (if r.1 then numResourceViewsInLayout - 1 else numResourceViewsInLayout) r.2
        else
          ForEachResourceViewOfType.loop resourceType callback rest numResourceViewsInLayout st
      | none => ForEachResourceViewOfType.loop resourceType callback rest numResourceViewsInLayout st
    else st

/-- Function `ForEachResourceViewOfType` (lines 182-201). -/
def ForEachResourceViewOfType {σ : Type} (desc : ResourceHeapDescriptor)
    (resourceType : ResourceType) (firstIndex : Nat) (numResourceViewsInLayout : Nat)
    (callback : Resource → σ → Bool × σ) (st : σ) : σ :=
  ForEachResourceViewOfType.loop resourceType callback (desc.resourceViews.drop firstIndex)
    numResourceViewsInLayout st

/-- Function `MatchBindFlags` (lines 203-217): the result and the new value of `bindingIndex`. -/
def MatchBindFlags (pipelineLayout : D3D12PipelineLayout) (resourceBindFlags : Nat)
    (requiredBindFlags : Nat) (bindingIndex : Nat) : Bool × Nat :=
  if (resourceBindFlags &&& requiredBindFlags) ≠ 0 ∧
      (pipelineLayout.GetBindFlagsByIndex bindingIndex &&& requiredBindFlags) ≠ 0 then
    (true, bindingIndex + 1)
  else
    (false, bindingIndex)

/-- The two statements `resource.Create...View(device, cpuDescHandle); cpuDescHandle.ptr +=
descHandleStride;` with `cpuDescHandle` bound to `cpuDescHandleCbvSrvUav`. -/
def writeViewCbvSrvUav (view : ViewKind) (descHandleStride : Nat) (resource : Resource)
    (st : HeapBuildState) : HeapBuildState :=
  { st with
    written := st.written ++ [⟨.CBV_SRV_UAV, st.cpuDescHandleCbvSrvUav, view, resource⟩]
    cpuDescHandleCbvSrvUav := (st.cpuDescHandleCbvSrvUav + descHandleStride) % 2 ^ 64 }

/-- The two statements `samplerD3D.CreateResourceView(device, cpuDescHandle);
cpuDescHandle.ptr += descHandleStride;` with `cpuDescHandle` bound to `cpuDescHandleSampler`. -/
def writeViewSampler (descHandleStride : Nat) (resource : Resource)
    (st : HeapBuildState) : HeapBuildState :=
  { st with
    written := st.written ++ [⟨.SAMPLER, st.cpuDescHandleSampler, .SamplerView, resource⟩]
    cpuDescHandleSampler := (st.cpuDescHandleSampler + descHandleStride) % 2 ^ 64 }

/-- Function `CreateConstantBufferViews` (lines 219-248).  The call `GetD3DPipelineLayout(desc)`
inside it returns the layout that the constructor obtained before the loop (it cannot throw
any more), passed here as `pipelineLayoutD3D`; `cpuDescHandle` is the variable
`cpuDescHandleCbvSrvUav` of the constructor. -/
def CreateConstantBufferViews (fc : FlagConstants) (device : ID3D12Device)
    (desc : ResourceHeapDescriptor) (pipelineLayoutD3D : D3D12PipelineLayout)
    (firstResourceIndex : Nat) (rootParameterLayout : D3D12RootParameterLayout)
    (st : HeapBuildState) : HeapBuildState :=
  let descHandleStride := device.GetDescriptorHandleIncrementSize .CBV_SRV_UAV
  ForEachResourceViewOfType desc .Buffer firstResourceIndex rootParameterLayout.numBufferCBV
    (fun resource st =>
      let m := MatchBindFlags pipelineLayoutD3D resource.bindFlags fc.ConstantBuffer st.bindingIndex
      if m.1 then
        (true, writeViewCbvSrvUav .ConstantBufferView descHandleStride resource
          { st with bindingIndex := m.2 })
      else (false, st))
    st

/-- Function `CreateShaderResourceViews` (lines 250-299): first the sampled buffers, then the
sampled textures. -/
def CreateShaderResourceViews (fc : FlagConstants) (device : ID3D12Device)
    (desc : ResourceHeapDescriptor) (pipelineLayoutD3D : D3D12PipelineLayout)
    (firstResourceIndex : Nat) (rootParameterLayout : D3D12RootParameterLayout)
    (st : HeapBuildState) : HeapBuildState :=
  let descHandleStride := device.GetDescriptorHandleIncrementSize .CBV_SRV_UAV
  let st := ForEachResourceViewOfType desc .Buffer firstResourceIndex
    rootParameterLayout.numBufferSRV
    (fun resource st =>
      let m := MatchBindFlags pipelineLayoutD3D resource.bindFlags fc.Sampled st.bindingIndex
      if m.1 then
        (true, writeViewCbvSrvUav .ShaderResourceView descHandleStride resource
          { st with bindingIndex := m.2 })
      else (false, st))
    st
  ForEachResourceViewOfType desc .Texture firstResourceIndex rootParameterLayout.numTextureSRV
    (fun resource st =>
      let m := MatchBindFlags pipelineLayoutD3D resource.bindFlags fc.Sampled st.bindingIndex
      if m.1 then
        (true, writeViewCbvSrvUav .ShaderResourceView descHandleStride resource
          { st with bindingIndex := m.2 })
      else (false, st))
    st

/-- Function `CreateUnorderedAccessViews` (lines 301-350): first the read/write buffers, then the
read/write textures. -/
def CreateUnorderedAccessViews (fc : FlagConstants) (device : ID3D12Device)
    (desc : ResourceHeapDescriptor) (pipelineLayoutD3D : D3D12PipelineLayout)
    (firstResourceIndex : Nat) (rootParameterLayout : D3D12RootParameterLayout)
    (st : HeapBuildState) : HeapBuildState :=
  let descHandleStride := device.GetDescriptorHandleIncrementSize .CBV_SRV_UAV
  let st := ForEachResourceViewOfType desc .Buffer firstResourceIndex
    rootParameterLayout.numBufferUAV
    (fun resource st =>
      let m := MatchBindFlags pipelineLayoutD3D resource.bindFlags fc.Storage st.bindingIndex
      if m.1 then
        (true, writeViewCbvSrvUav .UnorderedAccessView descHandleStride resource
          { st with bindingIndex := m.2 })
      else (false, st))
    st
  ForEachResourceViewOfType desc .Texture firstResourceIndex rootParameterLayout.numTextureUAV
    (fun resource st =>
      let m := MatchBindFlags pipelineLayoutD3D resource.bindFlags fc.Storage st.bindingIndex
      if m.1 then
        (true, writeViewCbvSrvUav .UnorderedAccessView descHandleStride resource
          { st with bindingIndex := m.2 })
      else (false, st))
    st

/-- Function `CreateSamplers` (lines 352-376): every sampler found is written, without a look at
the bind flags; `cpuDescHandle` is the variable `cpuDescHandleSampler` of the constructor. -/
def CreateSamplers (device : ID3D12Device) (desc : ResourceHeapDescriptor)
    (firstResourceIndex : Nat) (rootParameterLayout : D3D12RootParameterLayout)
    (st : HeapBuildState) : HeapBuildState :=
  let descHandleStride := device.GetDescriptorHandleIncrementSize .SAMPLER
  ForEachResourceViewOfType desc .Sampler firstResourceIndex rootParameterLayout.numSamplers
    (fun resource st =>
      let st := writeViewSampler descHandleStride resource st
      (true, { st with bindingIndex := st.bindingIndex + 1 }))
    st

/-- Body of the do/while loop of the constructor (lines 70-77): one descriptor set.
`firstResourceIndex`
is set to the current `bindingIndex`, the four `Create...` calls run in the order of the
source, then `numDescriptorSets_` is incremented. -/
def createDescriptorSet (fc : FlagConstants) (device : ID3D12Device)
    (desc : ResourceHeapDescriptor) (pipelineLayoutD3D : D3D12PipelineLayout)
    (st : HeapBuildState) : HeapBuildState :=
  let rootParameterLayout := pipelineLayoutD3D.rootParameterLayout
  let firstResourceIndex := st.bindingIndex
  let st := CreateConstantBufferViews fc device desc pipelineLayoutD3D firstResourceIndex
    rootParameterLayout st
  let st := CreateShaderResourceViews fc device desc pipelineLayoutD3D firstResourceIndex
    rootParameterLayout st
  let st := CreateUnorderedAccessViews fc device desc pipelineLayoutD3D firstResourceIndex
    rootParameterLayout st
  let st := CreateSamplers device desc firstResourceIndex rootParameterLayout st
  { st with numDescriptorSets := (st.numDescriptorSets + 1) % 2 ^ 32 }

/-- The do/while loop of the constructor (lines 67-79): it repeats while
`bindingIndex < desc.resourceViews.size() && firstResourceIndex < bindingIndex`. -/
def createDescriptors (fc : FlagConstants) (device : ID3D12Device)
    (desc : ResourceHeapDescriptor) (pipelineLayoutD3D : D3D12PipelineLayout)
    (st : HeapBuildState) : HeapBuildState :=
  let next := createDescriptorSet fc device desc pipelineLayoutD3D st
  if next.bindingIndex < desc.resourceViews.length ∧ st.bindingIndex < next.bindingIndex then
    createDescriptors fc device desc pipelineLayoutD3D next
  else
    next
termination_by desc.resourceViews.length - st.bindingIndex
decreasing_by
  rename_i h
  have h2 : next = createDescriptorSet fc device desc pipelineLayoutD3D st := rfl
  rw [h2] at h
  omega

/-- The object before the constructor body runs: all members value-initialised. -/
def D3D12ResourceHeap.initial : D3D12ResourceHeap :=
  { heapTypeCbvSrvUav := none
    heapTypeSampler := none
    descriptorHeaps := []
    numDescriptorHeaps := 0
    hasGraphicsDescriptors := false
    hasComputeDescriptors := false
    descriptorHandleStrides := (0, 0)
    numDescriptorSets := 0 }

/-- The constructor `D3D12ResourceHeap::D3D12ResourceHeap(device, desc)` (lines 33-80): the two
heaps are created first, then the pipeline layout is fetched, the stage flags and the strides
are stored, and the loop fills the heaps. -/
def D3D12ResourceHeap.construct (fc : FlagConstants) (device : ID3D12Device)
    (desc : ResourceHeapDescriptor) : Construction :=
  match CreateHeapTypeCbvSrvUav device desc D3D12ResourceHeap.initial with
  | .error e => .failed e []
  | .ok (self1, cpuDescHandleCbvSrvUav) =>
    match CreateHeapTypeSampler device desc self1 with
    | .error e => .failed e self1.descriptorHeaps
    | .ok (self2, cpuDescHandleSampler) =>
      match GetD3DPipelineLayout desc with
      | .error e => .failed e self2.descriptorHeaps
      | .ok pipelineLayoutD3D =>
        let combinedStageFlags := pipelineLayoutD3D.combinedStageFlags
        let descHandleStrideCbvSrvUav := device.GetDescriptorHandleIncrementSize .CBV_SRV_UAV
        let descHandleStrideSampler := device.GetDescriptorHandleIncrementSize .SAMPLER
        let rootParameterLayout := pipelineLayoutD3D.rootParameterLayout
        let st := createDescriptors fc device desc pipelineLayoutD3D
          { cpuDescHandleCbvSrvUav := cpuDescHandleCbvSrvUav
            cpuDescHandleSampler := cpuDescHandleSampler
            bindingIndex := 0
            numDescriptorSets := self2.numDescriptorSets
            written := [] }
        .constructed
          { self2 with
            hasGraphicsDescriptors := (combinedStageFlags &&& fc.AllGraphicsStages) != 0
            hasComputeDescriptors := (combinedStageFlags &&& fc.ComputeStage) != 0
            descriptorHandleStrides :=
              (((rootParameterLayout.numBufferCBV + rootParameterLayout.numBufferSRV +
                  rootParameterLayout.numTextureSRV + rootParameterLayout.numBufferUAV +
                  rootParameterLayout.numTextureUAV) * descHandleStrideCbvSrvUav) % 2 ^ 32,
               (rootParameterLayout.numSamplers * descHandleStrideSampler) % 2 ^ 32)
            numDescriptorSets := st.numDescriptorSets }
          st.written

/-- Function `GetNumDescriptorSets` (lines 88-91). -/
def D3D12ResourceHeap.GetNumDescriptorSets (self : D3D12ResourceHeap) : Nat :=
  self.numDescriptorSets

/-! ## Binding kinds and the shape of one pass -/

/-- The six kinds of bindings a pipeline layout counts, in the order of the passes of the
constructor loop. -/
inductive BindingKind where
  | BufferCBV
  | BufferSRV
  | TextureSRV
  | BufferUAV
  | TextureUAV
  | Samplers
  deriving DecidableEq, Repr

/-- Resource type that the pass of a kind asks `ForEachResourceViewOfType` for. -/
def BindingKind.resourceType : BindingKind → ResourceType
  | .BufferCBV => .Buffer
  | .BufferSRV => .Buffer
  | .TextureSRV => .Texture
  | .BufferUAV => .Buffer
  | .TextureUAV => .Texture
  | .Samplers => .Sampler

/-- Bind flag that the pass of a kind passes to `MatchBindFlags`; the sampler pass does not
call `MatchBindFlags`. -/
def BindingKind.requiredBindFlags (fc : FlagConstants) : BindingKind → Option Nat
  | .BufferCBV => some fc.ConstantBuffer
  | .BufferSRV => some fc.Sampled
  | .TextureSRV => some fc.Sampled
  | .BufferUAV => some fc.Storage
  | .TextureUAV => some fc.Storage
  | .Samplers => none

/-- Kind of view written by the pass of a kind. -/
def BindingKind.view : BindingKind → ViewKind
  | .BufferCBV => .ConstantBufferView
  | .BufferSRV => .ShaderResourceView
  | .TextureSRV => .ShaderResourceView
  | .BufferUAV => .UnorderedAccessView
  | .TextureUAV => .UnorderedAccessView
  | .Samplers => .SamplerView

/-- Heap whose cursor the pass of a kind advances. -/
def BindingKind.heapType : BindingKind → D3D12_DESCRIPTOR_HEAP_TYPE
  | .Samplers => .SAMPLER
  | _ => .CBV_SRV_UAV

/-- Position of the pass of a kind in the loop body. -/
def BindingKind.rank : BindingKind → Nat
  | .BufferCBV => 0
  | .BufferSRV => 1
  | .TextureSRV => 2
  | .BufferUAV => 3
  | .TextureUAV => 4
  | .Samplers => 5

/-- Count that the layout declares for a kind. -/
def D3D12RootParameterLayout.count (rl : D3D12RootParameterLayout) : BindingKind → Nat
  | .BufferCBV => rl.numBufferCBV
  | .BufferSRV => rl.numBufferSRV
  | .TextureSRV => rl.numTextureSRV
  | .BufferUAV => rl.numBufferUAV
  | .TextureUAV => rl.numTextureUAV
  | .Samplers => rl.numSamplers

/-- Number of bindings of one descriptor set. -/
def D3D12RootParameterLayout.bindingsPerSet (rl : D3D12RootParameterLayout) : Nat :=
  rl.numBufferCBV + rl.numBufferSRV + rl.numTextureSRV + rl.numBufferUAV + rl.numTextureUAV +
    rl.numSamplers

/-- Number of bindings that the passes before the pass of a kind fill when each of them is
complete. -/
def D3D12RootParameterLayout.offset (rl : D3D12RootParameterLayout) : BindingKind → Nat
  | .BufferCBV => 0
  | .BufferSRV => rl.numBufferCBV
  | .TextureSRV => rl.numBufferCBV + rl.numBufferSRV
  | .BufferUAV => rl.numBufferCBV + rl.numBufferSRV + rl.numTextureSRV
  | .TextureUAV => rl.numBufferCBV + rl.numBufferSRV + rl.numTextureSRV + rl.numBufferUAV
  | .Samplers =>
      rl.numBufferCBV + rl.numBufferSRV + rl.numTextureSRV + rl.numBufferUAV + rl.numTextureUAV

/-- The resource-side half of the test a pass makes: for the kinds that call
`MatchBindFlags`, the bind flags of the resource intersect the flag of the kind. -/
def Resource.hasBindFlagsOf (fc : FlagConstants) (k : BindingKind) (r : Resource) : Bool :=
  match k.requiredBindFlags fc with
  | some required => decide (r.bindFlags &&& required ≠ 0)
  | none => true

/-- A resource is of a kind when it has the resource type of the kind and passes the
resource-side test of the pass of the kind. -/
def Resource.isOfKind (fc : FlagConstants) (k : BindingKind) (r : Resource) : Bool :=
  decide (r.resourceType = k.resourceType) && r.hasBindFlagsOf fc k

/-- The layout-side half of the test a pass makes at a binding index. -/
def D3D12PipelineLayout.slotAccepts (fc : FlagConstants) (pipelineLayout : D3D12PipelineLayout)
    (k : BindingKind) (bindingIndex : Nat) : Bool :=
  match k.requiredBindFlags fc with
  | some required => decide (pipelineLayout.GetBindFlagsByIndex bindingIndex &&& required ≠ 0)
  | none => true

/-- The resources of a kind among resource views, in list order. -/
def kindResources (fc : FlagConstants) (k : BindingKind) (views : List ResourceViewDescriptor) :
    List Resource :=
  views.filterMap (fun resourceView => resourceView.resource.filter (Resource.isOfKind fc k))

/-- Per-kind count of a list of resource views. -/
def kindCount (fc : FlagConstants) (k : BindingKind) (views : List ResourceViewDescriptor) : Nat :=
  (kindResources fc k views).length

/-- Length of the longest run of binding indices from `bindingIndex` on that pass the
layout-side test, cut at `n`. -/
def slotRun (slotOk : Nat → Bool) : Nat → Nat → Nat
  | _, 0 => 0
  | bindingIndex, n + 1 => if slotOk bindingIndex then slotRun slotOk (bindingIndex + 1) n + 1 else 0

/-- What a matching callback of the pass of a kind does to the state: the view is written at
the cursor of the heap of the kind, the cursor moves on by the increment size of that heap and
`bindingIndex` is incremented. -/
def emitView (device : ID3D12Device) (k : BindingKind) (r : Resource) (st : HeapBuildState) :
    HeapBuildState :=
  match k with
  | .Samplers =>
    let st := writeViewSampler (device.GetDescriptorHandleIncrementSize .SAMPLER) r st
    { st with bindingIndex := st.bindingIndex + 1 }
  | _ =>
    writeViewCbvSrvUav k.view (device.GetDescriptorHandleIncrementSize .CBV_SRV_UAV) r
      { st with bindingIndex := st.bindingIndex + 1 }

/-- Callback of the pass of a kind, in one shape for the six passes. -/
def kindCallback (fc : FlagConstants) (device : ID3D12Device)
    (pipelineLayout : D3D12PipelineLayout) (k : BindingKind) (r : Resource)
    (st : HeapBuildState) : Bool × HeapBuildState :=
  if r.hasBindFlagsOf fc k && pipelineLayout.slotAccepts fc k st.bindingIndex then
    (true, emitView device k r st)
  else
    (false, st)

/-- The pass of a kind from `firstResourceIndex` on: `ForEachResourceViewOfType` with the
resource type, the layout count and the callback of the kind. -/
def kindPass (fc : FlagConstants) (device : ID3D12Device) (desc : ResourceHeapDescriptor)
    (pipelineLayout : D3D12PipelineLayout) (firstResourceIndex : Nat) (k : BindingKind)
    (st : HeapBuildState) : HeapBuildState :=
  ForEachResourceViewOfType desc k.resourceType firstResourceIndex
    (pipelineLayout.rootParameterLayout.count k) (kindCallback fc device pipelineLayout k) st

/-- The resources that the pass of a kind writes when it starts at `firstResourceIndex` with
binding index `bindingIndex`: the first resources of the kind, as many as the run of
accepting binding indices allows. -/
def passResources (fc : FlagConstants) (desc : ResourceHeapDescriptor)
    (pipelineLayout : D3D12PipelineLayout) (firstResourceIndex : Nat) (k : BindingKind)
    (bindingIndex : Nat) : List Resource :=
  (kindResources fc k (desc.resourceViews.drop firstResourceIndex)).take
    (slotRun (pipelineLayout.slotAccepts fc k) bindingIndex
      (pipelineLayout.rootParameterLayout.count k))

/-- Views written for a list of resources at consecutive positions of a heap, the first at
`cursor`, each next one increment further (as `cpuDescHandle.ptr += descHandleStride`). -/
def viewRun (heapType : D3D12_DESCRIPTOR_HEAP_TYPE) (view : ViewKind) (stride : Nat) :
    Nat → List Resource → List DescriptorWrite
  | _, [] => []
  | cursor, r :: rs =>
    ⟨heapType, cursor, view, r⟩ :: viewRun heapType view stride ((cursor + stride) % 2 ^ 64) rs

/-- Cursor after `n` increments. -/
def advanceCursor (stride : Nat) : Nat → Nat → Nat
  | cursor, 0 => cursor
  | cursor, n + 1 => advanceCursor stride ((cursor + stride) % 2 ^ 64) n

/-- State of the constructor loop after `j` iterations of its body, started at `st`. -/
def descriptorSetStates (fc : FlagConstants) (device : ID3D12Device)
    (desc : ResourceHeapDescriptor) (pipelineLayout : D3D12PipelineLayout)
    (st : HeapBuildState) : Nat → HeapBuildState
  | 0 => st
  | j + 1 =>
    createDescriptorSet fc device desc pipelineLayout
      (descriptorSetStates fc device desc pipelineLayout st j)

/-- Increment size of the heap of a kind. -/
def kindStride (device : ID3D12Device) (k : BindingKind) : Nat :=
  device.GetDescriptorHandleIncrementSize k.heapType

/-- Cursor of the heap of a kind in a state. -/
def kindCursor (k : BindingKind) (st : HeapBuildState) : Nat :=
  match k.heapType with
  | .CBV_SRV_UAV => st.cpuDescHandleCbvSrvUav
  | .SAMPLER => st.cpuDescHandleSampler

/-- State after the pass of a kind has written views for the resources `rs`, one after the
other. -/
def applyRun (device : ID3D12Device) (k : BindingKind) (rs : List Resource)
    (st : HeapBuildState) : HeapBuildState :=
  match k.heapType with
  | .CBV_SRV_UAV =>
    { st with
      cpuDescHandleCbvSrvUav := advanceCursor (kindStride device k) st.cpuDescHandleCbvSrvUav rs.length
      bindingIndex := st.bindingIndex + rs.length
      written := st.written ++ viewRun .CBV_SRV_UAV k.view (kindStride device k)
        st.cpuDescHandleCbvSrvUav rs }
  | .SAMPLER =>
    { st with
      cpuDescHandleSampler := advanceCursor (kindStride device k) st.cpuDescHandleSampler rs.length
      bindingIndex := st.bindingIndex + rs.length
      written := st.written ++ viewRun .SAMPLER k.view (kindStride device k)
        st.cpuDescHandleSampler rs }

/-- The bind-flag table of the layout is in line with its counts for the descriptor set that
starts at binding index `base`: the binding index of the `i`-th binding of each kind, kinds in
pass order, carries the bind flag that the pass of the kind asks for.  (`D3D12PipelineLayout`
is not among the sources; this is the shape of `GetBindFlagsByIndex` that the passes rely on.) -/
def D3D12PipelineLayout.SlotsValid (fc : FlagConstants) (pipelineLayout : D3D12PipelineLayout)
    (base : Nat) : Prop :=
  ∀ (k : BindingKind) (i : Nat), i < pipelineLayout.rootParameterLayout.count k →
    pipelineLayout.slotAccepts fc k (base + pipelineLayout.rootParameterLayout.offset k + i) = true

/-- State after the six passes of one descriptor set have written the resources of each kind
of `block`, before the set counter is incremented. -/
def applyBlock (fc : FlagConstants) (device : ID3D12Device) (block : List ResourceViewDescriptor)
    (st : HeapBuildState) : HeapBuildState :=
  applyRun device .Samplers (kindResources fc .Samplers block)
    (applyRun device .TextureUAV (kindResources fc .TextureUAV block)
    (applyRun device .BufferUAV (kindResources fc .BufferUAV block)
    (applyRun device .TextureSRV (kindResources fc .TextureSRV block)
    (applyRun device .BufferSRV (kindResources fc .BufferSRV block)
    (applyRun device .BufferCBV (kindResources fc .BufferCBV block) st)))))

/-! ## The worked example of the specification

A layout with two constant buffers and one sampler, and the resource views
`[bufA, texB, bufC, samplerD]`.  The flag values, addresses and increment sizes are sample
values; the statements on the example that are made for all values say so. -/

namespace WorkedExample

/-- Sample values of the flag constants. -/
def flags : FlagConstants :=
  { ConstantBuffer := 4, Sampled := 32, Storage := 64, AllGraphicsStages := 31, ComputeStage := 32 }

/-- A device with increment size 32 for both heap types, whose heap creation succeeds. -/
def device : ID3D12Device :=
  { GetDescriptorHandleIncrementSize := fun _ => 32
    CreateDescriptorHeap := fun heapDesc =>
      match heapDesc.heapType with
      | .CBV_SRV_UAV => some 4096
      | .SAMPLER => some 8192 }

/-- A constant buffer. -/
def bufA : Resource := { handle := 1, resourceType := .Buffer, bindFlags := flags.ConstantBuffer }

/-- A sampled texture. -/
def texB : Resource := { handle := 2, resourceType := .Texture, bindFlags := flags.Sampled }

/-- A constant buffer. -/
def bufC : Resource := { handle := 3, resourceType := .Buffer, bindFlags := flags.ConstantBuffer }

/-- A sampler. -/
def samplerD : Resource := { handle := 4, resourceType := .Sampler, bindFlags := 0 }

/-- Layout with two constant buffers and one sampler, visible to the vertex and fragment
stages; bind flags by index: constant buffer, constant buffer, sampler (no bind flag), and no
flag at any further index. -/
def layout : D3D12PipelineLayout :=
  { rootParameterLayout :=
      { numBufferCBV := 2, numBufferSRV := 0, numTextureSRV := 0, numBufferUAV := 0,
        numTextureUAV := 0, numSamplers := 1 }
    combinedStageFlags := 17
    GetBindFlagsByIndex := fun idx => [flags.ConstantBuffer, flags.ConstantBuffer, 0].getD idx 0 }

/-- The resource views `[bufA, texB, bufC, samplerD]`. -/
def resourceViews : List ResourceViewDescriptor :=
  [⟨some bufA⟩, ⟨some texB⟩, ⟨some bufC⟩, ⟨some samplerD⟩]

/-- The descriptor of the example. -/
def desc : ResourceHeapDescriptor :=
  { pipelineLayout := some layout, resourceViews := resourceViews }

/-- State in which the constructor loop starts in the example. -/
def initialState : HeapBuildState :=
  { cpuDescHandleCbvSrvUav := 4096, cpuDescHandleSampler := 8192, bindingIndex := 0,
    numDescriptorSets := 0, written := [] }

/-- The example without the texture: `[bufA, bufC, samplerD]`. -/
def descWithoutTexture : ResourceHeapDescriptor :=
  { pipelineLayout := some layout
    resourceViews := [⟨some bufA⟩, ⟨some bufC⟩, ⟨some samplerD⟩] }

/-- Layout of the second scenario: one constant buffer only; every index of the bind-flag
table carries the constant-buffer flag. -/
def layoutOneCBV : D3D12PipelineLayout :=
  { rootParameterLayout :=
      { numBufferCBV := 1, numBufferSRV := 0, numTextureSRV := 0, numBufferUAV := 0,
        numTextureUAV := 0, numSamplers := 0 }
    combinedStageFlags := 17
    GetBindFlagsByIndex := fun _ => flags.ConstantBuffer }

/-- The second scenario: one constant buffer declared, no resource view given. -/
def descEmpty : ResourceHeapDescriptor :=
  { pipelineLayout := some layoutOneCBV, resourceViews := [] }

/-- Resource views with a null resource. -/
def descWithNull : ResourceHeapDescriptor :=
  { pipelineLayout := some layout, resourceViews := [⟨some bufA⟩, ⟨none⟩, ⟨some samplerD⟩] }

end WorkedExample

/-! ## Further scenarios -/

namespace Scenarios

/-- A vertex buffer: a buffer whose bind flags hold none of the constant-buffer, sampled and
storage flags, so that it is of none of the six kinds. -/
def vertexBuf : Resource := { handle := 5, resourceType := .Buffer, bindFlags := 1 }

/-- Layout with one sampler and nothing else. -/
def layoutOneSampler : D3D12PipelineLayout :=
  { rootParameterLayout :=
      { numBufferCBV := 0, numBufferSRV := 0, numTextureSRV := 0, numBufferUAV := 0,
        numTextureUAV := 0, numSamplers := 1 }
    combinedStageFlags := 17
    GetBindFlagsByIndex := fun _ => 0 }

/-- One sampler declared; resource views: a vertex buffer, then the sampler. -/
def descStray : ResourceHeapDescriptor :=
  { pipelineLayout := some layoutOneSampler
    resourceViews := [⟨some vertexBuf⟩, ⟨some WorkedExample.samplerD⟩] }

/-- As `descStray`, the two resource views swapped. -/
def descStraySwapped : ResourceHeapDescriptor :=
  { pipelineLayout := some layoutOneSampler
    resourceViews := [⟨some WorkedExample.samplerD⟩, ⟨some vertexBuf⟩] }

/-- Layout with one constant buffer and one sampler; the bind-flag table is read
periodically: constant buffer at even indices, no flag at odd indices. -/
def layoutCBVSampler : D3D12PipelineLayout :=
  { rootParameterLayout :=
      { numBufferCBV := 1, numBufferSRV := 0, numTextureSRV := 0, numBufferUAV := 0,
        numTextureUAV := 0, numSamplers := 1 }
    combinedStageFlags := 17
    GetBindFlagsByIndex := fun idx =>
      if idx % 2 = 0 then WorkedExample.flags.ConstantBuffer else 0 }

/-- A constant buffer. -/
def b1 : Resource :=
  { handle := 11, resourceType := .Buffer, bindFlags := WorkedExample.flags.ConstantBuffer }

/-- A constant buffer. -/
def b2 : Resource :=
  { handle := 12, resourceType := .Buffer, bindFlags := WorkedExample.flags.ConstantBuffer }

/-- A sampler. -/
def s1 : Resource := { handle := 13, resourceType := .Sampler, bindFlags := 0 }

/-- A sampler. -/
def s2 : Resource := { handle := 14, resourceType := .Sampler, bindFlags := 0 }

/-- Two sets worth of resources, grouped by kind: `[b1, b2, s1, s2]`. -/
def descGrouped : ResourceHeapDescriptor :=
  { pipelineLayout := some layoutCBVSampler
    resourceViews := [⟨some b1⟩, ⟨some b2⟩, ⟨some s1⟩, ⟨some s2⟩] }

/-- Two sets worth of resources, set after set: `[b1, s1, b2, s2]`. -/
def descSetAfterSet : ResourceHeapDescriptor :=
  { pipelineLayout := some layoutCBVSampler
    resourceViews := [⟨some b1⟩, ⟨some s1⟩, ⟨some b2⟩, ⟨some s2⟩] }

end Scenarios

/-- A resource view is counted by a counting loop when its resource is not null and of a
counted type. -/
def ResourceViewDescriptor.isCounted (isCounted : ResourceType → Bool)
    (resourceView : ResourceViewDescriptor) : Bool :=
  match resourceView.resource with
  | some resource => isCounted resource.resourceType
  | none => false

/-- Views written by one descriptor set that starts with the cursors `cursorCbvSrvUav` and
`cursorSampler` and whose pass of kind `k` writes the first `m k` resources of kind `k` of
`views` (the resource views from the start index of the set on): pass after pass, each view
one increment after the one before in its heap. -/
def descriptorSetWrites (fc : FlagConstants) (device : ID3D12Device)
    (views : List ResourceViewDescriptor) (cursorCbvSrvUav cursorSampler : Nat)
    (m : BindingKind → Nat) : List DescriptorWrite :=
  let rs := fun k => (kindResources fc k views).take (m k)
  let stride := device.GetDescriptorHandleIncrementSize .CBV_SRV_UAV
  let c1 := advanceCursor stride cursorCbvSrvUav (rs .BufferCBV).length
  let c2 := advanceCursor stride c1 (rs .BufferSRV).length
  let c3 := advanceCursor stride c2 (rs .TextureSRV).length
  let c4 := advanceCursor stride c3 (rs .BufferUAV).length
  viewRun .CBV_SRV_UAV .ConstantBufferView stride cursorCbvSrvUav (rs .BufferCBV) ++
    (viewRun .CBV_SRV_UAV .ShaderResourceView stride c1 (rs .BufferSRV) ++
    (viewRun .CBV_SRV_UAV .ShaderResourceView stride c2 (rs .TextureSRV) ++
    (viewRun .CBV_SRV_UAV .UnorderedAccessView stride c3 (rs .BufferUAV) ++
    (viewRun .CBV_SRV_UAV .UnorderedAccessView stride c4 (rs .TextureUAV) ++
    viewRun .SAMPLER .SamplerView (device.GetDescriptorHandleIncrementSize .SAMPLER)
      cursorSampler (rs .Samplers)))))

/-- Position in the loop body of the pass that writes a view of this kind for a resource of
this type: constant-buffer views 0, buffer SRVs 1, texture SRVs 2, buffer UAVs 3, texture
UAVs 4, sampler views 5. -/
def DescriptorWrite.passRank (w : DescriptorWrite) : Nat :=
  match w.view, w.resource.resourceType with
  | .ConstantBufferView, _ => 0
  | .ShaderResourceView, .Buffer => 1
  | .ShaderResourceView, _ => 2
  | .UnorderedAccessView, .Buffer => 3
  | .UnorderedAccessView, _ => 4
  | .SamplerView, _ => 5

/-- Order of two views of one descriptor set: the first is written by the same or an earlier
pass, and when the second lies in the combined-view heap the first lies at a lower address. -/
def DescriptorWrite.Before (a b : DescriptorWrite) : Prop :=
  a.passRank ≤ b.passRank ∧ (b.passRank ≤ 4 → a.ptr < b.ptr)

/-- The views written by the `j`-th iteration of the loop body (descriptor set `j`, counted
from 0) when the loop is started at `st`. -/
def descriptorSetViews (fc : FlagConstants) (device : ID3D12Device)
    (desc : ResourceHeapDescriptor) (pipelineLayout : D3D12PipelineLayout)
    (st : HeapBuildState) (j : Nat) : List DescriptorWrite :=
  (descriptorSetStates fc device desc pipelineLayout st (j + 1)).written.drop
    (descriptorSetStates fc device desc pipelineLayout st j).written.length

/-- The resources whose views were written to a heap, in the order of writing. -/
def viewsWrittenTo (heapType : D3D12_DESCRIPTOR_HEAP_TYPE) (written : List DescriptorWrite) :
    List Resource :=
  (written.filter (fun w => decide (w.heapType = heapType))).map (fun w => w.resource)

/-- The descriptor heaps that the device created in the course of a construction: those
created before the exception, or those recorded in the finished object. -/
def Construction.heaps : Construction → List ID3D12DescriptorHeap
  | .failed _ heapsCreated => heapsCreated
  | .constructed heap _ => heap.descriptorHeaps

/-- Number of resource views whose resource is a buffer or a texture. -/
def numCbvSrvUavViews (views : List ResourceViewDescriptor) : Nat :=
  views.countP
    (ResourceViewDescriptor.isCounted (fun resType => resType = .Buffer || resType = .Texture))

/-- Number of resource views whose resource is a sampler. -/
def numSamplerViews (views : List ResourceViewDescriptor) : Nat :=
  views.countP (ResourceViewDescriptor.isCounted (fun resType => resType = .Sampler))

/-- The condition of the do/while loop, evaluated after an iteration that led from `st` to
`next`: `bindingIndex < desc.resourceViews.size() && firstResourceIndex < bindingIndex`. -/
def loopContinues (desc : ResourceHeapDescriptor) (st next : HeapBuildState) : Prop :=
  next.bindingIndex < desc.resourceViews.length ∧ st.bindingIndex < next.bindingIndex

/-- The stride stored in `descriptorHandleStrides_[0]`. -/
def strideCbvSrvUav (device : ID3D12Device) (rl : D3D12RootParameterLayout) : Nat :=
  ((rl.numBufferCBV + rl.numBufferSRV + rl.numTextureSRV + rl.numBufferUAV + rl.numTextureUAV) *
    device.GetDescriptorHandleIncrementSize .CBV_SRV_UAV) % 2 ^ 32

/-- The stride stored in `descriptorHandleStrides_[1]`. -/
def strideSampler (device : ID3D12Device) (rl : D3D12RootParameterLayout) : Nat :=
  (rl.numSamplers * device.GetDescriptorHandleIncrementSize .SAMPLER) % 2 ^ 32

namespace Scenarios

/-- One complete set and a partial one: `[b1, s1, b2]` for a layout with one constant buffer
and one sampler. -/
def descWithTail : ResourceHeapDescriptor :=
  { pipelineLayout := some layoutCBVSampler
    resourceViews := [⟨some b1⟩, ⟨some s1⟩, ⟨some b2⟩] }

end Scenarios

/-- The views written in the course of a construction.  The loop that writes them is the last
part of the constructor, after every statement that can throw, so an exception leaves no
view written. -/
def Construction.written : Construction → List DescriptorWrite
  | .failed _ _ => []
  | .constructed _ written => written

/-- The descriptor sets counted in the course of a construction (`numDescriptorSets_` is
incremented in the loop only). -/
def Construction.numDescriptorSets : Construction → Nat
  | .failed _ _ => 0
  | .constructed heap _ => heap.numDescriptorSets

/-! ## Direct3D 11: device creation

Shallow embedding of `D3D11RenderSystem::CreateDevice`
(`sources/Renderer/Direct3D11/D3D11RenderSystem.cpp`, lines 522-553).  The Direct3D call
`D3D11CreateDevice`, the helpers `DXGetFeatureLevels` and `DXThrowIfFailed`, the build flag
`LLGL_DEBUG` and the constant `D3D11_CREATE_DEVICE_DEBUG` are not among the sources and are
taken as parameters.  An `HRESULT` is a signed integer. -/

/-- The driver types that `CreateDevice` names. -/
inductive D3D_DRIVER_TYPE where
  | D3D_DRIVER_TYPE_HARDWARE
  | D3D_DRIVER_TYPE_WARP
  | D3D_DRIVER_TYPE_SOFTWARE
  deriving DecidableEq, Repr

/-- The Windows macro `SUCCEEDED(hr)`: `hr >= 0`. -/
def SUCCEEDED (hr : Int) : Bool := decide (0 ≤ hr)

/-- The Windows macro `FAILED(hr)`: `hr < 0`. -/
def FAILED (hr : Int) : Bool := decide (hr < 0)

/-- Result and output arguments of one call of `D3D11CreateDevice`. -/
structure D3D11CreateDeviceOutput where
  hr : Int
  device : Option Nat
  featureLevel : Nat
  context : Option Nat
  deriving DecidableEq, Repr

/-- What `CreateDevice` takes from outside the sources: the build flag `LLGL_DEBUG`, the value
of `D3D11_CREATE_DEVICE_DEBUG`, the list `DXGetFeatureLevels(D3D_FEATURE_LEVEL_11_1)`, the
call `D3D11CreateDevice` (adapter, driver type, flags, feature levels) and the helper
`DXThrowIfFailed` (`true` when it throws for the `HRESULT` given). -/
structure D3D11Environment where
  LLGL_DEBUG : Bool
  D3D11_CREATE_DEVICE_DEBUG : Nat
  featureLevels : List Nat
  D3D11CreateDevice : Option Nat → D3D_DRIVER_TYPE → Nat → List Nat → D3D11CreateDeviceOutput
  DXThrowIfFailed : Int → Bool

/-- The members of `D3D11RenderSystem` that `CreateDevice` writes. -/
structure D3D11RenderSystem where
  device_ : Option Nat
  featureLevel_ : Nat
  context_ : Option Nat
  deriving DecidableEq, Repr

/-- Outcome of `CreateDevice`: the object, the driver types for which `D3D11CreateDevice` was
called, in call order, and the message of the exception when one is thrown. -/
structure CreateDeviceOutcome where
  self : D3D11RenderSystem
  tried : List D3D_DRIVER_TYPE
  thrown : Option String
  deriving DecidableEq, Repr

/-- The range-based `for` loop of `CreateDevice` (lines 533-550) over the remaining driver
types.  The result of `D3D11CreateDevice` is bound to the variable `hr` that the loop body
declares (`auto hr = ...`); `break` when it succeeded. -/
def D3D11RenderSystem.CreateDevice.loop (env : D3D11Environment) (adapter : Option Nat)
    (flags : Nat) :
    List D3D_DRIVER_TYPE → D3D11RenderSystem → List D3D_DRIVER_TYPE →
      D3D11RenderSystem × List D3D_DRIVER_TYPE
  | [], self, tried => (self, tried)
  | driver :: rest, _, tried =>
    let out := env.D3D11CreateDevice adapter driver flags env.featureLevels
    let self : D3D11RenderSystem :=
      { device_ := out.device, featureLevel_ := out.featureLevel, context_ := out.context }
    let hr := out.hr
    if SUCCEEDED hr then (self, tried ++ [driver])
    else D3D11RenderSystem.CreateDevice.loop env adapter flags rest self (tried ++ [driver])

/-- Function `D3D11RenderSystem::CreateDevice` (lines 522-553).  The variable `hr` of the
function body is initialised with 0 and is the one that `DXThrowIfFailed` receives after the
loop; the loop body declares a variable `hr` of its own. -/
def D3D11RenderSystem.CreateDevice (env : D3D11Environment) (self : D3D11RenderSystem)
    (adapter : Option Nat) : CreateDeviceOutcome :=
  let hr : Int := 0
  let flags : Nat := 0
  let flags := if env.LLGL_DEBUG then flags ||| env.D3D11_CREATE_DEVICE_DEBUG else flags
  let r := D3D11RenderSystem.CreateDevice.loop env adapter flags
    [.D3D_DRIVER_TYPE_HARDWARE, .D3D_DRIVER_TYPE_WARP, .D3D_DRIVER_TYPE_SOFTWARE] self []
  { self := r.1
    tried := r.2
    thrown := if env.DXThrowIfFailed hr then some "failed to create D3D11 device" else none }

namespace Scenarios

/-- The `HRESULT` value `E_FAIL` (`0x80004005` as a signed 32-bit integer). -/
def E_FAIL : Int := -2147467259

/-- A system on which `D3D11CreateDevice` fails for every driver type; `DXThrowIfFailed`
throws for the failed `HRESULT`s. -/
def envNoDevice : D3D11Environment :=
  { LLGL_DEBUG := false
    D3D11_CREATE_DEVICE_DEBUG := 2
    featureLevels := [45312, 45056]
    D3D11CreateDevice := fun _ _ _ _ => ⟨E_FAIL, none, 0, none⟩
    DXThrowIfFailed := FAILED }

/-- A system without hardware device on which the WARP driver works. -/
def envWarp : D3D11Environment :=
  { LLGL_DEBUG := false
    D3D11_CREATE_DEVICE_DEBUG := 2
    featureLevels := [45312, 45056]
    D3D11CreateDevice := fun _ driver _ _ =>
      match driver with
      | .D3D_DRIVER_TYPE_HARDWARE => ⟨E_FAIL, none, 0, none⟩
      | _ => ⟨0, some 1, 45056, some 2⟩
    DXThrowIfFailed := FAILED }

end Scenarios

/-! ## Direct3D 11: shader program

Shallow embedding of `sources/Renderer/Direct3D11/Shader/D3D11ShaderProgram.cpp`.  Not among
the sources and taken as parameters: the value of `ShaderType::Vertex`, the helper `ToHex`,
`ShaderProgram::ValidateShaderComposition`, `D3D11Types::Map`, the device call
`CreateInputLayout`, `DXThrowIfFailed`, and the member `vs_` (the class declaration is in the
header).  Pointers are numbers, 0 for `nullptr`. -/

/-- The values of `LinkError` that the file assigns. -/
inductive LinkError where
  | NoError
  | InvalidComposition
  | InvalidByteCode
  deriving DecidableEq, Repr

/-- What the shader program reads of a `D3D11Shader`: its type (`GetType()`, as the value of
the enumeration), its native shader object (`GetNative().vs`) and its byte code
(`GetByteCode()`). -/
structure D3D11Shader where
  type : Nat
  native : Nat
  byteCode : List Nat
  deriving DecidableEq, Repr

/-- The members of `D3D11ShaderProgram` that the file names, `vs_` apart: the six shader
slots, the input layout and the link error. -/
structure D3D11ShaderProgram where
  shaders_ : Fin 6 → Option D3D11Shader
  inputLayout_ : Option Nat
  linkError_ : LinkError

/-- Function `D3D11ShaderProgram::AttachShader` (lines 29-41).  The slot index is computed in
`std::size_t` (64-bit, wrapping); the exception carries its message. -/
def D3D11ShaderProgram.AttachShader (shaderTypeVertex : Nat) (ToHex : Nat → String)
    (self : D3D11ShaderProgram) (shader : D3D11Shader) : Except String D3D11ShaderProgram :=
  let shaderType0Idx := shaderTypeVertex % 2 ^ 64
  let shaderTypeNIdx := (shader.type % 2 ^ 64 + 2 ^ 64 - shaderType0Idx) % 2 ^ 64
  if h : shaderTypeNIdx < 6 then
    .ok { self with shaders_ := Function.update self.shaders_ ⟨shaderTypeNIdx, h⟩ (some shader) }
  else
    .error ("cannot attach shader with invalid type: 0x" ++ ToHex shaderTypeNIdx)

/-- Function `D3D11ShaderProgram::DetachAll` (lines 43-49). -/
def D3D11ShaderProgram.DetachAll (_self : D3D11ShaderProgram) : D3D11ShaderProgram :=
  { shaders_ := fun _ => none
    inputLayout_ := none
    linkError_ := .NoError }

/-- Function `D3D11ShaderProgram::LinkShaders` (lines 51-71): the return value and the
object.  The loop runs over the six slots in index order. -/
def D3D11ShaderProgram.LinkShaders
    (ValidateShaderComposition : (Fin 6 → Option D3D11Shader) → Bool)
    (self : D3D11ShaderProgram) : Bool × D3D11ShaderProgram :=
  let linkError := LinkError.NoError
  let linkError := ([0, 1, 2, 3, 4, 5] : List (Fin 6)).foldl
    (fun linkError i =>
      match self.shaders_ i with
      | some shader => if shader.native = 0 then LinkError.InvalidByteCode else linkError
      | none => linkError)
    linkError
  let linkError :=
    if !ValidateShaderComposition self.shaders_ then LinkError.InvalidComposition else linkError
  (linkError == LinkError.NoError, { self with linkError_ := linkError })

/-- What `BuildInputLayout` reads of a `VertexAttribute`. -/
structure VertexAttribute where
  name : String
  vectorType : Nat
  instanceDivisor : Nat
  offset : Nat
  semanticIndex : Nat
  deriving DecidableEq, Repr

/-- What `BuildInputLayout` reads of a `VertexFormat`. -/
structure VertexFormat where
  attributes : List VertexAttribute
  inputSlot : Nat
  deriving DecidableEq, Repr

/-- The two values of `D3D11_INPUT_CLASSIFICATION`. -/
inductive D3D11_INPUT_CLASSIFICATION where
  | D3D11_INPUT_PER_VERTEX_DATA
  | D3D11_INPUT_PER_INSTANCE_DATA
  deriving DecidableEq, Repr

/-- The Direct3D structure `D3D11_INPUT_ELEMENT_DESC`. -/
structure D3D11_INPUT_ELEMENT_DESC where
  SemanticName : String
  SemanticIndex : Nat
  Format : Nat
  InputSlot : Nat
  AlignedByteOffset : Nat
  InputSlotClass : D3D11_INPUT_CLASSIFICATION
  InstanceDataStepRate : Nat
  deriving DecidableEq, Repr

/-- Exceptions of `BuildInputLayout`: the `std::runtime_error` of line 116, the
`std::invalid_argument` of `GetInputElementFormat` with its message, and the exception of
`DXThrowIfFailed` after `CreateInputLayout`. -/
inductive InputLayoutError where
  | noValidVertexShader
  | invalidVertexAttribute (what : String)
  | createInputLayoutFailed
  deriving DecidableEq, Repr

/-- Message of the exception, where the file gives it. -/
def InputLayoutError.what : InputLayoutError → String
  | .noValidVertexShader => "cannot build input layout without valid vertex shader"
  | .invalidVertexAttribute what => what
  | .createInputLayoutFailed => "failed to create D3D11 input layout"

/-- Arguments of one call of `ID3D11Device::CreateInputLayout`. -/
structure CreateInputLayoutCall where
  pInputElementDescs : List D3D11_INPUT_ELEMENT_DESC
  NumElements : Nat
  pShaderBytecodeWithInputSignature : List Nat
  BytecodeLength : Nat
  deriving DecidableEq, Repr

/-- Outcome of `BuildInputLayout`: the object, the calls of `CreateInputLayout` made, and the
exception when one is thrown. -/
structure BuildInputLayoutOutcome where
  self : D3D11ShaderProgram
  calls : List CreateInputLayoutCall
  thrown : Option InputLayoutError

/-- The C string that `std::string::c_str()` hands to a reader of C strings: the characters
before the first NUL character. -/
def c_str (str : String) : String :=
  String.mk (str.toList.takeWhile (fun c => c != Char.ofNat 0))

/-- Function `GetInputElementFormat` (lines 98-108): the format that `D3D11Types::Map` gives
for the vector type, or its exception with the name of the attribute appended. -/
def GetInputElementFormat (Map : Nat → Except String Nat) (attrib : VertexAttribute) :
    Except String Nat :=
  match Map attrib.vectorType with
  | .ok format => .ok format
  | .error what => .error (what ++ " (for vertex attribute \"" ++ attrib.name ++ "\")")

/-- The inner loop of `BuildInputLayout` (lines 123-136) over the remaining attributes of one
vertex format: one element is pushed to `inputElements` per attribute. -/
def D3D11ShaderProgram.BuildInputLayout.attributes (Map : Nat → Except String Nat)
    (inputSlot : Nat) :
    List VertexAttribute → List D3D11_INPUT_ELEMENT_DESC →
      Except String (List D3D11_INPUT_ELEMENT_DESC)
  | [], inputElements => .ok inputElements
  | attrib :: rest, inputElements =>
    match GetInputElementFormat Map attrib with
    | .error what => .error what
    | .ok format =>
      let elementDesc : D3D11_INPUT_ELEMENT_DESC :=
        { SemanticName := c_str attrib.name
          SemanticIndex := attrib.semanticIndex
          Format := format
          InputSlot := inputSlot
          AlignedByteOffset := attrib.offset
          InputSlotClass :=
            if attrib.instanceDivisor > 0 then .D3D11_INPUT_PER_INSTANCE_DATA
            else .D3D11_INPUT_PER_VERTEX_DATA
          InstanceDataStepRate := attrib.instanceDivisor }
      D3D11ShaderProgram.BuildInputLayout.attributes Map inputSlot rest
        (inputElements ++ [elementDesc])

/-- The outer loop of `BuildInputLayout` (lines 121-137) over the remaining vertex
formats. -/
def D3D11ShaderProgram.BuildInputLayout.formats (Map : Nat → Except String Nat) :
    List VertexFormat → List D3D11_INPUT_ELEMENT_DESC →
      Except String (List D3D11_INPUT_ELEMENT_DESC)
  | [], inputElements => .ok inputElements
  | vertexFormat :: rest, inputElements =>
    match D3D11ShaderProgram.BuildInputLayout.attributes Map vertexFormat.inputSlot
        vertexFormat.attributes inputElements with
    | .error what => .error what
    | .ok inputElements => D3D11ShaderProgram.BuildInputLayout.formats Map rest inputElements

/-- Function `D3D11ShaderProgram::BuildInputLayout` (lines 110-149).  `vertexFormats` is
`none` for a null pointer and otherwise the array pointed to, of which the first
`numVertexFormats` entries are read (the array must hold as many); `vs_` is the member of
that name.  The element count is cast to `UINT`. -/
def D3D11ShaderProgram.BuildInputLayout (Map : Nat → Except String Nat)
    (CreateInputLayout : CreateInputLayoutCall → Int × Option Nat)
    (DXThrowIfFailed : Int → Bool) (vs_ : Option D3D11Shader)
    (self : D3D11ShaderProgram) (numVertexFormats : Nat)
    (vertexFormats : Option (List VertexFormat)) : BuildInputLayoutOutcome :=
  match vertexFormats with
  | none => { self := self, calls := [], thrown := none }
  | some vertexFormats =>
    if numVertexFormats = 0 then { self := self, calls := [], thrown := none }
    else
      match vs_ with
      | none => { self := self, calls := [], thrown := some .noValidVertexShader }
      | some vs =>
        if vs.byteCode.isEmpty then
          { self := self, calls := [], thrown := some .noValidVertexShader }
        else
          match D3D11ShaderProgram.BuildInputLayout.formats Map
              (vertexFormats.take numVertexFormats) [] with
          | .error what =>
            { self := self, calls := [], thrown := some (.invalidVertexAttribute what) }
          | .ok inputElements =>
            let call : CreateInputLayoutCall :=
              { pInputElementDescs := inputElements
                NumElements := inputElements.length % 2 ^ 32
                pShaderBytecodeWithInputSignature := vs.byteCode
                BytecodeLength := vs.byteCode.length }
            let r := CreateInputLayout call
            { self := { self with inputLayout_ := r.2 }
              calls := [call]
              thrown := if DXThrowIfFailed r.1 then some .createInputLayoutFailed else none }

/-- The format of a vector type that `D3D11Types::Map` maps (0 where it throws). -/
def mappedFormat (Map : Nat → Except String Nat) (vectorType : Nat) : Nat :=
  match Map vectorType with
  | .ok format => format
  | .error _ => 0

/-- The input element that `BuildInputLayout` makes of an attribute of a vertex format with
the input slot `inputSlot`, the format being `format`; the semantic name is the name of the
attribute as a C string. -/
def inputElementOf (format : Nat → Nat) (inputSlot : Nat) (attrib : VertexAttribute) :
    D3D11_INPUT_ELEMENT_DESC :=
  { SemanticName := c_str attrib.name
    SemanticIndex := attrib.semanticIndex
    Format := format attrib.vectorType
    InputSlot := inputSlot
    AlignedByteOffset := attrib.offset
    InputSlotClass :=
      if attrib.instanceDivisor > 0 then .D3D11_INPUT_PER_INSTANCE_DATA
      else .D3D11_INPUT_PER_VERTEX_DATA
    InstanceDataStepRate := attrib.instanceDivisor }

/-- One input element per attribute, vertex formats in order and the attributes of each in
order. -/
def inputElementsOf (format : Nat → Nat) (vertexFormats : List VertexFormat) :
    List D3D11_INPUT_ELEMENT_DESC :=
  vertexFormats.flatMap
    (fun vertexFormat => vertexFormat.attributes.map (inputElementOf format vertexFormat.inputSlot))

namespace Scenarios

/-- A vertex shader with a native object and byte code. -/
def vertexShader : D3D11Shader := { type := 1, native := 7, byteCode := [68, 88, 66, 67] }

/-- A fragment shader whose native object is null. -/
def brokenFragmentShader : D3D11Shader := { type := 5, native := 0, byteCode := [] }

/-- A program with nothing attached. -/
def emptyProgram : D3D11ShaderProgram :=
  { shaders_ := fun _ => none, inputLayout_ := none, linkError_ := .NoError }

/-- Two vertex formats: positions and normals per vertex in slot 0, a per-instance colour in
slot 1. -/
def vertexFormats : List VertexFormat :=
  [ { attributes := [⟨"POSITION", 3, 0, 0, 0⟩, ⟨"NORMAL", 3, 0, 12, 0⟩], inputSlot := 0 },
    { attributes := [⟨"COLOR", 4, 1, 0, 0⟩], inputSlot := 1 } ]

/-- A vertex format whose only attribute has a NUL character inside its name. -/
def vertexFormatsNul : List VertexFormat :=
  [ { attributes := [⟨String.mk [Char.ofNat 80, Char.ofNat 79, Char.ofNat 0, Char.ofNat 83],
        3, 0, 0, 0⟩], inputSlot := 0 } ]

/-- A format table: vector type 3 is format 6, vector type 4 is format 2, nothing else is
mapped. -/
def mapFormat (vectorType : Nat) : Except String Nat :=
  if vectorType = 3 then .ok 6 else if vectorType = 4 then .ok 2
  else .error "failed to map vector type"

end Scenarios

/-! ## Lemmas on one pass -/

theorem emitView_bindingIndex (device : ID3D12Device) (k : BindingKind) (r : Resource)
    (st : HeapBuildState) : (emitView device k r st).bindingIndex = st.bindingIndex + 1 := by
  cases k <;> rfl

theorem loop_kindCallback (fc : FlagConstants) (device : ID3D12Device)
    (pipelineLayout : D3D12PipelineLayout) (k : BindingKind) :
    ∀ (views : List ResourceViewDescriptor) (n : Nat) (st : HeapBuildState),
      ForEachResourceViewOfType.loop k.resourceType (kindCallback fc device pipelineLayout k)
          views n st =
        ((kindResources fc k views).take
          (slotRun (pipelineLayout.slotAccepts fc k) st.bindingIndex n)).foldl
          (fun st r => emitView device k r st) st := by
  intro views
  induction views with
  | nil => intro n st; simp [ForEachResourceViewOfType.loop, kindResources]
  | cons rv rest ih =>
    intro n st
    cases n with
    | zero => simp [ForEachResourceViewOfType.loop, slotRun]
    | succ n =>
      cases hres : rv.resource with
      | none =>
        simp [ForEachResourceViewOfType.loop, hres, kindResources, ih]
      | some r =>
        by_cases hty : r.resourceType = k.resourceType
        · by_cases hacc : r.hasBindFlagsOf fc k = true
          · have hk : Resource.isOfKind fc k r = true := by
              simp [Resource.isOfKind, hty, hacc]
            by_cases hslot : pipelineLayout.slotAccepts fc k st.bindingIndex = true
            · have hcb : kindCallback fc device pipelineLayout k r st =
                  (true, emitView device k r st) := by
                simp [kindCallback, hacc, hslot]
              simp [ForEachResourceViewOfType.loop, hres, hty, hcb, kindResources, Option.filter,
                hk, slotRun, hslot, ih, emitView_bindingIndex]
            · have hcb : kindCallback fc device pipelineLayout k r st = (false, st) := by
                simp [kindCallback, hslot]
              have hrun : slotRun (pipelineLayout.slotAccepts fc k) st.bindingIndex (n + 1) = 0 := by
                simp [slotRun, hslot]
              simp [ForEachResourceViewOfType.loop, hres, hty, hcb, ih, hrun]
          · have hk : Resource.isOfKind fc k r = false := by
              simp [Resource.isOfKind, hty, hacc]
            have hcb : kindCallback fc device pipelineLayout k r st = (false, st) := by
              simp [kindCallback, hacc]
            simp [ForEachResourceViewOfType.loop, hres, hty, hcb, kindResources, Option.filter,
              hk, ih]
        · have hk : Resource.isOfKind fc k r = false := by
            simp [Resource.isOfKind, hty]
          simp [ForEachResourceViewOfType.loop, hres, hty, kindResources, Option.filter, hk, ih]

theorem flagCallback_eq (fc : FlagConstants) (device : ID3D12Device)
    (pipelineLayout : D3D12PipelineLayout) (k : BindingKind) (required : Nat)
    (hreq : k.requiredBindFlags fc = some required) :
    (fun (resource : Resource) (st : HeapBuildState) =>
      let m := MatchBindFlags pipelineLayout resource.bindFlags required st.bindingIndex
      if m.1 then
        (true, writeViewCbvSrvUav k.view (device.GetDescriptorHandleIncrementSize .CBV_SRV_UAV)
          resource { st with bindingIndex := m.2 })
      else (false, st)) = kindCallback fc device pipelineLayout k := by
  funext resource st
  have hk : k ≠ .Samplers := by
    intro h
    rw [h] at hreq
    simp [BindingKind.requiredBindFlags] at hreq
  have hemit : emitView device k resource st =
      writeViewCbvSrvUav k.view (device.GetDescriptorHandleIncrementSize .CBV_SRV_UAV) resource
        { st with bindingIndex := st.bindingIndex + 1 } := by
    cases k <;> first | rfl | exact absurd rfl hk
  by_cases h1 : resource.bindFlags &&& required = 0 <;>
    by_cases h2 : pipelineLayout.GetBindFlagsByIndex st.bindingIndex &&& required = 0 <;>
    simp [MatchBindFlags, kindCallback, Resource.hasBindFlagsOf,
      D3D12PipelineLayout.slotAccepts, hreq, h1, h2, hemit]

theorem CreateConstantBufferViews_eq (fc : FlagConstants) (device : ID3D12Device)
    (desc : ResourceHeapDescriptor) (pipelineLayout : D3D12PipelineLayout) (first : Nat)
    (st : HeapBuildState) :
    CreateConstantBufferViews fc device desc pipelineLayout first
        pipelineLayout.rootParameterLayout st =
      kindPass fc device desc pipelineLayout first .BufferCBV st := by
  have h := flagCallback_eq fc device pipelineLayout .BufferCBV fc.ConstantBuffer rfl
  simp only [BindingKind.view] at h
  simp only [CreateConstantBufferViews, kindPass, h]
  rfl

theorem CreateShaderResourceViews_eq (fc : FlagConstants) (device : ID3D12Device)
    (desc : ResourceHeapDescriptor) (pipelineLayout : D3D12PipelineLayout) (first : Nat)
    (st : HeapBuildState) :
    CreateShaderResourceViews fc device desc pipelineLayout first
        pipelineLayout.rootParameterLayout st =
      kindPass fc device desc pipelineLayout first .TextureSRV
        (kindPass fc device desc pipelineLayout first .BufferSRV st) := by
  have h1 := flagCallback_eq fc device pipelineLayout .BufferSRV fc.Sampled rfl
  have h2 := flagCallback_eq fc device pipelineLayout .TextureSRV fc.Sampled rfl
  simp only [BindingKind.view] at h1 h2
  simp only [CreateShaderResourceViews, kindPass, h1, h2]
  rfl

theorem CreateUnorderedAccessViews_eq (fc : FlagConstants) (device : ID3D12Device)
    (desc : ResourceHeapDescriptor) (pipelineLayout : D3D12PipelineLayout) (first : Nat)
    (st : HeapBuildState) :
    CreateUnorderedAccessViews fc device desc pipelineLayout first
        pipelineLayout.rootParameterLayout st =
      kindPass fc device desc pipelineLayout first .TextureUAV
        (kindPass fc device desc pipelineLayout first .BufferUAV st) := by
  have h1 := flagCallback_eq fc device pipelineLayout .BufferUAV fc.Storage rfl
  have h2 := flagCallback_eq fc device pipelineLayout .TextureUAV fc.Storage rfl
  simp only [BindingKind.view] at h1 h2
  simp only [CreateUnorderedAccessViews, kindPass, h1, h2]
  rfl

theorem CreateSamplers_eq (fc : FlagConstants) (device : ID3D12Device)
    (desc : ResourceHeapDescriptor) (pipelineLayout : D3D12PipelineLayout) (first : Nat)
    (st : HeapBuildState) :
    CreateSamplers device desc first pipelineLayout.rootParameterLayout st =
      kindPass fc device desc pipelineLayout first .Samplers st := by
  have h : (fun (resource : Resource) (st : HeapBuildState) =>
      let st := writeViewSampler (device.GetDescriptorHandleIncrementSize .SAMPLER) resource st
      ((true, { st with bindingIndex := st.bindingIndex + 1 }) : Bool × HeapBuildState)) =
      kindCallback fc device pipelineLayout .Samplers := by
    funext resource st
    simp [kindCallback, Resource.hasBindFlagsOf, D3D12PipelineLayout.slotAccepts,
      BindingKind.requiredBindFlags, emitView]
  simp only [CreateSamplers, kindPass, h]
  rfl

/-- One descriptor set is the six passes in the order CBV, buffer SRV, texture SRV, buffer UAV,
texture UAV, sampler, followed by the increment of the set counter. -/
theorem createDescriptorSet_eq (fc : FlagConstants) (device : ID3D12Device)
    (desc : ResourceHeapDescriptor) (pipelineLayout : D3D12PipelineLayout)
    (st : HeapBuildState) :
    createDescriptorSet fc device desc pipelineLayout st =
      let first := st.bindingIndex
      let st6 := kindPass fc device desc pipelineLayout first .Samplers
        (kindPass fc device desc pipelineLayout first .TextureUAV
        (kindPass fc device desc pipelineLayout first .BufferUAV
        (kindPass fc device desc pipelineLayout first .TextureSRV
        (kindPass fc device desc pipelineLayout first .BufferSRV
        (kindPass fc device desc pipelineLayout first .BufferCBV st)))))
      { st6 with numDescriptorSets := (st6.numDescriptorSets + 1) % 2 ^ 32 } := by
  simp only [createDescriptorSet, CreateConstantBufferViews_eq, CreateShaderResourceViews_eq,
    CreateUnorderedAccessViews_eq, CreateSamplers_eq fc]

theorem foldl_emitView (device : ID3D12Device) (k : BindingKind) :
    ∀ (rs : List Resource) (st : HeapBuildState),
      rs.foldl (fun st r => emitView device k r st) st = applyRun device k rs st := by
  intro rs
  induction rs with
  | nil => intro st; cases k <;> simp [applyRun, BindingKind.heapType, advanceCursor, viewRun]
  | cons r rs ih =>
    intro st
    rw [List.foldl_cons, ih]
    cases k <;>
      simp [applyRun, emitView, BindingKind.heapType, advanceCursor, viewRun, kindStride,
        writeViewCbvSrvUav, writeViewSampler, BindingKind.view, Nat.add_assoc, Nat.add_comm 1]

theorem kindPass_eq (fc : FlagConstants) (device : ID3D12Device) (desc : ResourceHeapDescriptor)
    (pipelineLayout : D3D12PipelineLayout) (first : Nat) (k : BindingKind)
    (st : HeapBuildState) :
    kindPass fc device desc pipelineLayout first k st =
      applyRun device k (passResources fc desc pipelineLayout first k st.bindingIndex) st := by
  rw [kindPass, ForEachResourceViewOfType, loop_kindCallback, foldl_emitView, passResources]

theorem applyRun_bindingIndex (device : ID3D12Device) (k : BindingKind) (rs : List Resource)
    (st : HeapBuildState) : (applyRun device k rs st).bindingIndex = st.bindingIndex + rs.length := by
  cases k <;> rfl

theorem applyRun_numDescriptorSets (device : ID3D12Device) (k : BindingKind) (rs : List Resource)
    (st : HeapBuildState) : (applyRun device k rs st).numDescriptorSets = st.numDescriptorSets := by
  cases k <;> rfl

theorem applyRun_written (device : ID3D12Device) (k : BindingKind) (rs : List Resource)
    (st : HeapBuildState) :
    (applyRun device k rs st).written =
      st.written ++ viewRun k.heapType k.view (kindStride device k) (kindCursor k st) rs := by
  cases k <;> rfl

/-! ## A descriptor set whose resources are all there -/

theorem slotRun_full (slotOk : Nat → Bool) :
    ∀ (n b : Nat), (∀ i, i < n → slotOk (b + i) = true) → slotRun slotOk b n = n := by
  intro n
  induction n with
  | zero => intro b _; rfl
  | succ n ih =>
    intro b h
    have h0 : slotOk b = true := by simpa using h 0 (by omega)
    have hrest : ∀ i, i < n → slotOk (b + 1 + i) = true := by
      intro i hi
      have := h (i + 1) (by omega)
      rwa [show b + 1 + i = b + (i + 1) by omega]
    rw [slotRun, if_pos h0, ih (b + 1) hrest]

theorem kindResources_append (fc : FlagConstants) (k : BindingKind)
    (xs ys : List ResourceViewDescriptor) :
    kindResources fc k (xs ++ ys) = kindResources fc k xs ++ kindResources fc k ys := by
  simp [kindResources, List.filterMap_append]

theorem kindPass_full (fc : FlagConstants) (device : ID3D12Device)
    (desc : ResourceHeapDescriptor) (pipelineLayout : D3D12PipelineLayout) (first : Nat)
    (k : BindingKind) (st : HeapBuildState) (block rest : List ResourceViewDescriptor)
    (hdrop : desc.resourceViews.drop first = block ++ rest)
    (hcount : kindCount fc k block = pipelineLayout.rootParameterLayout.count k)
    (hslots : ∀ i, i < pipelineLayout.rootParameterLayout.count k →
      pipelineLayout.slotAccepts fc k (st.bindingIndex + i) = true) :
    kindPass fc device desc pipelineLayout first k st =
      applyRun device k (kindResources fc k block) st := by
  rw [kindPass_eq, passResources, hdrop, kindResources_append, slotRun_full _ _ _ hslots,
    ← hcount, kindCount, List.take_left]

theorem createDescriptorSet_full (fc : FlagConstants) (device : ID3D12Device)
    (desc : ResourceHeapDescriptor) (pipelineLayout : D3D12PipelineLayout)
    (st : HeapBuildState) (block rest : List ResourceViewDescriptor)
    (hdrop : desc.resourceViews.drop st.bindingIndex = block ++ rest)
    (hcount : ∀ k, kindCount fc k block = pipelineLayout.rootParameterLayout.count k)
    (hvalid : pipelineLayout.SlotsValid fc st.bindingIndex) :
    createDescriptorSet fc device desc pipelineLayout st =
      { applyBlock fc device block st with
        numDescriptorSets := ((applyBlock fc device block st).numDescriptorSets + 1) % 2 ^ 32 } := by
  have hlen : ∀ k, (kindResources fc k block).length =
      pipelineLayout.rootParameterLayout.count k := hcount
  rw [createDescriptorSet_eq]
  simp only
  rw [kindPass_full fc device desc pipelineLayout _ .BufferCBV st block rest hdrop (hcount _)
    (fun i hi => by simpa [D3D12RootParameterLayout.offset] using hvalid .BufferCBV i hi)]
  rw [kindPass_full fc device desc pipelineLayout _ .BufferSRV _ block rest hdrop (hcount _)
    (fun i hi => by
      simpa [D3D12RootParameterLayout.offset, D3D12RootParameterLayout.count,
        applyRun_bindingIndex, hlen] using hvalid .BufferSRV i hi)]
  rw [kindPass_full fc device desc pipelineLayout _ .TextureSRV _ block rest hdrop (hcount _)
    (fun i hi => by
      simpa [D3D12RootParameterLayout.offset, D3D12RootParameterLayout.count,
        applyRun_bindingIndex, hlen, Nat.add_assoc] using hvalid .TextureSRV i hi)]
  rw [kindPass_full fc device desc pipelineLayout _ .BufferUAV _ block rest hdrop (hcount _)
    (fun i hi => by
      simpa [D3D12RootParameterLayout.offset, D3D12RootParameterLayout.count,
        applyRun_bindingIndex, hlen, Nat.add_assoc] using hvalid .BufferUAV i hi)]
  rw [kindPass_full fc device desc pipelineLayout _ .TextureUAV _ block rest hdrop (hcount _)
    (fun i hi => by
      simpa [D3D12RootParameterLayout.offset, D3D12RootParameterLayout.count,
        applyRun_bindingIndex, hlen, Nat.add_assoc] using hvalid .TextureUAV i hi)]
  rw [kindPass_full fc device desc pipelineLayout _ .Samplers _ block rest hdrop (hcount _)
    (fun i hi => by
      simpa [D3D12RootParameterLayout.offset, D3D12RootParameterLayout.count,
        applyRun_bindingIndex, hlen, Nat.add_assoc] using hvalid .Samplers i hi)]
  rfl

theorem applyBlock_bindingIndex (fc : FlagConstants) (device : ID3D12Device)
    (block : List ResourceViewDescriptor) (st : HeapBuildState) (rl : D3D12RootParameterLayout)
    (hcount : ∀ k, kindCount fc k block = rl.count k) :
    (applyBlock fc device block st).bindingIndex = st.bindingIndex + rl.bindingsPerSet := by
  have hlen : ∀ k, (kindResources fc k block).length = rl.count k := hcount
  simp only [applyBlock, applyRun_bindingIndex, hlen, D3D12RootParameterLayout.count,
    D3D12RootParameterLayout.bindingsPerSet]
  omega

theorem applyBlock_numDescriptorSets (fc : FlagConstants) (device : ID3D12Device)
    (block : List ResourceViewDescriptor) (st : HeapBuildState) :
    (applyBlock fc device block st).numDescriptorSets = st.numDescriptorSets := by
  simp only [applyBlock, applyRun_numDescriptorSets]

/-! ## The loop -/

theorem createDescriptors_unfold (fc : FlagConstants) (device : ID3D12Device)
    (desc : ResourceHeapDescriptor) (pipelineLayout : D3D12PipelineLayout)
    (st : HeapBuildState) :
    createDescriptors fc device desc pipelineLayout st =
      if (createDescriptorSet fc device desc pipelineLayout st).bindingIndex
            < desc.resourceViews.length ∧
          st.bindingIndex < (createDescriptorSet fc device desc pipelineLayout st).bindingIndex then
        createDescriptors fc device desc pipelineLayout
          (createDescriptorSet fc device desc pipelineLayout st)
      else createDescriptorSet fc device desc pipelineLayout st := by
  rw [createDescriptors]

theorem createDescriptors_continue (fc : FlagConstants) (device : ID3D12Device)
    (desc : ResourceHeapDescriptor) (pipelineLayout : D3D12PipelineLayout)
    (st next : HeapBuildState) (hnext : createDescriptorSet fc device desc pipelineLayout st = next)
    (h1 : next.bindingIndex < desc.resourceViews.length) (h2 : st.bindingIndex < next.bindingIndex) :
    createDescriptors fc device desc pipelineLayout st =
      createDescriptors fc device desc pipelineLayout next := by
  rw [createDescriptors_unfold, hnext, if_pos ⟨h1, h2⟩]

theorem createDescriptors_stop (fc : FlagConstants) (device : ID3D12Device)
    (desc : ResourceHeapDescriptor) (pipelineLayout : D3D12PipelineLayout)
    (st next : HeapBuildState) (hnext : createDescriptorSet fc device desc pipelineLayout st = next)
    (h : ¬ (next.bindingIndex < desc.resourceViews.length ∧ st.bindingIndex < next.bindingIndex)) :
    createDescriptors fc device desc pipelineLayout st = next := by
  rw [createDescriptors_unfold, hnext, if_neg h]

/-- A single complete set: when the resource views hold the resources of one set and nothing
beyond the bindings of the layout, the loop runs once. -/
theorem createDescriptors_oneSet (fc : FlagConstants) (device : ID3D12Device)
    (desc : ResourceHeapDescriptor) (pipelineLayout : D3D12PipelineLayout)
    (st : HeapBuildState) (hst : st.bindingIndex = 0)
    (hcount : ∀ k, kindCount fc k desc.resourceViews = pipelineLayout.rootParameterLayout.count k)
    (hvalid : pipelineLayout.SlotsValid fc 0)
    (hlen : desc.resourceViews.length ≤ pipelineLayout.rootParameterLayout.bindingsPerSet) :
    createDescriptors fc device desc pipelineLayout st =
      { applyBlock fc device desc.resourceViews st with
        numDescriptorSets := (st.numDescriptorSets + 1) % 2 ^ 32 } := by
  have hset := createDescriptorSet_full fc device desc pipelineLayout st desc.resourceViews []
    (by simp [hst]) hcount (by rw [hst]; exact hvalid)
  rw [applyBlock_numDescriptorSets] at hset
  refine createDescriptors_stop fc device desc pipelineLayout st _ hset ?_
  have hb := applyBlock_bindingIndex fc device desc.resourceViews st
    pipelineLayout.rootParameterLayout hcount
  simp only [hb, hst]
  omega

/-- Several complete sets: when the resource views are `k` consecutive groups of
`bindingsPerSet` entries, each holding the resources of one set, and the bind-flag table is in
line with the counts for each of the `k` sets, the loop runs `k` times. -/
theorem createDescriptors_sets (fc : FlagConstants) (device : ID3D12Device)
    (desc : ResourceHeapDescriptor) (pipelineLayout : D3D12PipelineLayout) (k : Nat)
    (hpos : 0 < pipelineLayout.rootParameterLayout.bindingsPerSet)
    (hlen : desc.resourceViews.length = k * pipelineLayout.rootParameterLayout.bindingsPerSet)
    (hblocks : ∀ j, j < k → ∀ kind,
      kindCount fc kind
        ((desc.resourceViews.drop (j * pipelineLayout.rootParameterLayout.bindingsPerSet)).take
          pipelineLayout.rootParameterLayout.bindingsPerSet) =
        pipelineLayout.rootParameterLayout.count kind)
    (hvalid : ∀ j, j < k →
      pipelineLayout.SlotsValid fc (j * pipelineLayout.rootParameterLayout.bindingsPerSet)) :
    ∀ (d j : Nat) (st : HeapBuildState), j + d + 1 = k →
      st.bindingIndex = j * pipelineLayout.rootParameterLayout.bindingsPerSet →
      (createDescriptors fc device desc pipelineLayout st).numDescriptorSets =
        (st.numDescriptorSets + d + 1) % 2 ^ 32 := by
  intro d
  induction d with
  | zero =>
    intro j st hj hst
    have hjk : j < k := by omega
    have hset := createDescriptorSet_full fc device desc pipelineLayout st _ _
      (by rw [hst]; exact (List.take_append_drop _ _).symm) (hblocks j hjk)
      (by rw [hst]; exact hvalid j hjk)
    rw [applyBlock_numDescriptorSets] at hset
    rw [createDescriptors_stop fc device desc pipelineLayout st _ hset ?_]
    simp only [applyBlock_bindingIndex fc device _ st pipelineLayout.rootParameterLayout
      (hblocks j hjk), hst, hlen]
    have hk : k = j + 1 := by omega
    rw [hk, Nat.succ_mul]
    omega
  | succ d ih =>
    intro j st hj hst
    have hjk : j < k := by omega
    have hset := createDescriptorSet_full fc device desc pipelineLayout st _ _
      (by rw [hst]; exact (List.take_append_drop _ _).symm) (hblocks j hjk)
      (by rw [hst]; exact hvalid j hjk)
    rw [applyBlock_numDescriptorSets] at hset
    have hb := applyBlock_bindingIndex fc device
      ((desc.resourceViews.drop (j * pipelineLayout.rootParameterLayout.bindingsPerSet)).take
        pipelineLayout.rootParameterLayout.bindingsPerSet) st
      pipelineLayout.rootParameterLayout (hblocks j hjk)
    have hnext : j * pipelineLayout.rootParameterLayout.bindingsPerSet +
        pipelineLayout.rootParameterLayout.bindingsPerSet =
        (j + 1) * pipelineLayout.rootParameterLayout.bindingsPerSet := by
      rw [Nat.succ_mul]
    have hlt : (j + 1) * pipelineLayout.rootParameterLayout.bindingsPerSet <
        k * pipelineLayout.rootParameterLayout.bindingsPerSet :=
      Nat.mul_lt_mul_of_pos_right (by omega) hpos
    rw [createDescriptors_continue fc device desc pipelineLayout st _ hset
      (by simp only [hb, hst, hnext, hlen]; exact hlt)
      (by simp only [hb, hst]; omega)]
    rw [ih (j + 1) _ (by omega) (by simp only [hb, hst, hnext])]
    simp only
    omega

/-! ## The constructor -/

theorem countDescriptors_null (isCounted : ResourceType → Bool) :
    ∀ (views : List ResourceViewDescriptor) (n : Nat),
      (∃ rv ∈ views, rv.resource = none) →
      countDescriptors isCounted views n = .error .nullPointerInResource := by
  intro views
  induction views with
  | nil => intro n h; simp at h
  | cons rv rest ih =>
    intro n h
    cases hres : rv.resource with
    | none => simp [countDescriptors, hres]
    | some r =>
      have hrest : ∃ rv ∈ rest, rv.resource = none := by
        obtain ⟨x, hx, hxn⟩ := h
        rcases List.mem_cons.mp hx with rfl | hx
        · rw [hres] at hxn; cases hxn
        · exact ⟨x, hx, hxn⟩
      simp [countDescriptors, hres, ih _ hrest]

theorem countDescriptors_ok (isCounted : ResourceType → Bool) :
    ∀ (views : List ResourceViewDescriptor) (n : Nat),
      (∀ rv ∈ views, rv.resource ≠ none) →
      ∃ m, countDescriptors isCounted views n = .ok m := by
  intro views
  induction views with
  | nil => intro n _; exact ⟨n, rfl⟩
  | cons rv rest ih =>
    intro n h
    cases hres : rv.resource with
    | none => exact absurd hres (h rv (List.mem_cons_self _ _))
    | some r =>
      have hrest : ∀ x ∈ rest, x.resource ≠ none := fun x hx => h x (List.mem_cons_of_mem _ hx)
      simp only [countDescriptors, hres]
      exact ih _ hrest

theorem CreateHeapTypeCbvSrvUav_ok (device : ID3D12Device) (desc : ResourceHeapDescriptor)
    (self : D3D12ResourceHeap)
    (hnull : ∀ rv ∈ desc.resourceViews, rv.resource ≠ none)
    (hdev : ∀ heapDesc, device.CreateDescriptorHeap heapDesc ≠ none) :
    ∃ self1 c1, CreateHeapTypeCbvSrvUav device desc self = .ok (self1, c1) ∧
      self1.numDescriptorSets = self.numDescriptorSets := by
  obtain ⟨m, hm⟩ := countDescriptors_ok (fun resType => resType = .Buffer || resType = .Texture)
    desc.resourceViews 0 hnull
  unfold CreateHeapTypeCbvSrvUav
  rw [hm]
  by_cases hpos : m > 0
  · cases hcre : device.CreateDescriptorHeap ⟨.CBV_SRV_UAV, m⟩ with
    | none => exact absurd hcre (hdev _)
    | some start => simp [hpos, hcre, AppendDescriptorHeapToArray]
  · simp [hpos]

theorem CreateHeapTypeSampler_ok (device : ID3D12Device) (desc : ResourceHeapDescriptor)
    (self : D3D12ResourceHeap)
    (hnull : ∀ rv ∈ desc.resourceViews, rv.resource ≠ none)
    (hdev : ∀ heapDesc, device.CreateDescriptorHeap heapDesc ≠ none) :
    ∃ self2 c2, CreateHeapTypeSampler device desc self = .ok (self2, c2) ∧
      self2.numDescriptorSets = self.numDescriptorSets := by
  obtain ⟨m, hm⟩ := countDescriptors_ok (fun resType => resType = .Sampler)
    desc.resourceViews 0 hnull
  unfold CreateHeapTypeSampler
  rw [hm]
  by_cases hpos : m > 0
  · cases hcre : device.CreateDescriptorHeap ⟨.SAMPLER, m⟩ with
    | none => exact absurd hcre (hdev _)
    | some start => simp [hpos, hcre, AppendDescriptorHeapToArray]
  · simp [hpos]

theorem construct_of_ok (fc : FlagConstants) (device : ID3D12Device)
    (desc : ResourceHeapDescriptor) (pipelineLayout : D3D12PipelineLayout)
    (self1 self2 : D3D12ResourceHeap) (c1 c2 : Nat)
    (hc : CreateHeapTypeCbvSrvUav device desc D3D12ResourceHeap.initial = .ok (self1, c1))
    (hs : CreateHeapTypeSampler device desc self1 = .ok (self2, c2))
    (hl : desc.pipelineLayout = some pipelineLayout) :
    D3D12ResourceHeap.construct fc device desc =
      .constructed
        { self2 with
          hasGraphicsDescriptors :=
            (pipelineLayout.combinedStageFlags &&& fc.AllGraphicsStages) != 0
          hasComputeDescriptors := (pipelineLayout.combinedStageFlags &&& fc.ComputeStage) != 0
          descriptorHandleStrides :=
            (((pipelineLayout.rootParameterLayout.numBufferCBV +
                pipelineLayout.rootParameterLayout.numBufferSRV +
                pipelineLayout.rootParameterLayout.numTextureSRV +
                pipelineLayout.rootParameterLayout.numBufferUAV +
                pipelineLayout.rootParameterLayout.numTextureUAV) *
                device.GetDescriptorHandleIncrementSize .CBV_SRV_UAV) % 2 ^ 32,
             (pipelineLayout.rootParameterLayout.numSamplers *
                device.GetDescriptorHandleIncrementSize .SAMPLER) % 2 ^ 32)
          numDescriptorSets :=
            (createDescriptors fc device desc pipelineLayout
              { cpuDescHandleCbvSrvUav := c1, cpuDescHandleSampler := c2, bindingIndex := 0,
                numDescriptorSets := self2.numDescriptorSets, written := [] }).numDescriptorSets }
        (createDescriptors fc device desc pipelineLayout
          { cpuDescHandleCbvSrvUav := c1, cpuDescHandleSampler := c2, bindingIndex := 0,
            numDescriptorSets := self2.numDescriptorSets, written := [] }).written := by
  have hg : GetD3DPipelineLayout desc = .ok pipelineLayout := by
    simp [GetD3DPipelineLayout, hl]
  unfold D3D12ResourceHeap.construct
  rw [hc]
  simp only [hs, hg]

/-- With a pipeline layout, no null resource and a device that creates the heaps, the
constructor returns; its set count and views are those of the loop started with
`bindingIndex = 0`, set count 0 and an empty log. -/
theorem construct_succeeds (fc : FlagConstants) (device : ID3D12Device)
    (desc : ResourceHeapDescriptor) (pipelineLayout : D3D12PipelineLayout)
    (hl : desc.pipelineLayout = some pipelineLayout)
    (hnull : ∀ rv ∈ desc.resourceViews, rv.resource ≠ none)
    (hdev : ∀ heapDesc, device.CreateDescriptorHeap heapDesc ≠ none) :
    ∃ heap c1 c2,
      D3D12ResourceHeap.construct fc device desc =
        .constructed heap
          (createDescriptors fc device desc pipelineLayout
            { cpuDescHandleCbvSrvUav := c1, cpuDescHandleSampler := c2, bindingIndex := 0,
              numDescriptorSets := 0, written := [] }).written ∧
      heap.numDescriptorSets =
        (createDescriptors fc device desc pipelineLayout
            { cpuDescHandleCbvSrvUav := c1, cpuDescHandleSampler := c2, bindingIndex := 0,
              numDescriptorSets := 0, written := [] }).numDescriptorSets := by
  obtain ⟨self1, c1, hc, hn1⟩ :=
    CreateHeapTypeCbvSrvUav_ok device desc D3D12ResourceHeap.initial hnull hdev
  obtain ⟨self2, c2, hs, hn2⟩ := CreateHeapTypeSampler_ok device desc self1 hnull hdev
  have h0 : self2.numDescriptorSets = 0 := by rw [hn2, hn1]; rfl
  rw [construct_of_ok fc device desc pipelineLayout self1 self2 c1 c2 hc hs hl, h0]
  exact ⟨_, c1, c2, rfl, rfl⟩


/-! ## The worked example, evaluated -/

namespace WorkedExample

theorem firstSet :
    createDescriptorSet flags device desc layout initialState =
      { cpuDescHandleCbvSrvUav := 4160, cpuDescHandleSampler := 8224, bindingIndex := 3,
        numDescriptorSets := 1,
        written := [⟨.CBV_SRV_UAV, 4096, .ConstantBufferView, bufA⟩,
          ⟨.CBV_SRV_UAV, 4128, .ConstantBufferView, bufC⟩,
          ⟨.SAMPLER, 8192, .SamplerView, samplerD⟩] } := by
  decide

theorem secondSet :
    createDescriptorSet flags device desc layout
      { cpuDescHandleCbvSrvUav := 4160, cpuDescHandleSampler := 8224, bindingIndex := 3,
        numDescriptorSets := 1,
        written := [⟨.CBV_SRV_UAV, 4096, .ConstantBufferView, bufA⟩,
          ⟨.CBV_SRV_UAV, 4128, .ConstantBufferView, bufC⟩,
          ⟨.SAMPLER, 8192, .SamplerView, samplerD⟩] } =
      { cpuDescHandleCbvSrvUav := 4160, cpuDescHandleSampler := 8256, bindingIndex := 4,
        numDescriptorSets := 2,
        written := [⟨.CBV_SRV_UAV, 4096, .ConstantBufferView, bufA⟩,
          ⟨.CBV_SRV_UAV, 4128, .ConstantBufferView, bufC⟩,
          ⟨.SAMPLER, 8192, .SamplerView, samplerD⟩,
          ⟨.SAMPLER, 8224, .SamplerView, samplerD⟩] } := by
  decide

theorem loop_result :
    createDescriptors flags device desc layout initialState =
      { cpuDescHandleCbvSrvUav := 4160, cpuDescHandleSampler := 8256, bindingIndex := 4,
        numDescriptorSets := 2,
        written := [⟨.CBV_SRV_UAV, 4096, .ConstantBufferView, bufA⟩,
          ⟨.CBV_SRV_UAV, 4128, .ConstantBufferView, bufC⟩,
          ⟨.SAMPLER, 8192, .SamplerView, samplerD⟩,
          ⟨.SAMPLER, 8224, .SamplerView, samplerD⟩] } := by
  rw [createDescriptors_continue _ _ _ _ _ _ firstSet (by decide) (by decide)]
  exact createDescriptors_stop _ _ _ _ _ _ secondSet (by decide)

theorem construct_result :
    D3D12ResourceHeap.construct flags device desc =
      .constructed
        { heapTypeCbvSrvUav := some ⟨⟨.CBV_SRV_UAV, 3⟩, 4096⟩
          heapTypeSampler := some ⟨⟨.SAMPLER, 1⟩, 8192⟩
          descriptorHeaps := [⟨⟨.CBV_SRV_UAV, 3⟩, 4096⟩, ⟨⟨.SAMPLER, 1⟩, 8192⟩]
          numDescriptorHeaps := 2
          hasGraphicsDescriptors := true
          hasComputeDescriptors := false
          descriptorHandleStrides := (64, 32)
          numDescriptorSets := 2 }
        [⟨.CBV_SRV_UAV, 4096, .ConstantBufferView, bufA⟩,
          ⟨.CBV_SRV_UAV, 4128, .ConstantBufferView, bufC⟩,
          ⟨.SAMPLER, 8192, .SamplerView, samplerD⟩,
          ⟨.SAMPLER, 8224, .SamplerView, samplerD⟩] := by
  have hc : CreateHeapTypeCbvSrvUav device desc D3D12ResourceHeap.initial =
      .ok ({ D3D12ResourceHeap.initial with
              heapTypeCbvSrvUav := some ⟨⟨.CBV_SRV_UAV, 3⟩, 4096⟩
              descriptorHeaps := [⟨⟨.CBV_SRV_UAV, 3⟩, 4096⟩]
              numDescriptorHeaps := 1 }, 4096) := rfl
  have hs : CreateHeapTypeSampler device desc
      { D3D12ResourceHeap.initial with
              heapTypeCbvSrvUav := some ⟨⟨.CBV_SRV_UAV, 3⟩, 4096⟩
              descriptorHeaps := [⟨⟨.CBV_SRV_UAV, 3⟩, 4096⟩]
              numDescriptorHeaps := 1 } =
      .ok ({ D3D12ResourceHeap.initial with
              heapTypeCbvSrvUav := some ⟨⟨.CBV_SRV_UAV, 3⟩, 4096⟩
              heapTypeSampler := some ⟨⟨.SAMPLER, 1⟩, 8192⟩
              descriptorHeaps := [⟨⟨.CBV_SRV_UAV, 3⟩, 4096⟩, ⟨⟨.SAMPLER, 1⟩, 8192⟩]
              numDescriptorHeaps := 2 }, 8192) := rfl
  rw [construct_of_ok flags device desc layout _ _ _ _ hc hs rfl]
  have hloop := loop_result
  simp only [initialState] at hloop
  simp only [D3D12ResourceHeap.initial, hloop]
  decide

theorem construct_withoutTexture :
    D3D12ResourceHeap.construct flags device descWithoutTexture =
      .constructed
        { heapTypeCbvSrvUav := some ⟨⟨.CBV_SRV_UAV, 2⟩, 4096⟩
          heapTypeSampler := some ⟨⟨.SAMPLER, 1⟩, 8192⟩
          descriptorHeaps := [⟨⟨.CBV_SRV_UAV, 2⟩, 4096⟩, ⟨⟨.SAMPLER, 1⟩, 8192⟩]
          numDescriptorHeaps := 2
          hasGraphicsDescriptors := true
          hasComputeDescriptors := false
          descriptorHandleStrides := (64, 32)
          numDescriptorSets := 1 }
        [⟨.CBV_SRV_UAV, 4096, .ConstantBufferView, bufA⟩,
          ⟨.CBV_SRV_UAV, 4128, .ConstantBufferView, bufC⟩,
          ⟨.SAMPLER, 8192, .SamplerView, samplerD⟩] := by
  have hc : CreateHeapTypeCbvSrvUav device descWithoutTexture D3D12ResourceHeap.initial =
      .ok (⟨some ⟨⟨.CBV_SRV_UAV, 2⟩, 4096⟩, none, [⟨⟨.CBV_SRV_UAV, 2⟩, 4096⟩], 1, false, false,
        (0, 0), 0⟩, 4096) := rfl
  have hs : CreateHeapTypeSampler device descWithoutTexture
      ⟨some ⟨⟨.CBV_SRV_UAV, 2⟩, 4096⟩, none, [⟨⟨.CBV_SRV_UAV, 2⟩, 4096⟩], 1, false, false,
        (0, 0), 0⟩ =
      .ok (⟨some ⟨⟨.CBV_SRV_UAV, 2⟩, 4096⟩, some ⟨⟨.SAMPLER, 1⟩, 8192⟩,
        [⟨⟨.CBV_SRV_UAV, 2⟩, 4096⟩, ⟨⟨.SAMPLER, 1⟩, 8192⟩], 2, false, false, (0, 0), 0⟩,
        8192) := rfl
  rw [construct_of_ok flags device descWithoutTexture layout _ _ _ _ hc hs rfl]
  rw [createDescriptors_unfold, if_neg (by decide)]
  decide

end WorkedExample

/-! ## The worked example for all flag values, devices and resources of its shape -/

theorem example_firstSet (fc : FlagConstants) (device : ID3D12Device)
    (pipelineLayout : D3D12PipelineLayout) (bufA texB bufC samplerD : Resource)
    (st : HeapBuildState) (hst : st.bindingIndex = 0)
    (hrl : pipelineLayout.rootParameterLayout = ⟨2, 0, 0, 0, 0, 1⟩)
    (hf0 : pipelineLayout.GetBindFlagsByIndex 0 &&& fc.ConstantBuffer ≠ 0)
    (hf1 : pipelineLayout.GetBindFlagsByIndex 1 &&& fc.ConstantBuffer ≠ 0)
    (hA : bufA.resourceType = .Buffer) (hAf : bufA.bindFlags &&& fc.ConstantBuffer ≠ 0)
    (hB : texB.resourceType = .Texture)
    (hC : bufC.resourceType = .Buffer) (hCf : bufC.bindFlags &&& fc.ConstantBuffer ≠ 0)
    (hD : samplerD.resourceType = .Sampler) :
    createDescriptorSet fc device
        ⟨some pipelineLayout, [⟨some bufA⟩, ⟨some texB⟩, ⟨some bufC⟩, ⟨some samplerD⟩]⟩
        pipelineLayout st =
      { cpuDescHandleCbvSrvUav :=
          ((st.cpuDescHandleCbvSrvUav + device.GetDescriptorHandleIncrementSize .CBV_SRV_UAV)
            % 2 ^ 64 + device.GetDescriptorHandleIncrementSize .CBV_SRV_UAV) % 2 ^ 64
        cpuDescHandleSampler :=
          (st.cpuDescHandleSampler + device.GetDescriptorHandleIncrementSize .SAMPLER) % 2 ^ 64
        bindingIndex := 3
        numDescriptorSets := (st.numDescriptorSets + 1) % 2 ^ 32
        written := st.written ++
          [⟨.CBV_SRV_UAV, st.cpuDescHandleCbvSrvUav, .ConstantBufferView, bufA⟩,
           ⟨.CBV_SRV_UAV, (st.cpuDescHandleCbvSrvUav +
              device.GetDescriptorHandleIncrementSize .CBV_SRV_UAV) % 2 ^ 64,
              .ConstantBufferView, bufC⟩,
           ⟨.SAMPLER, st.cpuDescHandleSampler, .SamplerView, samplerD⟩] } := by
  rw [createDescriptorSet_eq]
  simp only [kindPass_eq, passResources, hst, hrl, D3D12RootParameterLayout.count]
  simp [kindResources, Resource.isOfKind, Resource.hasBindFlagsOf, BindingKind.requiredBindFlags,
    BindingKind.resourceType, hA, hAf, hB, hC, hCf, hD, slotRun, D3D12PipelineLayout.slotAccepts,
    hf0, hf1, applyRun, BindingKind.heapType, advanceCursor, viewRun, kindStride, BindingKind.view,
    Option.filter, hst]

theorem example_secondSet (fc : FlagConstants) (device : ID3D12Device)
    (pipelineLayout : D3D12PipelineLayout) (bufA texB bufC samplerD : Resource)
    (st : HeapBuildState) (hst : st.bindingIndex = 3)
    (hrl : pipelineLayout.rootParameterLayout = ⟨2, 0, 0, 0, 0, 1⟩)
    (hD : samplerD.resourceType = .Sampler) :
    createDescriptorSet fc device
        ⟨some pipelineLayout, [⟨some bufA⟩, ⟨some texB⟩, ⟨some bufC⟩, ⟨some samplerD⟩]⟩
        pipelineLayout st =
      { cpuDescHandleCbvSrvUav := st.cpuDescHandleCbvSrvUav
        cpuDescHandleSampler :=
          (st.cpuDescHandleSampler + device.GetDescriptorHandleIncrementSize .SAMPLER) % 2 ^ 64
        bindingIndex := 4
        numDescriptorSets := (st.numDescriptorSets + 1) % 2 ^ 32
        written := st.written ++ [⟨.SAMPLER, st.cpuDescHandleSampler, .SamplerView, samplerD⟩] } := by
  rw [createDescriptorSet_eq]
  simp only [kindPass_eq, passResources, hst, hrl, D3D12RootParameterLayout.count]
  simp [kindResources, Resource.isOfKind, Resource.hasBindFlagsOf, BindingKind.requiredBindFlags,
    BindingKind.resourceType, hD, slotRun, D3D12PipelineLayout.slotAccepts,
    applyRun, BindingKind.heapType, advanceCursor, viewRun, kindStride, BindingKind.view,
    Option.filter, hst]

theorem example_construct (fc : FlagConstants) (device : ID3D12Device)
    (pipelineLayout : D3D12PipelineLayout) (bufA texB bufC samplerD : Resource) (c1 c2 : Nat)
    (hrl : pipelineLayout.rootParameterLayout = ⟨2, 0, 0, 0, 0, 1⟩)
    (hf0 : pipelineLayout.GetBindFlagsByIndex 0 &&& fc.ConstantBuffer ≠ 0)
    (hf1 : pipelineLayout.GetBindFlagsByIndex 1 &&& fc.ConstantBuffer ≠ 0)
    (hA : bufA.resourceType = .Buffer) (hAf : bufA.bindFlags &&& fc.ConstantBuffer ≠ 0)
    (hB : texB.resourceType = .Texture)
    (hC : bufC.resourceType = .Buffer) (hCf : bufC.bindFlags &&& fc.ConstantBuffer ≠ 0)
    (hD : samplerD.resourceType = .Sampler)
    (hdev1 : device.CreateDescriptorHeap ⟨.CBV_SRV_UAV, 3⟩ = some c1)
    (hdev2 : device.CreateDescriptorHeap ⟨.SAMPLER, 1⟩ = some c2) :
    ∃ heap,
      D3D12ResourceHeap.construct fc device
        ⟨some pipelineLayout, [⟨some bufA⟩, ⟨some texB⟩, ⟨some bufC⟩, ⟨some samplerD⟩]⟩ =
        .constructed heap
          [⟨.CBV_SRV_UAV, c1, .ConstantBufferView, bufA⟩,
           ⟨.CBV_SRV_UAV, (c1 + device.GetDescriptorHandleIncrementSize .CBV_SRV_UAV) % 2 ^ 64,
              .ConstantBufferView, bufC⟩,
           ⟨.SAMPLER, c2, .SamplerView, samplerD⟩,
           ⟨.SAMPLER, (c2 + device.GetDescriptorHandleIncrementSize .SAMPLER) % 2 ^ 64,
              .SamplerView, samplerD⟩] ∧
      heap.numDescriptorSets = 2 := by
  have hc : CreateHeapTypeCbvSrvUav device
      ⟨some pipelineLayout, [⟨some bufA⟩, ⟨some texB⟩, ⟨some bufC⟩, ⟨some samplerD⟩]⟩
      D3D12ResourceHeap.initial =
      .ok (AppendDescriptorHeapToArray
        { D3D12ResourceHeap.initial with heapTypeCbvSrvUav := some ⟨⟨.CBV_SRV_UAV, 3⟩, c1⟩ }
        ⟨⟨.CBV_SRV_UAV, 3⟩, c1⟩, c1) := by
    simp [CreateHeapTypeCbvSrvUav, countDescriptors, hA, hB, hC, hD, hdev1]
  have hs : CreateHeapTypeSampler device
      ⟨some pipelineLayout, [⟨some bufA⟩, ⟨some texB⟩, ⟨some bufC⟩, ⟨some samplerD⟩]⟩
      (AppendDescriptorHeapToArray
        { D3D12ResourceHeap.initial with heapTypeCbvSrvUav := some ⟨⟨.CBV_SRV_UAV, 3⟩, c1⟩ }
        ⟨⟨.CBV_SRV_UAV, 3⟩, c1⟩) =
      .ok (AppendDescriptorHeapToArray
        { AppendDescriptorHeapToArray
            { D3D12ResourceHeap.initial with heapTypeCbvSrvUav := some ⟨⟨.CBV_SRV_UAV, 3⟩, c1⟩ }
            ⟨⟨.CBV_SRV_UAV, 3⟩, c1⟩ with heapTypeSampler := some ⟨⟨.SAMPLER, 1⟩, c2⟩ }
        ⟨⟨.SAMPLER, 1⟩, c2⟩, c2) := by
    simp [CreateHeapTypeSampler, countDescriptors, hA, hB, hC, hD, hdev2]
  rw [construct_of_ok fc device _ pipelineLayout _ _ _ _ hc hs rfl]
  have h1 := example_firstSet fc device pipelineLayout bufA texB bufC samplerD
    { cpuDescHandleCbvSrvUav := c1, cpuDescHandleSampler := c2, bindingIndex := 0,
      numDescriptorSets := 0, written := [] } rfl hrl hf0 hf1 hA hAf hB hC hCf hD
  have h2 := example_secondSet fc device pipelineLayout bufA texB bufC samplerD _
    (rfl : HeapBuildState.bindingIndex
      { cpuDescHandleCbvSrvUav :=
          ((c1 + device.GetDescriptorHandleIncrementSize .CBV_SRV_UAV)
            % 2 ^ 64 + device.GetDescriptorHandleIncrementSize .CBV_SRV_UAV) % 2 ^ 64
        cpuDescHandleSampler :=
          (c2 + device.GetDescriptorHandleIncrementSize .SAMPLER) % 2 ^ 64
        bindingIndex := 3
        numDescriptorSets := (0 + 1) % 2 ^ 32
        written := [] ++
          [⟨.CBV_SRV_UAV, c1, .ConstantBufferView, bufA⟩,
           ⟨.CBV_SRV_UAV, (c1 +
              device.GetDescriptorHandleIncrementSize .CBV_SRV_UAV) % 2 ^ 64,
              .ConstantBufferView, bufC⟩,
           ⟨.SAMPLER, c2, .SamplerView, samplerD⟩] } = 3) hrl hD
  have hloop := createDescriptors_continue fc device _ pipelineLayout _ _ h1
    (by simp) (by simp)
  rw [createDescriptors_stop fc device _ pipelineLayout _ _ h2 (by simp)] at hloop
  have hz : (D3D12ResourceHeap.numDescriptorSets (AppendDescriptorHeapToArray
        { AppendDescriptorHeapToArray
            { D3D12ResourceHeap.initial with heapTypeCbvSrvUav := some ⟨⟨.CBV_SRV_UAV, 3⟩, c1⟩ }
            ⟨⟨.CBV_SRV_UAV, 3⟩, c1⟩ with heapTypeSampler := some ⟨⟨.SAMPLER, 1⟩, c2⟩ }
        ⟨⟨.SAMPLER, 1⟩, c2⟩)) = 0 := rfl
  rw [hz, hloop]
  exact ⟨_, rfl, rfl⟩

/-! ## Claims on the set count and on failures -/

theorem exampleDevice_creates (heapDesc : D3D12_DESCRIPTOR_HEAP_DESC) :
    WorkedExample.device.CreateDescriptorHeap heapDesc ≠ none := by
  cases hty : heapDesc.heapType <;> simp [WorkedExample.device, hty]

/-- C1, failing input: the worked example (2 constant buffers and 1 sampler declared, resource
views `[bufA, texB, bufC, samplerD]`).  The constructor returns with
`GetNumDescriptorSets() == 2`, not 1: after the first set `bindingIndex` is 3, below the 4
resource views, and a second set is run from resource-view index 3; it writes the view of
`samplerD` once more, one increment past the single descriptor of the sampler heap. -/
theorem C1_worked_example_two_sets :
    ∃ heap written,
      D3D12ResourceHeap.construct WorkedExample.flags WorkedExample.device WorkedExample.desc =
        .constructed heap written ∧
      heap.GetNumDescriptorSets = 2 ∧
      heap.GetNumDescriptorSets ≠ 1 ∧
      WorkedExample.desc.resourceViews.length = 4 ∧
      (descriptorSetStates WorkedExample.flags WorkedExample.device WorkedExample.desc
        WorkedExample.layout WorkedExample.initialState 1).bindingIndex = 3 ∧
      heap.heapTypeSampler = some ⟨⟨.SAMPLER, 1⟩, 8192⟩ ∧
      descriptorSetViews WorkedExample.flags WorkedExample.device WorkedExample.desc
        WorkedExample.layout WorkedExample.initialState 1 =
        [⟨.SAMPLER, 8224, .SamplerView, WorkedExample.samplerD⟩] :=
  ⟨_, _, WorkedExample.construct_result, rfl, by decide, rfl, by decide, rfl, by decide⟩

/-- C2, counterexample: one sampler declared, resource views `[vertexBuf, samplerD]`.  No
handle is null, the bind-flag table is in line with the counts, the per-kind counts of the
resource views equal those of the layout, and yet the set count is 2. -/
theorem C2_counterexample :
    (∀ rv ∈ Scenarios.descStray.resourceViews, rv.resource ≠ none) ∧
    Scenarios.layoutOneSampler.SlotsValid WorkedExample.flags 0 ∧
    (∀ k, kindCount WorkedExample.flags k Scenarios.descStray.resourceViews =
      Scenarios.layoutOneSampler.rootParameterLayout.count k) ∧
    ∃ heap written,
      D3D12ResourceHeap.construct WorkedExample.flags WorkedExample.device Scenarios.descStray =
        .constructed heap written ∧ heap.GetNumDescriptorSets = 2 := by
  refine ⟨by decide, ?_, ?_, ?_⟩
  · intro k i hi
    cases k <;> simp [Scenarios.layoutOneSampler, D3D12RootParameterLayout.count] at hi
    rfl
  · intro k
    cases k <;> rfl
  · have hc : CreateHeapTypeCbvSrvUav WorkedExample.device Scenarios.descStray
        D3D12ResourceHeap.initial =
        .ok (⟨some ⟨⟨.CBV_SRV_UAV, 1⟩, 4096⟩, none, [⟨⟨.CBV_SRV_UAV, 1⟩, 4096⟩], 1, false, false,
          (0, 0), 0⟩, 4096) := rfl
    have hs : CreateHeapTypeSampler WorkedExample.device Scenarios.descStray
        ⟨some ⟨⟨.CBV_SRV_UAV, 1⟩, 4096⟩, none, [⟨⟨.CBV_SRV_UAV, 1⟩, 4096⟩], 1, false, false,
          (0, 0), 0⟩ =
        .ok (⟨some ⟨⟨.CBV_SRV_UAV, 1⟩, 4096⟩, some ⟨⟨.SAMPLER, 1⟩, 8192⟩,
          [⟨⟨.CBV_SRV_UAV, 1⟩, 4096⟩, ⟨⟨.SAMPLER, 1⟩, 8192⟩], 2, false, false, (0, 0), 0⟩,
          8192) := rfl
    rw [construct_of_ok WorkedExample.flags WorkedExample.device Scenarios.descStray
      Scenarios.layoutOneSampler _ _ _ _ hc hs rfl]
    rw [createDescriptors_unfold, if_pos (by decide), createDescriptors_unfold,
      if_neg (by decide)]
    exact ⟨_, _, rfl, by decide⟩

/-- C2, amended: for every layout whose bind-flag table is in line with its counts and every
list of resource views, all non-null, whose per-kind counts equal those of the layout and
which has no more entries than the layout has bindings per set, the constructor returns (the
device creating the heaps) and `GetNumDescriptorSets()` is 1. -/
theorem C2_one_set (fc : FlagConstants) (device : ID3D12Device)
    (pipelineLayout : D3D12PipelineLayout) (views : List ResourceViewDescriptor)
    (hnull : ∀ rv ∈ views, rv.resource ≠ none)
    (hvalid : pipelineLayout.SlotsValid fc 0)
    (hcount : ∀ k, kindCount fc k views = pipelineLayout.rootParameterLayout.count k)
    (hlen : views.length ≤ pipelineLayout.rootParameterLayout.bindingsPerSet)
    (hdev : ∀ heapDesc, device.CreateDescriptorHeap heapDesc ≠ none) :
    ∃ heap written,
      D3D12ResourceHeap.construct fc device ⟨some pipelineLayout, views⟩ =
        .constructed heap written ∧ heap.GetNumDescriptorSets = 1 := by
  obtain ⟨heap, c1, c2, hcon, hsets⟩ :=
    construct_succeeds fc device ⟨some pipelineLayout, views⟩ pipelineLayout rfl hnull hdev
  refine ⟨heap, _, hcon, ?_⟩
  rw [D3D12ResourceHeap.GetNumDescriptorSets, hsets,
    createDescriptors_oneSet fc device ⟨some pipelineLayout, views⟩ pipelineLayout _ rfl hcount
      hvalid hlen]
  rfl

/-- C2, amended, at the worked example without the texture: `[bufA, bufC, samplerD]`. -/
theorem C2_one_set_witness :
    ∃ heap written,
      D3D12ResourceHeap.construct WorkedExample.flags WorkedExample.device
        WorkedExample.descWithoutTexture = .constructed heap written ∧
      heap.GetNumDescriptorSets = 1 :=
  C2_one_set WorkedExample.flags WorkedExample.device WorkedExample.layout
    WorkedExample.descWithoutTexture.resourceViews (by decide)
    (by
      intro k i hi
      cases k <;> simp [WorkedExample.layout, D3D12RootParameterLayout.count] at hi
      · interval_cases i <;> rfl
      · rfl)
    (by intro k; cases k <;> rfl) (by decide) exampleDevice_creates

/-- C3, counterexample: one constant buffer and one sampler declared, `k = 2`, resource views
`[b1, b2, s1, s2]`.  No handle is null, the bind-flag table is in line with the counts for
both sets, the list has `2 * 2` entries and its per-kind counts are twice those of the layout,
and yet the set count is 3. -/
theorem C3_counterexample :
    (∀ rv ∈ Scenarios.descGrouped.resourceViews, rv.resource ≠ none) ∧
    Scenarios.layoutCBVSampler.SlotsValid WorkedExample.flags 0 ∧
    Scenarios.layoutCBVSampler.SlotsValid WorkedExample.flags 2 ∧
    Scenarios.descGrouped.resourceViews.length =
      2 * Scenarios.layoutCBVSampler.rootParameterLayout.bindingsPerSet ∧
    (∀ k, kindCount WorkedExample.flags k Scenarios.descGrouped.resourceViews =
      2 * Scenarios.layoutCBVSampler.rootParameterLayout.count k) ∧
    ∃ heap written,
      D3D12ResourceHeap.construct WorkedExample.flags WorkedExample.device Scenarios.descGrouped =
        .constructed heap written ∧ heap.GetNumDescriptorSets = 3 := by
  refine ⟨by decide, ?_, ?_, rfl, ?_, ?_⟩
  · intro k i hi
    cases k <;> simp [Scenarios.layoutCBVSampler, D3D12RootParameterLayout.count] at hi <;>
      subst hi <;> rfl
  · intro k i hi
    cases k <;> simp [Scenarios.layoutCBVSampler, D3D12RootParameterLayout.count] at hi <;>
      subst hi <;> rfl
  · intro k
    cases k <;> rfl
  · have hc : CreateHeapTypeCbvSrvUav WorkedExample.device Scenarios.descGrouped
        D3D12ResourceHeap.initial =
        .ok (⟨some ⟨⟨.CBV_SRV_UAV, 2⟩, 4096⟩, none, [⟨⟨.CBV_SRV_UAV, 2⟩, 4096⟩], 1, false, false,
          (0, 0), 0⟩, 4096) := rfl
    have hs : CreateHeapTypeSampler WorkedExample.device Scenarios.descGrouped
        ⟨some ⟨⟨.CBV_SRV_UAV, 2⟩, 4096⟩, none, [⟨⟨.CBV_SRV_UAV, 2⟩, 4096⟩], 1, false, false,
          (0, 0), 0⟩ =
        .ok (⟨some ⟨⟨.CBV_SRV_UAV, 2⟩, 4096⟩, some ⟨⟨.SAMPLER, 2⟩, 8192⟩,
          [⟨⟨.CBV_SRV_UAV, 2⟩, 4096⟩, ⟨⟨.SAMPLER, 2⟩, 8192⟩], 2, false, false, (0, 0), 0⟩,
          8192) := rfl
    rw [construct_of_ok WorkedExample.flags WorkedExample.device Scenarios.descGrouped
      Scenarios.layoutCBVSampler _ _ _ _ hc hs rfl]
    rw [createDescriptors_unfold, if_pos (by decide), createDescriptors_unfold,
      if_pos (by decide), createDescriptors_unfold, if_neg (by decide)]
    exact ⟨_, _, rfl, by decide⟩

/-- C3, amended: for every layout with at least one binding, every `k >= 1` below `2^32` and
every list of resource views, all non-null, that consists of `k` consecutive groups of
`bindingsPerSet` entries, each group with per-kind counts equal to those of the layout, and
with the bind-flag table in line with the counts for each of the `k` sets, the constructor
returns (the device creating the heaps) and `GetNumDescriptorSets()` is `k`. -/
theorem C3_k_sets (fc : FlagConstants) (device : ID3D12Device)
    (pipelineLayout : D3D12PipelineLayout) (views : List ResourceViewDescriptor) (k : Nat)
    (hk : 1 ≤ k) (hk32 : k < 2 ^ 32)
    (hpos : 0 < pipelineLayout.rootParameterLayout.bindingsPerSet)
    (hnull : ∀ rv ∈ views, rv.resource ≠ none)
    (hlen : views.length = k * pipelineLayout.rootParameterLayout.bindingsPerSet)
    (hgroups : ∀ j, j < k → ∀ kind,
      kindCount fc kind
        ((views.drop (j * pipelineLayout.rootParameterLayout.bindingsPerSet)).take
          pipelineLayout.rootParameterLayout.bindingsPerSet) =
        pipelineLayout.rootParameterLayout.count kind)
    (hvalid : ∀ j, j < k →
      pipelineLayout.SlotsValid fc (j * pipelineLayout.rootParameterLayout.bindingsPerSet))
    (hdev : ∀ heapDesc, device.CreateDescriptorHeap heapDesc ≠ none) :
    ∃ heap written,
      D3D12ResourceHeap.construct fc device ⟨some pipelineLayout, views⟩ =
        .constructed heap written ∧ heap.GetNumDescriptorSets = k := by
  obtain ⟨heap, c1, c2, hcon, hsets⟩ :=
    construct_succeeds fc device ⟨some pipelineLayout, views⟩ pipelineLayout rfl hnull hdev
  refine ⟨heap, _, hcon, ?_⟩
  rw [D3D12ResourceHeap.GetNumDescriptorSets, hsets,
    createDescriptors_sets fc device ⟨some pipelineLayout, views⟩ pipelineLayout k hpos hlen
      hgroups hvalid (k - 1) 0 _ (by omega) (by simp)]
  simp only
  omega

/-- C3, amended, at `k = 2` with one constant buffer and one sampler per set and the resource
views `[b1, s1, b2, s2]`. -/
theorem C3_k_sets_witness :
    ∃ heap written,
      D3D12ResourceHeap.construct WorkedExample.flags WorkedExample.device
        Scenarios.descSetAfterSet = .constructed heap written ∧
      heap.GetNumDescriptorSets = 2 :=
  C3_k_sets WorkedExample.flags WorkedExample.device Scenarios.layoutCBVSampler
    Scenarios.descSetAfterSet.resourceViews 2 (by decide) (by decide) (by decide) (by decide)
    rfl
    (by
      intro j hj kind
      interval_cases j <;> cases kind <;> rfl)
    (by
      intro j hj k i hi
      interval_cases j <;> cases k <;>
        simp [Scenarios.layoutCBVSampler, D3D12RootParameterLayout.count] at hi <;>
        subst hi <;> rfl)
    exampleDevice_creates

/-- C4: when a resource view has a null resource, the constructor throws the null-resource
error (`std::invalid_argument` with the message given), whatever the layout, and no
descriptor heap has been created by then. -/
theorem C4_null_resource_fails_first (fc : FlagConstants) (device : ID3D12Device)
    (desc : ResourceHeapDescriptor)
    (hnull : ∃ rv ∈ desc.resourceViews, rv.resource = none) :
    D3D12ResourceHeap.construct fc device desc = .failed .nullPointerInResource [] ∧
    HeapError.what .nullPointerInResource =
      "cannot create resource heap with null pointer in resource view" := by
  refine ⟨?_, rfl⟩
  unfold D3D12ResourceHeap.construct CreateHeapTypeCbvSrvUav
  rw [countDescriptors_null _ _ _ hnull]

/-- C4 at the resource views `[bufA, null, samplerD]`. -/
theorem C4_null_resource_fails_first_witness :
    D3D12ResourceHeap.construct WorkedExample.flags WorkedExample.device
        WorkedExample.descWithNull = .failed .nullPointerInResource [] ∧
    HeapError.what .nullPointerInResource =
      "cannot create resource heap with null pointer in resource view" :=
  C4_null_resource_fails_first WorkedExample.flags WorkedExample.device
    WorkedExample.descWithNull ⟨⟨none⟩, by decide, rfl⟩

/-- C5, counterexample: one constant buffer declared and no resource view given (0 of 1
constant buffers supplied): the constructor does not fail, it returns an object with one
descriptor set and no view written. -/
theorem C5_counterexample :
    kindCount WorkedExample.flags .BufferCBV WorkedExample.descEmpty.resourceViews <
      WorkedExample.layoutOneCBV.rootParameterLayout.numBufferCBV ∧
    D3D12ResourceHeap.construct WorkedExample.flags WorkedExample.device WorkedExample.descEmpty =
      .constructed
        { heapTypeCbvSrvUav := none, heapTypeSampler := none, descriptorHeaps := [],
          numDescriptorHeaps := 0, hasGraphicsDescriptors := true,
          hasComputeDescriptors := false, descriptorHandleStrides := (32, 0),
          numDescriptorSets := 1 } [] := by
  refine ⟨by decide, ?_⟩
  have hc : CreateHeapTypeCbvSrvUav WorkedExample.device WorkedExample.descEmpty
      D3D12ResourceHeap.initial = .ok (D3D12ResourceHeap.initial, 0) := rfl
  have hs : CreateHeapTypeSampler WorkedExample.device WorkedExample.descEmpty
      D3D12ResourceHeap.initial = .ok (D3D12ResourceHeap.initial, 0) := rfl
  rw [construct_of_ok WorkedExample.flags WorkedExample.device WorkedExample.descEmpty
    WorkedExample.layoutOneCBV _ _ _ _ hc hs rfl]
  rw [createDescriptors_unfold, if_neg (by decide)]
  rfl

/-- C5, amended: the constructor has no check for missing bindings.  For every layout and
every list of resource views, all non-null, that supplies fewer constant buffers than the
layout declares, the constructor returns an object (the device creating the heaps). -/
theorem C5_incomplete_binding_not_detected (fc : FlagConstants) (device : ID3D12Device)
    (pipelineLayout : D3D12PipelineLayout) (views : List ResourceViewDescriptor)
    (hnull : ∀ rv ∈ views, rv.resource ≠ none)
    (_hfewer : kindCount fc .BufferCBV views < pipelineLayout.rootParameterLayout.numBufferCBV)
    (hdev : ∀ heapDesc, device.CreateDescriptorHeap heapDesc ≠ none) :
    ∃ heap written,
      D3D12ResourceHeap.construct fc device ⟨some pipelineLayout, views⟩ =
        .constructed heap written := by
  obtain ⟨heap, c1, c2, hcon, _⟩ :=
    construct_succeeds fc device ⟨some pipelineLayout, views⟩ pipelineLayout rfl hnull hdev
  exact ⟨heap, _, hcon⟩

/-- C5, amended, at one constant buffer declared and no resource view. -/
theorem C5_incomplete_binding_not_detected_witness :
    ∃ heap written,
      D3D12ResourceHeap.construct WorkedExample.flags WorkedExample.device
        WorkedExample.descEmpty = .constructed heap written :=
  C5_incomplete_binding_not_detected WorkedExample.flags WorkedExample.device
    WorkedExample.layoutOneCBV [] (by decide) (by decide) exampleDevice_creates

/-- C6, failing input: the worked example.  The views written to the combined-view heap are
`[bufA, bufC]` in that order and `texB` is written to no heap, but the views written to the
sampler heap are `[samplerD, samplerD]`, not `[samplerD]`: the second descriptor set writes
the sampler view once more. -/
theorem C6_sampler_view_written_twice :
    ∃ heap written,
      D3D12ResourceHeap.construct WorkedExample.flags WorkedExample.device WorkedExample.desc =
        .constructed heap written ∧
      viewsWrittenTo .CBV_SRV_UAV written = [WorkedExample.bufA, WorkedExample.bufC] ∧
      viewsWrittenTo .SAMPLER written = [WorkedExample.samplerD, WorkedExample.samplerD] ∧
      viewsWrittenTo .SAMPLER written ≠ [WorkedExample.samplerD] ∧
      WorkedExample.texB ∉ written.map (fun w => w.resource) :=
  ⟨_, _, WorkedExample.construct_result, by decide, by decide, by decide, by decide⟩

/-! ## Reordering the resource views -/

theorem countDescriptors_eq (isCounted : ResourceType → Bool) :
    ∀ (views : List ResourceViewDescriptor) (n : Nat),
      (∀ rv ∈ views, rv.resource ≠ none) → n < 2 ^ 32 →
      countDescriptors isCounted views n =
        .ok ((n + views.countP (ResourceViewDescriptor.isCounted isCounted)) % 2 ^ 32) := by
  intro views
  induction views with
  | nil =>
    intro n _ hn
    simp only [countDescriptors, List.countP_nil, Nat.add_zero, Nat.mod_eq_of_lt hn]
  | cons rv rest ih =>
    intro n h hn
    have hrest : ∀ x ∈ rest, x.resource ≠ none := fun x hx => h x (List.mem_cons_of_mem _ hx)
    cases hres : rv.resource with
    | none => exact absurd hres (h rv (List.mem_cons_self _ _))
    | some r =>
      by_cases hc : isCounted r.resourceType = true
      · have hq : ResourceViewDescriptor.isCounted isCounted rv = true := by
          simp [ResourceViewDescriptor.isCounted, hres, hc]
        simp only [countDescriptors, hres, hc, if_true]
        rw [ih _ hrest (Nat.mod_lt _ (by decide)), List.countP_cons_of_pos _ _ hq]
        congr 1
        omega
      · have hq : ¬ ResourceViewDescriptor.isCounted isCounted rv = true := by
          simp [ResourceViewDescriptor.isCounted, hres, hc]
        simp only [countDescriptors, hres, hc]
        rw [List.countP_cons_of_neg _ _ hq]
        exact ih _ hrest hn

theorem countDescriptors_perm (isCounted : ResourceType → Bool)
    (views views2 : List ResourceViewDescriptor) (hperm : views2.Perm views)
    (hnull : ∀ rv ∈ views, rv.resource ≠ none) :
    countDescriptors isCounted views2 0 = countDescriptors isCounted views 0 := by
  have hnull2 : ∀ rv ∈ views2, rv.resource ≠ none := fun rv h => hnull rv (hperm.mem_iff.mp h)
  rw [countDescriptors_eq _ _ _ hnull2 (by decide), countDescriptors_eq _ _ _ hnull (by decide),
    hperm.countP_eq]

theorem createDescriptors_reordered (fc : FlagConstants) (device : ID3D12Device)
    (pipelineLayout : D3D12PipelineLayout) (views views2 : List ResourceViewDescriptor)
    (hperm : views2.Perm views)
    (horder : ∀ k, kindResources fc k views2 = kindResources fc k views)
    (hvalid : pipelineLayout.SlotsValid fc 0)
    (hcount : ∀ k, kindCount fc k views = pipelineLayout.rootParameterLayout.count k)
    (hlen : views.length ≤ pipelineLayout.rootParameterLayout.bindingsPerSet)
    (st : HeapBuildState) (hst : st.bindingIndex = 0) :
    createDescriptors fc device ⟨some pipelineLayout, views2⟩ pipelineLayout st =
      createDescriptors fc device ⟨some pipelineLayout, views⟩ pipelineLayout st := by
  have hcount2 : ∀ k, kindCount fc k views2 = pipelineLayout.rootParameterLayout.count k := by
    intro k
    rw [kindCount, horder k]
    exact hcount k
  rw [createDescriptors_oneSet fc device ⟨some pipelineLayout, views2⟩ pipelineLayout st hst
      hcount2 hvalid (by rw [show (⟨some pipelineLayout, views2⟩ :
        ResourceHeapDescriptor).resourceViews = views2 from rfl, hperm.length_eq]; exact hlen),
    createDescriptors_oneSet fc device ⟨some pipelineLayout, views⟩ pipelineLayout st hst
      hcount hvalid hlen]
  simp only [applyBlock, horder]

/-- C9, counterexample: one sampler declared; `[vertexBuf, samplerD]` and `[samplerD,
vertexBuf]` have no null handle, per-kind counts equal to those of the layout, are
permutations of each other and list the resources of each kind in the same order; yet the
first construction writes the sampler twice and the second writes it once. -/
theorem C9_counterexample :
    (∀ rv ∈ Scenarios.descStray.resourceViews, rv.resource ≠ none) ∧
    Scenarios.layoutOneSampler.SlotsValid WorkedExample.flags 0 ∧
    (∀ k, kindCount WorkedExample.flags k Scenarios.descStray.resourceViews =
      Scenarios.layoutOneSampler.rootParameterLayout.count k) ∧
    Scenarios.descStraySwapped.resourceViews.Perm Scenarios.descStray.resourceViews ∧
    (∀ k, kindResources WorkedExample.flags k Scenarios.descStraySwapped.resourceViews =
      kindResources WorkedExample.flags k Scenarios.descStray.resourceViews) ∧
    ∃ heap written heap2 written2,
      D3D12ResourceHeap.construct WorkedExample.flags WorkedExample.device Scenarios.descStray =
        .constructed heap written ∧
      D3D12ResourceHeap.construct WorkedExample.flags WorkedExample.device
        Scenarios.descStraySwapped = .constructed heap2 written2 ∧
      viewsWrittenTo .SAMPLER written = [WorkedExample.samplerD, WorkedExample.samplerD] ∧
      viewsWrittenTo .SAMPLER written2 = [WorkedExample.samplerD] := by
  refine ⟨by decide, ?_, ?_, ?_, ?_, ?_⟩
  · intro k i hi
    cases k <;> simp [Scenarios.layoutOneSampler, D3D12RootParameterLayout.count] at hi
    rfl
  · intro k
    cases k <;> rfl
  · exact List.Perm.swap _ _ _
  · intro k
    cases k <;> rfl
  · have hc : CreateHeapTypeCbvSrvUav WorkedExample.device Scenarios.descStray
        D3D12ResourceHeap.initial =
        .ok (⟨some ⟨⟨.CBV_SRV_UAV, 1⟩, 4096⟩, none, [⟨⟨.CBV_SRV_UAV, 1⟩, 4096⟩], 1, false, false,
          (0, 0), 0⟩, 4096) := rfl
    have hs : CreateHeapTypeSampler WorkedExample.device Scenarios.descStray
        ⟨some ⟨⟨.CBV_SRV_UAV, 1⟩, 4096⟩, none, [⟨⟨.CBV_SRV_UAV, 1⟩, 4096⟩], 1, false, false,
          (0, 0), 0⟩ =
        .ok (⟨some ⟨⟨.CBV_SRV_UAV, 1⟩, 4096⟩, some ⟨⟨.SAMPLER, 1⟩, 8192⟩,
          [⟨⟨.CBV_SRV_UAV, 1⟩, 4096⟩, ⟨⟨.SAMPLER, 1⟩, 8192⟩], 2, false, false, (0, 0), 0⟩,
          8192) := rfl
    have hc2 : CreateHeapTypeCbvSrvUav WorkedExample.device Scenarios.descStraySwapped
        D3D12ResourceHeap.initial =
        .ok (⟨some ⟨⟨.CBV_SRV_UAV, 1⟩, 4096⟩, none, [⟨⟨.CBV_SRV_UAV, 1⟩, 4096⟩], 1, false, false,
          (0, 0), 0⟩, 4096) := rfl
    have hs2 : CreateHeapTypeSampler WorkedExample.device Scenarios.descStraySwapped
        ⟨some ⟨⟨.CBV_SRV_UAV, 1⟩, 4096⟩, none, [⟨⟨.CBV_SRV_UAV, 1⟩, 4096⟩], 1, false, false,
          (0, 0), 0⟩ =
        .ok (⟨some ⟨⟨.CBV_SRV_UAV, 1⟩, 4096⟩, some ⟨⟨.SAMPLER, 1⟩, 8192⟩,
          [⟨⟨.CBV_SRV_UAV, 1⟩, 4096⟩, ⟨⟨.SAMPLER, 1⟩, 8192⟩], 2, false, false, (0, 0), 0⟩,
          8192) := rfl
    rw [construct_of_ok WorkedExample.flags WorkedExample.device Scenarios.descStray
      Scenarios.layoutOneSampler _ _ _ _ hc hs rfl,
      construct_of_ok WorkedExample.flags WorkedExample.device Scenarios.descStraySwapped
      Scenarios.layoutOneSampler _ _ _ _ hc2 hs2 rfl]
    rw [createDescriptors_unfold, if_pos (by decide), createDescriptors_unfold,
      if_neg (by decide), createDescriptors_unfold, if_pos (by decide),
      createDescriptors_unfold, if_neg (by decide)]
    exact ⟨_, _, _, _, rfl, rfl, by decide, by decide⟩

/-- C9, amended: for every layout whose bind-flag table is in line with its counts and every
two lists of resource views, all handles non-null, whose per-kind counts equal those of the
layout, which have no more entries than the layout has bindings per set, and of which one is
a permutation of the other that lists the resources of each kind in the same order, the two
constructions have the same outcome: the same set count and the same views written at the
same positions of the combined-view heap and of the sampler heap. -/
theorem C9_interleaving_of_kinds (fc : FlagConstants) (device : ID3D12Device)
    (pipelineLayout : D3D12PipelineLayout) (views views2 : List ResourceViewDescriptor)
    (hnull : ∀ rv ∈ views, rv.resource ≠ none)
    (hperm : views2.Perm views)
    (horder : ∀ k, kindResources fc k views2 = kindResources fc k views)
    (hvalid : pipelineLayout.SlotsValid fc 0)
    (hcount : ∀ k, kindCount fc k views = pipelineLayout.rootParameterLayout.count k)
    (hlen : views.length ≤ pipelineLayout.rootParameterLayout.bindingsPerSet) :
    D3D12ResourceHeap.construct fc device ⟨some pipelineLayout, views2⟩ =
      D3D12ResourceHeap.construct fc device ⟨some pipelineLayout, views⟩ := by
  have hloop : ∀ (c1 c2 n : Nat),
      createDescriptors fc device ⟨some pipelineLayout, views2⟩ pipelineLayout
        { cpuDescHandleCbvSrvUav := c1, cpuDescHandleSampler := c2, bindingIndex := 0,
          numDescriptorSets := n, written := [] } =
      createDescriptors fc device ⟨some pipelineLayout, views⟩ pipelineLayout
        { cpuDescHandleCbvSrvUav := c1, cpuDescHandleSampler := c2, bindingIndex := 0,
          numDescriptorSets := n, written := [] } :=
    fun c1 c2 n => createDescriptors_reordered fc device pipelineLayout views views2 hperm horder
      hvalid hcount hlen _ rfl
  have hC : ∀ self, CreateHeapTypeCbvSrvUav device ⟨some pipelineLayout, views2⟩ self =
      CreateHeapTypeCbvSrvUav device ⟨some pipelineLayout, views⟩ self := by
    intro self
    simp only [CreateHeapTypeCbvSrvUav, countDescriptors_perm _ views views2 hperm hnull]
  have hS : ∀ self, CreateHeapTypeSampler device ⟨some pipelineLayout, views2⟩ self =
      CreateHeapTypeSampler device ⟨some pipelineLayout, views⟩ self := by
    intro self
    simp only [CreateHeapTypeSampler, countDescriptors_perm _ views views2 hperm hnull]
  simp only [D3D12ResourceHeap.construct, hC, hS, GetD3DPipelineLayout, hloop]

/-- C9, amended, at the worked example without the texture: `[samplerD, bufA, bufC]` against
`[bufA, bufC, samplerD]`. -/
theorem C9_interleaving_of_kinds_witness :
    D3D12ResourceHeap.construct WorkedExample.flags WorkedExample.device
        ⟨some WorkedExample.layout,
          [⟨some WorkedExample.samplerD⟩, ⟨some WorkedExample.bufA⟩, ⟨some WorkedExample.bufC⟩]⟩ =
      D3D12ResourceHeap.construct WorkedExample.flags WorkedExample.device
        ⟨some WorkedExample.layout,
          [⟨some WorkedExample.bufA⟩, ⟨some WorkedExample.bufC⟩, ⟨some WorkedExample.samplerD⟩]⟩ :=
  C9_interleaving_of_kinds WorkedExample.flags WorkedExample.device WorkedExample.layout
    [⟨some WorkedExample.bufA⟩, ⟨some WorkedExample.bufC⟩, ⟨some WorkedExample.samplerD⟩]
    [⟨some WorkedExample.samplerD⟩, ⟨some WorkedExample.bufA⟩, ⟨some WorkedExample.bufC⟩]
    (by decide)
    (by decide)
    (by intro k; cases k <;> rfl)
    (by
      intro k i hi
      cases k <;> simp [WorkedExample.layout, D3D12RootParameterLayout.count] at hi
      · interval_cases i <;> rfl
      · rfl)
    (by intro k; cases k <;> rfl) (by decide)

/-! ## Order of the views of one descriptor set -/

theorem slotRun_le (slotOk : Nat → Bool) : ∀ (n b : Nat), slotRun slotOk b n ≤ n := by
  intro n
  induction n with
  | zero => intro b; simp [slotRun]
  | succ n ih =>
    intro b
    rw [slotRun]
    split
    · exact Nat.succ_le_succ (ih _)
    · omega

theorem kindPass_take (fc : FlagConstants) (device : ID3D12Device)
    (desc : ResourceHeapDescriptor) (pipelineLayout : D3D12PipelineLayout) (first : Nat)
    (k : BindingKind) (st : HeapBuildState) :
    ∃ m, m ≤ pipelineLayout.rootParameterLayout.count k ∧
      kindPass fc device desc pipelineLayout first k st =
        applyRun device k ((kindResources fc k (desc.resourceViews.drop first)).take m) st :=
  ⟨_, slotRun_le _ _ _, kindPass_eq fc device desc pipelineLayout first k st⟩

theorem createDescriptorSet_written (fc : FlagConstants) (device : ID3D12Device)
    (desc : ResourceHeapDescriptor) (pipelineLayout : D3D12PipelineLayout)
    (st : HeapBuildState) :
    ∃ m : BindingKind → Nat,
      (∀ k, m k ≤ pipelineLayout.rootParameterLayout.count k) ∧
      (createDescriptorSet fc device desc pipelineLayout st).written =
        st.written ++ descriptorSetWrites fc device (desc.resourceViews.drop st.bindingIndex)
          st.cpuDescHandleCbvSrvUav st.cpuDescHandleSampler m := by
  rw [createDescriptorSet_eq]
  simp only
  obtain ⟨m0, hm0, h0⟩ := kindPass_take fc device desc pipelineLayout st.bindingIndex .BufferCBV st
  rw [h0]
  obtain ⟨m1, hm1, h1⟩ := kindPass_take fc device desc pipelineLayout st.bindingIndex .BufferSRV
    (applyRun device .BufferCBV
      ((kindResources fc .BufferCBV (desc.resourceViews.drop st.bindingIndex)).take m0) st)
  rw [h1]
  obtain ⟨m2, hm2, h2⟩ := kindPass_take fc device desc pipelineLayout st.bindingIndex .TextureSRV
    (applyRun device .BufferSRV
      ((kindResources fc .BufferSRV (desc.resourceViews.drop st.bindingIndex)).take m1)
    (applyRun device .BufferCBV
      ((kindResources fc .BufferCBV (desc.resourceViews.drop st.bindingIndex)).take m0) st))
  rw [h2]
  obtain ⟨m3, hm3, h3⟩ := kindPass_take fc device desc pipelineLayout st.bindingIndex .BufferUAV
    (applyRun device .TextureSRV
      ((kindResources fc .TextureSRV (desc.resourceViews.drop st.bindingIndex)).take m2)
    (applyRun device .BufferSRV
      ((kindResources fc .BufferSRV (desc.resourceViews.drop st.bindingIndex)).take m1)
    (applyRun device .BufferCBV
      ((kindResources fc .BufferCBV (desc.resourceViews.drop st.bindingIndex)).take m0) st)))
  rw [h3]
  obtain ⟨m4, hm4, h4⟩ := kindPass_take fc device desc pipelineLayout st.bindingIndex .TextureUAV
    (applyRun device .BufferUAV
      ((kindResources fc .BufferUAV (desc.resourceViews.drop st.bindingIndex)).take m3)
    (applyRun device .TextureSRV
      ((kindResources fc .TextureSRV (desc.resourceViews.drop st.bindingIndex)).take m2)
    (applyRun device .BufferSRV
      ((kindResources fc .BufferSRV (desc.resourceViews.drop st.bindingIndex)).take m1)
    (applyRun device .BufferCBV
      ((kindResources fc .BufferCBV (desc.resourceViews.drop st.bindingIndex)).take m0) st))))
  rw [h4]
  obtain ⟨m5, hm5, h5⟩ := kindPass_take fc device desc pipelineLayout st.bindingIndex .Samplers
    (applyRun device .TextureUAV
      ((kindResources fc .TextureUAV (desc.resourceViews.drop st.bindingIndex)).take m4)
    (applyRun device .BufferUAV
      ((kindResources fc .BufferUAV (desc.resourceViews.drop st.bindingIndex)).take m3)
    (applyRun device .TextureSRV
      ((kindResources fc .TextureSRV (desc.resourceViews.drop st.bindingIndex)).take m2)
    (applyRun device .BufferSRV
      ((kindResources fc .BufferSRV (desc.resourceViews.drop st.bindingIndex)).take m1)
    (applyRun device .BufferCBV
      ((kindResources fc .BufferCBV (desc.resourceViews.drop st.bindingIndex)).take m0) st)))))
  rw [h5]
  refine ⟨fun k => match k with
    | .BufferCBV => m0 | .BufferSRV => m1 | .TextureSRV => m2
    | .BufferUAV => m3 | .TextureUAV => m4 | .Samplers => m5, ?_, ?_⟩
  · intro k
    cases k <;> assumption
  · simp [applyRun, descriptorSetWrites, BindingKind.heapType, kindStride, BindingKind.view,
      List.append_assoc]

theorem viewRun_mem (heapType : D3D12_DESCRIPTOR_HEAP_TYPE) (view : ViewKind) (stride : Nat) :
    ∀ (rs : List Resource) (cursor : Nat) (w : DescriptorWrite),
      w ∈ viewRun heapType view stride cursor rs →
      w.heapType = heapType ∧ w.view = view ∧ w.resource ∈ rs := by
  intro rs
  induction rs with
  | nil => intro cursor w h; simp [viewRun] at h
  | cons r rs ih =>
    intro cursor w h
    rw [viewRun, List.mem_cons] at h
    rcases h with h | h
    · subst h
      simp
    · obtain ⟨h1, h2, h3⟩ := ih _ w h
      exact ⟨h1, h2, List.mem_cons_of_mem _ h3⟩

theorem viewRun_resources (heapType : D3D12_DESCRIPTOR_HEAP_TYPE) (view : ViewKind)
    (stride : Nat) :
    ∀ (rs : List Resource) (cursor : Nat),
      (viewRun heapType view stride cursor rs).map (fun w => w.resource) = rs := by
  intro rs
  induction rs with
  | nil => intro cursor; rfl
  | cons r rs ih => intro cursor; simp [viewRun, ih]

theorem viewRun_length (heapType : D3D12_DESCRIPTOR_HEAP_TYPE) (view : ViewKind) (stride : Nat) :
    ∀ (rs : List Resource) (cursor : Nat),
      (viewRun heapType view stride cursor rs).length = rs.length := by
  intro rs
  induction rs with
  | nil => intro cursor; rfl
  | cons r rs ih => intro cursor; simp [viewRun, ih]

theorem mem_kindResources (fc : FlagConstants) (k : BindingKind)
    (views : List ResourceViewDescriptor) (r : Resource) (h : r ∈ kindResources fc k views) :
    r.resourceType = k.resourceType := by
  simp only [kindResources, List.mem_filterMap] at h
  obtain ⟨rv, _, hrv⟩ := h
  cases hres : rv.resource with
  | none => simp [hres, Option.filter] at hrv
  | some x =>
    simp only [hres, Option.filter] at hrv
    split at hrv
    · rename_i hk
      cases hrv
      simp only [Resource.isOfKind, Bool.and_eq_true, decide_eq_true_eq] at hk
      exact hk.1
    · cases hrv

theorem advanceCursor_eq (stride : Nat) :
    ∀ (n cursor : Nat), cursor + n * stride < 2 ^ 64 →
      advanceCursor stride cursor n = cursor + n * stride := by
  intro n
  induction n with
  | zero => intro cursor _; simp [advanceCursor]
  | succ n ih =>
    intro cursor h
    have hs : (n + 1) * stride = stride + n * stride := by rw [Nat.succ_mul, Nat.add_comm]
    rw [hs] at h ⊢
    have hmod : (cursor + stride) % 2 ^ 64 = cursor + stride := Nat.mod_eq_of_lt (by omega)
    rw [advanceCursor, hmod, ih (cursor + stride) (by omega)]
    omega

theorem viewRun_ptr (heapType : D3D12_DESCRIPTOR_HEAP_TYPE) (view : ViewKind) (stride : Nat)
    (hstride : 0 < stride) :
    ∀ (rs : List Resource) (cursor : Nat), cursor + rs.length * stride < 2 ^ 64 →
      (viewRun heapType view stride cursor rs).Pairwise (fun a b => a.ptr < b.ptr) ∧
      ∀ w ∈ viewRun heapType view stride cursor rs,
        cursor ≤ w.ptr ∧ w.ptr < cursor + rs.length * stride := by
  intro rs
  induction rs with
  | nil => intro cursor _; simp [viewRun]
  | cons r rs ih =>
    intro cursor h
    have hs : (rs.length + 1) * stride = stride + rs.length * stride := by
      rw [Nat.succ_mul, Nat.add_comm]
    simp only [List.length_cons, hs] at h ⊢
    have hmod : (cursor + stride) % 2 ^ 64 = cursor + stride := Nat.mod_eq_of_lt (by omega)
    obtain ⟨ih1, ih2⟩ := ih (cursor + stride) (by omega)
    rw [viewRun, hmod]
    refine ⟨List.pairwise_cons.mpr ⟨?_, ih1⟩, ?_⟩
    · intro b hb
      have := ih2 b hb
      show cursor < b.ptr
      omega
    · intro w hw
      rcases List.mem_cons.mp hw with hw | hw
      · subst hw
        show cursor ≤ cursor ∧ cursor < cursor + (stride + rs.length * stride)
        omega
      · have := ih2 w hw
        omega

theorem before_append (W1 W2 : List DescriptorWrite) (r c : Nat)
    (h1 : W1.Pairwise DescriptorWrite.Before) (h2 : W2.Pairwise DescriptorWrite.Before)
    (hb1 : ∀ w ∈ W1, w.passRank ≤ r ∧ w.ptr < c)
    (hb2 : ∀ w ∈ W2, r ≤ w.passRank ∧ (w.passRank ≤ 4 → c ≤ w.ptr)) :
    (W1 ++ W2).Pairwise DescriptorWrite.Before := by
  refine List.pairwise_append.mpr ⟨h1, h2, ?_⟩
  intro a ha b hb
  have ha2 := hb1 a ha
  have hb3 := hb2 b hb
  refine ⟨by omega, fun h4 => ?_⟩
  have := hb3.2 h4
  omega

theorem viewRun_before (heapType : D3D12_DESCRIPTOR_HEAP_TYPE) (view : ViewKind) (stride : Nat)
    (hstride : 0 < stride) (rs : List Resource) (cursor rank : Nat)
    (hwrap : cursor + rs.length * stride < 2 ^ 64)
    (hrank : ∀ w ∈ viewRun heapType view stride cursor rs, w.passRank = rank) :
    (viewRun heapType view stride cursor rs).Pairwise DescriptorWrite.Before := by
  have h := (viewRun_ptr heapType view stride hstride rs cursor hwrap).1
  refine List.Pairwise.imp_mem.mpr (h.imp ?_)
  intro a b hab ha hb
  exact ⟨by rw [hrank a ha, hrank b hb], fun _ => hab⟩

theorem segments_before (s sS cC cS N : Nat) (r0 r1 r2 r3 r4 r5 : List Resource)
    (hs : 0 < s)
    (hlen : r0.length + r1.length + r2.length + r3.length + r4.length ≤ N)
    (hwrap : cC + N * s < 2 ^ 64)
    (t1 : ∀ r ∈ r1, r.resourceType = .Buffer) (t2 : ∀ r ∈ r2, r.resourceType = .Texture)
    (t3 : ∀ r ∈ r3, r.resourceType = .Buffer) (t4 : ∀ r ∈ r4, r.resourceType = .Texture) :
    (viewRun .CBV_SRV_UAV .ConstantBufferView s cC r0 ++
      (viewRun .CBV_SRV_UAV .ShaderResourceView s (advanceCursor s cC r0.length) r1 ++
      (viewRun .CBV_SRV_UAV .ShaderResourceView s
        (advanceCursor s (advanceCursor s cC r0.length) r1.length) r2 ++
      (viewRun .CBV_SRV_UAV .UnorderedAccessView s
        (advanceCursor s (advanceCursor s (advanceCursor s cC r0.length) r1.length)
          r2.length) r3 ++
      (viewRun .CBV_SRV_UAV .UnorderedAccessView s
        (advanceCursor s (advanceCursor s (advanceCursor s (advanceCursor s cC r0.length)
          r1.length) r2.length) r3.length) r4 ++
      viewRun .SAMPLER .SamplerView sS cS r5))))).Pairwise DescriptorWrite.Before := by
  have hmul := Nat.mul_le_mul_right s hlen
  simp only [Nat.add_mul] at hmul
  have e1 : advanceCursor s cC r0.length = cC + r0.length * s :=
    advanceCursor_eq s _ _ (by omega)
  have e2 : advanceCursor s (cC + r0.length * s) r1.length =
      cC + r0.length * s + r1.length * s := advanceCursor_eq s _ _ (by omega)
  have e3 : advanceCursor s (cC + r0.length * s + r1.length * s) r2.length =
      cC + r0.length * s + r1.length * s + r2.length * s := advanceCursor_eq s _ _ (by omega)
  have e4 : advanceCursor s (cC + r0.length * s + r1.length * s + r2.length * s) r3.length =
      cC + r0.length * s + r1.length * s + r2.length * s + r3.length * s :=
    advanceCursor_eq s _ _ (by omega)
  rw [e1, e2, e3, e4]
  have k0 : ∀ w ∈ viewRun .CBV_SRV_UAV .ConstantBufferView s cC r0, w.passRank = 0 := by
    intro w hw
    obtain ⟨_, hv, _⟩ := viewRun_mem _ _ _ _ _ _ hw
    simp [DescriptorWrite.passRank, hv]
  have k1 : ∀ w ∈ viewRun .CBV_SRV_UAV .ShaderResourceView s (cC + r0.length * s) r1,
      w.passRank = 1 := by
    intro w hw
    obtain ⟨_, hv, hr⟩ := viewRun_mem _ _ _ _ _ _ hw
    simp [DescriptorWrite.passRank, hv, t1 _ hr]
  have k2 : ∀ w ∈ viewRun .CBV_SRV_UAV .ShaderResourceView s
      (cC + r0.length * s + r1.length * s) r2, w.passRank = 2 := by
    intro w hw
    obtain ⟨_, hv, hr⟩ := viewRun_mem _ _ _ _ _ _ hw
    simp [DescriptorWrite.passRank, hv, t2 _ hr]
  have k3 : ∀ w ∈ viewRun .CBV_SRV_UAV .UnorderedAccessView s
      (cC + r0.length * s + r1.length * s + r2.length * s) r3, w.passRank = 3 := by
    intro w hw
    obtain ⟨_, hv, hr⟩ := viewRun_mem _ _ _ _ _ _ hw
    simp [DescriptorWrite.passRank, hv, t3 _ hr]
  have k4 : ∀ w ∈ viewRun .CBV_SRV_UAV .UnorderedAccessView s
      (cC + r0.length * s + r1.length * s + r2.length * s + r3.length * s) r4,
      w.passRank = 4 := by
    intro w hw
    obtain ⟨_, hv, hr⟩ := viewRun_mem _ _ _ _ _ _ hw
    simp [DescriptorWrite.passRank, hv, t4 _ hr]
  have k5 : ∀ w ∈ viewRun .SAMPLER .SamplerView sS cS r5, w.passRank = 5 := by
    intro w hw
    obtain ⟨_, hv, _⟩ := viewRun_mem _ _ _ _ _ _ hw
    simp [DescriptorWrite.passRank, hv]
  have p0 := viewRun_ptr .CBV_SRV_UAV .ConstantBufferView s hs r0 cC (by omega)
  have p1 := viewRun_ptr .CBV_SRV_UAV .ShaderResourceView s hs r1 (cC + r0.length * s) (by omega)
  have p2 := viewRun_ptr .CBV_SRV_UAV .ShaderResourceView s hs r2
    (cC + r0.length * s + r1.length * s) (by omega)
  have p3 := viewRun_ptr .CBV_SRV_UAV .UnorderedAccessView s hs r3
    (cC + r0.length * s + r1.length * s + r2.length * s) (by omega)
  have p4 := viewRun_ptr .CBV_SRV_UAV .UnorderedAccessView s hs r4
    (cC + r0.length * s + r1.length * s + r2.length * s + r3.length * s) (by omega)
  have q5 : (viewRun .SAMPLER .SamplerView sS cS r5).Pairwise DescriptorWrite.Before := by
    refine List.pairwise_of_forall_mem_list ?_
    intro a ha b hb
    exact ⟨by rw [k5 a ha, k5 b hb], fun h => by rw [k5 b hb] at h; omega⟩
  have q4 := before_append _ _ 4
    (cC + r0.length * s + r1.length * s + r2.length * s + r3.length * s + r4.length * s)
    (viewRun_before _ _ s hs r4 _ 4 (by omega) k4) q5
    (fun w hw => ⟨by rw [k4 w hw], (p4.2 w hw).2⟩)
    (fun w hw => ⟨by rw [k5 w hw]; omega, fun h => by rw [k5 w hw] at h; omega⟩)
  have b4 : ∀ w ∈ viewRun .CBV_SRV_UAV .UnorderedAccessView s
      (cC + r0.length * s + r1.length * s + r2.length * s + r3.length * s) r4 ++
      viewRun .SAMPLER .SamplerView sS cS r5,
      4 ≤ w.passRank ∧ (w.passRank ≤ 4 →
        cC + r0.length * s + r1.length * s + r2.length * s + r3.length * s ≤ w.ptr) := by
    intro w hw
    rcases List.mem_append.mp hw with hw | hw
    · exact ⟨by rw [k4 w hw], fun _ => (p4.2 w hw).1⟩
    · exact ⟨by rw [k5 w hw]; omega, fun h => by rw [k5 w hw] at h; omega⟩
  have q3 := before_append _ _ 3
    (cC + r0.length * s + r1.length * s + r2.length * s + r3.length * s)
    (viewRun_before _ _ s hs r3 _ 3 (by omega) k3) q4
    (fun w hw => ⟨by rw [k3 w hw], (p3.2 w hw).2⟩)
    (fun w hw => ⟨by have := (b4 w hw).1; omega, (b4 w hw).2⟩)
  have b3 : ∀ w ∈ viewRun .CBV_SRV_UAV .UnorderedAccessView s
      (cC + r0.length * s + r1.length * s + r2.length * s) r3 ++
      (viewRun .CBV_SRV_UAV .UnorderedAccessView s
      (cC + r0.length * s + r1.length * s + r2.length * s + r3.length * s) r4 ++
      viewRun .SAMPLER .SamplerView sS cS r5),
      3 ≤ w.passRank ∧ (w.passRank ≤ 4 →
        cC + r0.length * s + r1.length * s + r2.length * s ≤ w.ptr) := by
    intro w hw
    rcases List.mem_append.mp hw with hw | hw
    · exact ⟨by rw [k3 w hw], fun _ => (p3.2 w hw).1⟩
    · exact ⟨by have := (b4 w hw).1; omega, fun h => by have := (b4 w hw).2 h; omega⟩
  have q2 := before_append _ _ 2
    (cC + r0.length * s + r1.length * s + r2.length * s)
    (viewRun_before _ _ s hs r2 _ 2 (by omega) k2) q3
    (fun w hw => ⟨by rw [k2 w hw], (p2.2 w hw).2⟩)
    (fun w hw => ⟨by have := (b3 w hw).1; omega, (b3 w hw).2⟩)
  have b2 : ∀ w ∈ viewRun .CBV_SRV_UAV .ShaderResourceView s
      (cC + r0.length * s + r1.length * s) r2 ++
      (viewRun .CBV_SRV_UAV .UnorderedAccessView s
      (cC + r0.length * s + r1.length * s + r2.length * s) r3 ++
      (viewRun .CBV_SRV_UAV .UnorderedAccessView s
      (cC + r0.length * s + r1.length * s + r2.length * s + r3.length * s) r4 ++
      viewRun .SAMPLER .SamplerView sS cS r5)),
      2 ≤ w.passRank ∧ (w.passRank ≤ 4 → cC + r0.length * s + r1.length * s ≤ w.ptr) := by
    intro w hw
    rcases List.mem_append.mp hw with hw | hw
    · exact ⟨by rw [k2 w hw], fun _ => (p2.2 w hw).1⟩
    · exact ⟨by have := (b3 w hw).1; omega, fun h => by have := (b3 w hw).2 h; omega⟩
  have q1 := before_append _ _ 1 (cC + r0.length * s + r1.length * s)
    (viewRun_before _ _ s hs r1 _ 1 (by omega) k1) q2
    (fun w hw => ⟨by rw [k1 w hw], (p1.2 w hw).2⟩)
    (fun w hw => ⟨by have := (b2 w hw).1; omega, (b2 w hw).2⟩)
  have b1 : ∀ w ∈ viewRun .CBV_SRV_UAV .ShaderResourceView s (cC + r0.length * s) r1 ++
      (viewRun .CBV_SRV_UAV .ShaderResourceView s
      (cC + r0.length * s + r1.length * s) r2 ++
      (viewRun .CBV_SRV_UAV .UnorderedAccessView s
      (cC + r0.length * s + r1.length * s + r2.length * s) r3 ++
      (viewRun .CBV_SRV_UAV .UnorderedAccessView s
      (cC + r0.length * s + r1.length * s + r2.length * s + r3.length * s) r4 ++
      viewRun .SAMPLER .SamplerView sS cS r5))),
      1 ≤ w.passRank ∧ (w.passRank ≤ 4 → cC + r0.length * s ≤ w.ptr) := by
    intro w hw
    rcases List.mem_append.mp hw with hw | hw
    · exact ⟨by rw [k1 w hw], fun _ => (p1.2 w hw).1⟩
    · exact ⟨by have := (b2 w hw).1; omega, fun h => by have := (b2 w hw).2 h; omega⟩
  exact before_append _ _ 0 (cC + r0.length * s)
    (viewRun_before _ _ s hs r0 _ 0 (by omega) k0) q1
    (fun w hw => ⟨by rw [k0 w hw], (p0.2 w hw).2⟩)
    (fun w hw => ⟨by omega, (b1 w hw).2⟩)

theorem descriptorSetWrites_heap (fc : FlagConstants) (device : ID3D12Device)
    (views : List ResourceViewDescriptor) (cC cS : Nat) (m : BindingKind → Nat)
    (w : DescriptorWrite) (hw : w ∈ descriptorSetWrites fc device views cC cS m) :
    (w.heapType = .SAMPLER ↔ w.view = .SamplerView) ∧
    (w.heapType = .CBV_SRV_UAV ↔ w.passRank ≤ 4) := by
  simp only [descriptorSetWrites, List.mem_append] at hw
  have hrank : w.passRank ≤ 4 ↔ w.view ≠ .SamplerView := by
    unfold DescriptorWrite.passRank
    cases w.view <;> cases w.resource.resourceType <;> simp
  rcases hw with hw | hw | hw | hw | hw | hw <;>
    obtain ⟨hh, hv, _⟩ := viewRun_mem _ _ _ _ _ _ hw <;>
    simp [hrank, hh, hv]

theorem descriptorSetWrites_before (fc : FlagConstants) (device : ID3D12Device)
    (views : List ResourceViewDescriptor) (cC cS : Nat) (m : BindingKind → Nat)
    (rl : D3D12RootParameterLayout) (hm : ∀ k, m k ≤ rl.count k)
    (hstride : 0 < device.GetDescriptorHandleIncrementSize .CBV_SRV_UAV)
    (hwrap : cC + (rl.numBufferCBV + rl.numBufferSRV + rl.numTextureSRV + rl.numBufferUAV +
      rl.numTextureUAV) * device.GetDescriptorHandleIncrementSize .CBV_SRV_UAV < 2 ^ 64) :
    (descriptorSetWrites fc device views cC cS m).Pairwise DescriptorWrite.Before := by
  have hlen : ∀ k, ((kindResources fc k views).take (m k)).length ≤ rl.count k := by
    intro k
    rw [List.length_take]
    have := hm k
    omega
  have hty : ∀ k, ∀ r ∈ (kindResources fc k views).take (m k),
      r.resourceType = k.resourceType :=
    fun k r hr => mem_kindResources fc k views r (List.mem_of_mem_take hr)
  have h0 := hlen .BufferCBV
  have h1 := hlen .BufferSRV
  have h2 := hlen .TextureSRV
  have h3 := hlen .BufferUAV
  have h4 := hlen .TextureUAV
  simp only [D3D12RootParameterLayout.count] at h0 h1 h2 h3 h4
  simp only [descriptorSetWrites]
  exact segments_before _ _ cC cS _ _ _ _ _ _ _ hstride (by omega) hwrap
    (hty .BufferSRV) (hty .TextureSRV) (hty .BufferUAV) (hty .TextureUAV)

theorem before_of_rank_lt (W : List DescriptorWrite) (hW : W.Pairwise DescriptorWrite.Before)
    (a b : DescriptorWrite) (ha : a ∈ W) (hb : b ∈ W) (hlt : a.passRank < b.passRank)
    (h4 : b.passRank ≤ 4) : a.ptr < b.ptr := by
  have hsymm : Symmetric (fun x y : DescriptorWrite =>
      x = y ∨ DescriptorWrite.Before x y ∨ DescriptorWrite.Before y x) := by
    intro x y h
    rcases h with h | h | h
    · exact Or.inl h.symm
    · exact Or.inr (Or.inr h)
    · exact Or.inr (Or.inl h)
  have h := List.Pairwise.forall_of_forall hsymm (fun x _ => Or.inl rfl)
    (hW.imp (fun h => Or.inr (Or.inl h))) ha hb
  rcases h with h | h | h
  · rw [h] at hlt
    omega
  · exact h.2 h4
  · have := h.1
    omega

/-! ## Start index of a descriptor set -/

theorem applyRun_written_length (device : ID3D12Device) (k : BindingKind) (rs : List Resource)
    (st : HeapBuildState) :
    (applyRun device k rs st).written.length = st.written.length + rs.length := by
  rw [applyRun_written, List.length_append, viewRun_length]

theorem createDescriptorSet_index_eq_written (fc : FlagConstants) (device : ID3D12Device)
    (desc : ResourceHeapDescriptor) (pipelineLayout : D3D12PipelineLayout)
    (st : HeapBuildState) (h : st.bindingIndex = st.written.length) :
    (createDescriptorSet fc device desc pipelineLayout st).bindingIndex =
      (createDescriptorSet fc device desc pipelineLayout st).written.length := by
  rw [createDescriptorSet_eq]
  simp only [kindPass_eq, applyRun_bindingIndex, applyRun_written_length, h]

theorem descriptorSetStates_index_eq_written (fc : FlagConstants) (device : ID3D12Device)
    (desc : ResourceHeapDescriptor) (pipelineLayout : D3D12PipelineLayout)
    (st : HeapBuildState) (h : st.bindingIndex = st.written.length) :
    ∀ j, (descriptorSetStates fc device desc pipelineLayout st j).bindingIndex =
      (descriptorSetStates fc device desc pipelineLayout st j).written.length := by
  intro j
  induction j with
  | zero => exact h
  | succ j ih => exact createDescriptorSet_index_eq_written fc device desc pipelineLayout _ ih

theorem descriptorSetStates_shift (fc : FlagConstants) (device : ID3D12Device)
    (desc : ResourceHeapDescriptor) (pipelineLayout : D3D12PipelineLayout) :
    ∀ (j : Nat) (st : HeapBuildState),
      descriptorSetStates fc device desc pipelineLayout st (j + 1) =
        descriptorSetStates fc device desc pipelineLayout
          (createDescriptorSet fc device desc pipelineLayout st) j := by
  intro j
  induction j with
  | zero => intro st; rfl
  | succ j ih =>
    intro st
    rw [descriptorSetStates, ih st]
    rfl

/-- The loop returns the state after some number `n >= 1` of iterations of its body; the
loop condition held after each iteration but the last and fails after the last. -/
theorem createDescriptors_eq_states (fc : FlagConstants) (device : ID3D12Device)
    (desc : ResourceHeapDescriptor) (pipelineLayout : D3D12PipelineLayout) :
    ∀ (d : Nat) (st : HeapBuildState), desc.resourceViews.length - st.bindingIndex ≤ d →
      ∃ n, 0 < n ∧
        createDescriptors fc device desc pipelineLayout st =
          descriptorSetStates fc device desc pipelineLayout st n := by
  intro d
  induction d with
  | zero =>
    intro st hd
    refine ⟨1, by omega, ?_⟩
    rw [createDescriptors_unfold, if_neg (by omega)]
    rfl
  | succ d ih =>
    intro st hd
    by_cases hcond : (createDescriptorSet fc device desc pipelineLayout st).bindingIndex
          < desc.resourceViews.length ∧
        st.bindingIndex < (createDescriptorSet fc device desc pipelineLayout st).bindingIndex
    · obtain ⟨n, hn, hrec⟩ := ih (createDescriptorSet fc device desc pipelineLayout st)
        (by omega)
      refine ⟨n + 1, by omega, ?_⟩
      rw [createDescriptors_unfold, if_pos hcond, hrec, descriptorSetStates_shift]
    · refine ⟨1, by omega, ?_⟩
      rw [createDescriptors_unfold, if_neg hcond]
      rfl

theorem viewRun_passRank (j : BindingKind) (stride cursor : Nat) (rs : List Resource)
    (hty : ∀ r ∈ rs, r.resourceType = j.resourceType) :
    ∀ w ∈ viewRun j.heapType j.view stride cursor rs, w.passRank = j.rank := by
  intro w hw
  obtain ⟨_, hv, hr⟩ := viewRun_mem _ _ _ _ _ _ hw
  have ht := hty _ hr
  cases j <;>
    simp [DescriptorWrite.passRank, hv, ht, BindingKind.view, BindingKind.resourceType,
      BindingKind.rank]

theorem viewRun_filter_rank (j : BindingKind) (stride cursor : Nat) (rs : List Resource)
    (hty : ∀ r ∈ rs, r.resourceType = j.resourceType) (rank : Nat) :
    (viewRun j.heapType j.view stride cursor rs).filter (fun w => decide (w.passRank = rank)) =
      if j.rank = rank then viewRun j.heapType j.view stride cursor rs else [] := by
  have h := viewRun_passRank j stride cursor rs hty
  split
  · rename_i heq
    exact List.filter_eq_self.mpr (fun w hw => by simp [h w hw, heq])
  · rename_i hne
    exact List.filter_eq_nil_iff.mpr (fun w hw => by simp [h w hw, hne])

theorem descriptorSetWrites_filter (fc : FlagConstants) (device : ID3D12Device)
    (views : List ResourceViewDescriptor) (cC cS : Nat) (m : BindingKind → Nat)
    (k : BindingKind) :
    ∃ cursor,
      (descriptorSetWrites fc device views cC cS m).filter
          (fun w => decide (w.passRank = k.rank)) =
        viewRun k.heapType k.view (kindStride device k) cursor
          ((kindResources fc k views).take (m k)) := by
  have hty : ∀ j, ∀ r ∈ (kindResources fc j views).take (m j),
      r.resourceType = j.resourceType :=
    fun j r hr => mem_kindResources fc j views r (List.mem_of_mem_take hr)
  have f0 := fun c => viewRun_filter_rank .BufferCBV
    (device.GetDescriptorHandleIncrementSize .CBV_SRV_UAV) c _ (hty .BufferCBV) k.rank
  have f1 := fun c => viewRun_filter_rank .BufferSRV
    (device.GetDescriptorHandleIncrementSize .CBV_SRV_UAV) c _ (hty .BufferSRV) k.rank
  have f2 := fun c => viewRun_filter_rank .TextureSRV
    (device.GetDescriptorHandleIncrementSize .CBV_SRV_UAV) c _ (hty .TextureSRV) k.rank
  have f3 := fun c => viewRun_filter_rank .BufferUAV
    (device.GetDescriptorHandleIncrementSize .CBV_SRV_UAV) c _ (hty .BufferUAV) k.rank
  have f4 := fun c => viewRun_filter_rank .TextureUAV
    (device.GetDescriptorHandleIncrementSize .CBV_SRV_UAV) c _ (hty .TextureUAV) k.rank
  have f5 := fun c => viewRun_filter_rank .Samplers
    (device.GetDescriptorHandleIncrementSize .SAMPLER) c _ (hty .Samplers) k.rank
  simp only [BindingKind.heapType, BindingKind.view] at f0 f1 f2 f3 f4 f5
  simp only [descriptorSetWrites, List.filter_append, f0, f1, f2, f3, f4, f5]
  cases k <;>
    simp [BindingKind.rank, BindingKind.heapType, BindingKind.view, kindStride] <;>
    exact ⟨_, rfl⟩

/-! ## Claims on the start index and on the order of the views -/

/-- C7, failing input: in the worked example the loop runs two descriptor sets; the second
starts at resource-view index 3, the index of `samplerD` itself, the only entry that holds
`samplerD`; the view of `samplerD` is written by the first set and again by the second. -/
theorem C7_entry_written_by_two_sets :
    createDescriptors WorkedExample.flags WorkedExample.device WorkedExample.desc
        WorkedExample.layout WorkedExample.initialState =
      descriptorSetStates WorkedExample.flags WorkedExample.device WorkedExample.desc
        WorkedExample.layout WorkedExample.initialState 2 ∧
    (descriptorSetStates WorkedExample.flags WorkedExample.device WorkedExample.desc
        WorkedExample.layout WorkedExample.initialState 1).bindingIndex = 3 ∧
    WorkedExample.desc.resourceViews[3]? = some ⟨some WorkedExample.samplerD⟩ ∧
    (WorkedExample.desc.resourceViews.filter
      (fun rv => decide (rv.resource = some WorkedExample.samplerD))).length = 1 ∧
    WorkedExample.samplerD ∈
      (descriptorSetViews WorkedExample.flags WorkedExample.device WorkedExample.desc
        WorkedExample.layout WorkedExample.initialState 0).map (fun w => w.resource) ∧
    WorkedExample.samplerD ∈
      (descriptorSetViews WorkedExample.flags WorkedExample.device WorkedExample.desc
        WorkedExample.layout WorkedExample.initialState 1).map (fun w => w.resource) := by
  refine ⟨?_, by decide, by decide, by decide, by decide, by decide⟩
  rw [WorkedExample.loop_result]
  decide

/-- C8: within one descriptor set, started in any state `st`, the pass of each kind `k`
writes views of the first `m k` resources of kind `k` among the resource views from the start
index of the set on (`m k` at most the count of the layout), in list order and at consecutive
positions of the heap of the kind: the views of the set written for kind `k` are the run of
views of those resources, so the `i`-th view written for a kind is the view of the resource
at position `i` among the resources of that kind.  In particular constant buffers are written
in the order in which they appear in the resource views. -/
theorem C8_order_within_kind (fc : FlagConstants) (device : ID3D12Device)
    (desc : ResourceHeapDescriptor) (pipelineLayout : D3D12PipelineLayout)
    (st : HeapBuildState) :
    ∃ m : BindingKind → Nat,
      (∀ k, m k ≤ pipelineLayout.rootParameterLayout.count k) ∧
      (createDescriptorSet fc device desc pipelineLayout st).written =
        st.written ++ descriptorSetWrites fc device (desc.resourceViews.drop st.bindingIndex)
          st.cpuDescHandleCbvSrvUav st.cpuDescHandleSampler m ∧
      ∀ k, ∃ cursor,
        (descriptorSetWrites fc device (desc.resourceViews.drop st.bindingIndex)
            st.cpuDescHandleCbvSrvUav st.cpuDescHandleSampler m).filter
          (fun w => decide (w.passRank = k.rank)) =
        viewRun k.heapType k.view (kindStride device k) cursor
          ((kindResources fc k (desc.resourceViews.drop st.bindingIndex)).take (m k)) := by
  obtain ⟨m, hm, hw⟩ := createDescriptorSet_written fc device desc pipelineLayout st
  exact ⟨m, hm, hw, fun k => descriptorSetWrites_filter fc device _ _ _ m k⟩

/-- C10: in every descriptor set, started in any state `st`, the views are written in the
order of the passes (constant-buffer views, buffer SRVs, texture SRVs, buffer UAVs, texture
UAVs, sampler views); with a positive increment size and the descriptor range of the set not
wrapping around the address space, every view of the combined-view heap written by an earlier
pass lies at a lower address than every view written by a later pass; sampler views, and only
they, go to the sampler heap. -/
theorem C10_pass_order (fc : FlagConstants) (device : ID3D12Device)
    (desc : ResourceHeapDescriptor) (pipelineLayout : D3D12PipelineLayout)
    (st : HeapBuildState)
    (hstride : 0 < device.GetDescriptorHandleIncrementSize .CBV_SRV_UAV)
    (hwrap : st.cpuDescHandleCbvSrvUav +
      (pipelineLayout.rootParameterLayout.numBufferCBV +
        pipelineLayout.rootParameterLayout.numBufferSRV +
        pipelineLayout.rootParameterLayout.numTextureSRV +
        pipelineLayout.rootParameterLayout.numBufferUAV +
        pipelineLayout.rootParameterLayout.numTextureUAV) *
        device.GetDescriptorHandleIncrementSize .CBV_SRV_UAV < 2 ^ 64) :
    ∃ W : List DescriptorWrite,
      (createDescriptorSet fc device desc pipelineLayout st).written = st.written ++ W ∧
      W.Pairwise (fun a b => a.passRank ≤ b.passRank) ∧
      (∀ a ∈ W, ∀ b ∈ W, a.passRank < b.passRank → b.passRank ≤ 4 → a.ptr < b.ptr) ∧
      (∀ w ∈ W, (w.heapType = .SAMPLER ↔ w.view = .SamplerView) ∧
        (w.heapType = .CBV_SRV_UAV ↔ w.passRank ≤ 4)) := by
  obtain ⟨m, hm, hw⟩ := createDescriptorSet_written fc device desc pipelineLayout st
  have hbefore := descriptorSetWrites_before fc device
    (desc.resourceViews.drop st.bindingIndex) st.cpuDescHandleCbvSrvUav
    st.cpuDescHandleSampler m pipelineLayout.rootParameterLayout hm hstride hwrap
  refine ⟨_, hw, hbefore.imp (fun h => h.1), ?_, ?_⟩
  · intro a ha b hb hlt h4
    exact before_of_rank_lt _ hbefore a b ha hb hlt h4
  · intro w hw2
    exact descriptorSetWrites_heap fc device _ _ _ m w hw2

/-- C10 at the first descriptor set of the worked example. -/
theorem C10_pass_order_witness :
    ∃ W : List DescriptorWrite,
      (createDescriptorSet WorkedExample.flags WorkedExample.device WorkedExample.desc
        WorkedExample.layout WorkedExample.initialState).written =
        WorkedExample.initialState.written ++ W ∧
      W.Pairwise (fun a b => a.passRank ≤ b.passRank) ∧
      (∀ a ∈ W, ∀ b ∈ W, a.passRank < b.passRank → b.passRank ≤ 4 → a.ptr < b.ptr) ∧
      (∀ w ∈ W, (w.heapType = .SAMPLER ↔ w.view = .SamplerView) ∧
        (w.heapType = .CBV_SRV_UAV ↔ w.passRank ≤ 4)) :=
  C10_pass_order WorkedExample.flags WorkedExample.device WorkedExample.desc
    WorkedExample.layout WorkedExample.initialState (by decide) (by decide)

/-! ## The iterations of the loop -/

/-- The loop returns the state after `n >= 1` iterations of its body, `n` at most one more
than the number of resource views from the first binding index on; the loop condition holds
after every iteration but the last and fails after the last. -/
theorem createDescriptors_trace (fc : FlagConstants) (device : ID3D12Device)
    (desc : ResourceHeapDescriptor) (pipelineLayout : D3D12PipelineLayout) :
    ∀ (d : Nat) (st : HeapBuildState), desc.resourceViews.length - st.bindingIndex ≤ d →
      ∃ n, 0 < n ∧ n ≤ d + 1 ∧
        createDescriptors fc device desc pipelineLayout st =
          descriptorSetStates fc device desc pipelineLayout st n ∧
        (∀ j, j + 1 < n →
          loopContinues desc (descriptorSetStates fc device desc pipelineLayout st j)
            (descriptorSetStates fc device desc pipelineLayout st (j + 1))) ∧
        ¬ loopContinues desc (descriptorSetStates fc device desc pipelineLayout st (n - 1))
            (descriptorSetStates fc device desc pipelineLayout st n) := by
  intro d
  induction d with
  | zero =>
    intro st hd
    have hcond : ¬ loopContinues desc st (createDescriptorSet fc device desc pipelineLayout st) := by
      unfold loopContinues
      omega
    refine ⟨1, by omega, by omega, ?_, fun j hj => by omega, hcond⟩
    rw [createDescriptors_unfold]
    exact if_neg hcond
  | succ d ih =>
    intro st hd
    by_cases hcond : loopContinues desc st (createDescriptorSet fc device desc pipelineLayout st)
    · obtain ⟨n, hn, hnd, hrec, hall, hlast⟩ :=
        ih (createDescriptorSet fc device desc pipelineLayout st)
          (by unfold loopContinues at hcond; omega)
      refine ⟨n + 1, by omega, by omega, ?_, ?_, ?_⟩
      · rw [createDescriptors_unfold, descriptorSetStates_shift, ← hrec]
        exact if_pos hcond
      · intro j hj
        cases j with
        | zero => exact hcond
        | succ j =>
          rw [descriptorSetStates_shift, descriptorSetStates_shift]
          exact hall j (by omega)
      · obtain ⟨m, rfl⟩ : ∃ m, n = m + 1 := ⟨n - 1, by omega⟩
        rw [descriptorSetStates_shift, Nat.add_sub_cancel, descriptorSetStates_shift]
        simpa using hlast
    · refine ⟨1, by omega, by omega, ?_, fun j hj => by omega, hcond⟩
      rw [createDescriptors_unfold]
      exact if_neg hcond

theorem createDescriptorSet_numDescriptorSets (fc : FlagConstants) (device : ID3D12Device)
    (desc : ResourceHeapDescriptor) (pipelineLayout : D3D12PipelineLayout)
    (st : HeapBuildState) :
    (createDescriptorSet fc device desc pipelineLayout st).numDescriptorSets =
      (st.numDescriptorSets + 1) % 2 ^ 32 := by
  rw [createDescriptorSet_eq]
  simp only [kindPass_eq, applyRun_numDescriptorSets]

theorem descriptorSetStates_numDescriptorSets (fc : FlagConstants) (device : ID3D12Device)
    (desc : ResourceHeapDescriptor) (pipelineLayout : D3D12PipelineLayout)
    (st : HeapBuildState) (hst : st.numDescriptorSets < 2 ^ 32) :
    ∀ n, (descriptorSetStates fc device desc pipelineLayout st n).numDescriptorSets =
      (st.numDescriptorSets + n) % 2 ^ 32 := by
  intro n
  induction n with
  | zero =>
    simp only [descriptorSetStates, Nat.add_zero]
    omega
  | succ n ih =>
    rw [descriptorSetStates, createDescriptorSet_numDescriptorSets, ih]
    omega

/-- The binding index after `j` iterations that were each followed by a further one is at
least `j` above the first binding index. -/
theorem descriptorSetStates_bindingIndex_ge (fc : FlagConstants) (device : ID3D12Device)
    (desc : ResourceHeapDescriptor) (pipelineLayout : D3D12PipelineLayout)
    (st : HeapBuildState) (n : Nat)
    (hall : ∀ j, j + 1 < n →
      loopContinues desc (descriptorSetStates fc device desc pipelineLayout st j)
        (descriptorSetStates fc device desc pipelineLayout st (j + 1))) :
    ∀ j, j < n → st.bindingIndex + j ≤
      (descriptorSetStates fc device desc pipelineLayout st j).bindingIndex := by
  intro j
  induction j with
  | zero => intro _; exact Nat.le_refl _
  | succ j ih =>
    intro hj
    have h1 := ih (by omega)
    have h2 := (hall j hj).2
    omega

/-! ## What a finished construction went through -/

theorem construct_inv (fc : FlagConstants) (device : ID3D12Device)
    (desc : ResourceHeapDescriptor) (heap : D3D12ResourceHeap) (written : List DescriptorWrite)
    (h : D3D12ResourceHeap.construct fc device desc = .constructed heap written) :
    ∃ pipelineLayout self1 self2 c1 c2,
      CreateHeapTypeCbvSrvUav device desc D3D12ResourceHeap.initial = .ok (self1, c1) ∧
      CreateHeapTypeSampler device desc self1 = .ok (self2, c2) ∧
      desc.pipelineLayout = some pipelineLayout := by
  unfold D3D12ResourceHeap.construct at h
  cases hc : CreateHeapTypeCbvSrvUav device desc D3D12ResourceHeap.initial with
  | error e => rw [hc] at h; cases h
  | ok p1 =>
    obtain ⟨self1, c1⟩ := p1
    rw [hc] at h
    simp only at h
    cases hs : CreateHeapTypeSampler device desc self1 with
    | error e => rw [hs] at h; cases h
    | ok p2 =>
      obtain ⟨self2, c2⟩ := p2
      rw [hs] at h
      simp only at h
      cases hl : desc.pipelineLayout with
      | none => simp [GetD3DPipelineLayout, hl] at h
      | some pipelineLayout => exact ⟨pipelineLayout, self1, self2, c1, c2, rfl, hs, rfl⟩

theorem CreateHeapTypeCbvSrvUav_numDescriptorSets (device : ID3D12Device)
    (desc : ResourceHeapDescriptor) (self self1 : D3D12ResourceHeap) (c1 : Nat)
    (h : CreateHeapTypeCbvSrvUav device desc self = .ok (self1, c1)) :
    self1.numDescriptorSets = self.numDescriptorSets := by
  unfold CreateHeapTypeCbvSrvUav at h
  split at h
  · cases h
  · split at h
    · simp only at h
      split at h
      · cases h
      · cases h
        rfl
    · cases h
      rfl

theorem CreateHeapTypeSampler_numDescriptorSets (device : ID3D12Device)
    (desc : ResourceHeapDescriptor) (self self2 : D3D12ResourceHeap) (c2 : Nat)
    (h : CreateHeapTypeSampler device desc self = .ok (self2, c2)) :
    self2.numDescriptorSets = self.numDescriptorSets := by
  unfold CreateHeapTypeSampler at h
  split at h
  · cases h
  · split at h
    · simp only at h
      split at h
      · cases h
      · cases h
        rfl
    · cases h
      rfl

/-- A finished construction: the object carries the stage flags and strides computed from the
layout and the device, and the set count and views of the loop started with
`bindingIndex = 0`, set count 0 and an empty log. -/
theorem construct_constructed (fc : FlagConstants) (device : ID3D12Device)
    (desc : ResourceHeapDescriptor) (heap : D3D12ResourceHeap) (written : List DescriptorWrite)
    (h : D3D12ResourceHeap.construct fc device desc = .constructed heap written) :
    ∃ pipelineLayout c1 c2,
      desc.pipelineLayout = some pipelineLayout ∧
      heap.hasGraphicsDescriptors =
        ((pipelineLayout.combinedStageFlags &&& fc.AllGraphicsStages) != 0) ∧
      heap.hasComputeDescriptors =
        ((pipelineLayout.combinedStageFlags &&& fc.ComputeStage) != 0) ∧
      heap.descriptorHandleStrides =
        (strideCbvSrvUav device pipelineLayout.rootParameterLayout,
          strideSampler device pipelineLayout.rootParameterLayout) ∧
      heap.numDescriptorSets =
        (createDescriptors fc device desc pipelineLayout
          { cpuDescHandleCbvSrvUav := c1, cpuDescHandleSampler := c2, bindingIndex := 0,
            numDescriptorSets := 0, written := [] }).numDescriptorSets ∧
      written =
        (createDescriptors fc device desc pipelineLayout
          { cpuDescHandleCbvSrvUav := c1, cpuDescHandleSampler := c2, bindingIndex := 0,
            numDescriptorSets := 0, written := [] }).written := by
  obtain ⟨pipelineLayout, self1, self2, c1, c2, hc, hs, hl⟩ :=
    construct_inv fc device desc heap written h
  have h0 : self2.numDescriptorSets = 0 := by
    rw [CreateHeapTypeSampler_numDescriptorSets device desc self1 self2 c2 hs,
      CreateHeapTypeCbvSrvUav_numDescriptorSets device desc _ self1 c1 hc]
    rfl
  rw [construct_of_ok fc device desc pipelineLayout self1 self2 c1 c2 hc hs hl, h0] at h
  injection h with hheap hwritten
  refine ⟨pipelineLayout, c1, c2, hl, ?_, ?_, ?_, ?_, hwritten.symm⟩ <;> (subst hheap; rfl)

/-! ## Claims on strides, stage flags, termination and the set count -/

/-- C12: on every successful construction `descriptorHandleStrides_[0]` is
`(numBufferCBV + numBufferSRV + numTextureSRV + numBufferUAV + numTextureUAV) *
incrementSize(CBV_SRV_UAV)` and `descriptorHandleStrides_[1]` is `numSamplers *
incrementSize(SAMPLER)`, both in 32-bit unsigned arithmetic (modulo `2^32`); two successful
constructions against the same layout and device, whatever their resource views, have the
same strides. -/
theorem C12_strides_from_layout (fc : FlagConstants) (device : ID3D12Device)
    (pipelineLayout : D3D12PipelineLayout) (views views2 : List ResourceViewDescriptor)
    (heap heap2 : D3D12ResourceHeap) (written written2 : List DescriptorWrite)
    (h : D3D12ResourceHeap.construct fc device ⟨some pipelineLayout, views⟩ =
      .constructed heap written)
    (h2 : D3D12ResourceHeap.construct fc device ⟨some pipelineLayout, views2⟩ =
      .constructed heap2 written2) :
    heap.descriptorHandleStrides.1 =
      ((pipelineLayout.rootParameterLayout.numBufferCBV +
        pipelineLayout.rootParameterLayout.numBufferSRV +
        pipelineLayout.rootParameterLayout.numTextureSRV +
        pipelineLayout.rootParameterLayout.numBufferUAV +
        pipelineLayout.rootParameterLayout.numTextureUAV) *
        device.GetDescriptorHandleIncrementSize .CBV_SRV_UAV) % 2 ^ 32 ∧
    heap.descriptorHandleStrides.2 =
      (pipelineLayout.rootParameterLayout.numSamplers *
        device.GetDescriptorHandleIncrementSize .SAMPLER) % 2 ^ 32 ∧
    heap2.descriptorHandleStrides = heap.descriptorHandleStrides := by
  obtain ⟨L, _, _, hl, _, _, hstr, _, _⟩ := construct_constructed fc device _ heap written h
  obtain ⟨L2, _, _, hl2, _, _, hstr2, _, _⟩ := construct_constructed fc device _ heap2 written2 h2
  cases hl
  cases hl2
  rw [hstr2, hstr]
  exact ⟨rfl, rfl, rfl⟩

/-- C12 at the worked example and at the worked example without the texture: both
constructions have the strides `(64, 32)`. -/
theorem C12_strides_from_layout_witness :
    (64 : Nat) = strideCbvSrvUav WorkedExample.device WorkedExample.layout.rootParameterLayout ∧
    (32 : Nat) = strideSampler WorkedExample.device WorkedExample.layout.rootParameterLayout ∧
    ((64, 32) : Nat × Nat) = (64, 32) :=
  C12_strides_from_layout WorkedExample.flags WorkedExample.device WorkedExample.layout
    WorkedExample.resourceViews WorkedExample.descWithoutTexture.resourceViews
    { heapTypeCbvSrvUav := some ⟨⟨.CBV_SRV_UAV, 3⟩, 4096⟩
      heapTypeSampler := some ⟨⟨.SAMPLER, 1⟩, 8192⟩
      descriptorHeaps := [⟨⟨.CBV_SRV_UAV, 3⟩, 4096⟩, ⟨⟨.SAMPLER, 1⟩, 8192⟩]
      numDescriptorHeaps := 2
      hasGraphicsDescriptors := true
      hasComputeDescriptors := false
      descriptorHandleStrides := (64, 32)
      numDescriptorSets := 2 }
    { heapTypeCbvSrvUav := some ⟨⟨.CBV_SRV_UAV, 2⟩, 4096⟩
      heapTypeSampler := some ⟨⟨.SAMPLER, 1⟩, 8192⟩
      descriptorHeaps := [⟨⟨.CBV_SRV_UAV, 2⟩, 4096⟩, ⟨⟨.SAMPLER, 1⟩, 8192⟩]
      numDescriptorHeaps := 2
      hasGraphicsDescriptors := true
      hasComputeDescriptors := false
      descriptorHandleStrides := (64, 32)
      numDescriptorSets := 1 }
    _ _ WorkedExample.construct_result WorkedExample.construct_withoutTexture

/-- C15: on every successful construction `hasGraphicsDescriptors_` is true iff
`(combinedStageFlags & StageFlags::AllGraphicsStages) != 0` and `hasComputeDescriptors_` is
true iff `(combinedStageFlags & StageFlags::ComputeStage) != 0`; two successful constructions
against the same layout, whatever their resource views and set counts, have the same two
flags. -/
theorem C15_stage_flags_from_layout (fc : FlagConstants) (device : ID3D12Device)
    (pipelineLayout : D3D12PipelineLayout) (views views2 : List ResourceViewDescriptor)
    (heap heap2 : D3D12ResourceHeap) (written written2 : List DescriptorWrite)
    (h : D3D12ResourceHeap.construct fc device ⟨some pipelineLayout, views⟩ =
      .constructed heap written)
    (h2 : D3D12ResourceHeap.construct fc device ⟨some pipelineLayout, views2⟩ =
      .constructed heap2 written2) :
    (heap.hasGraphicsDescriptors = true ↔
      pipelineLayout.combinedStageFlags &&& fc.AllGraphicsStages ≠ 0) ∧
    (heap.hasComputeDescriptors = true ↔
      pipelineLayout.combinedStageFlags &&& fc.ComputeStage ≠ 0) ∧
    heap2.hasGraphicsDescriptors = heap.hasGraphicsDescriptors ∧
    heap2.hasComputeDescriptors = heap.hasComputeDescriptors := by
  obtain ⟨L, _, _, hl, hg, hcmp, _, _, _⟩ := construct_constructed fc device _ heap written h
  obtain ⟨L2, _, _, hl2, hg2, hcmp2, _, _, _⟩ :=
    construct_constructed fc device _ heap2 written2 h2
  cases hl
  cases hl2
  rw [hg2, hcmp2, hg, hcmp]
  simp

/-- C15 at the worked example (two descriptor sets) and at the worked example without the
texture (one descriptor set): the layout is visible to the vertex and fragment stages, and
both objects have the graphics flag and not the compute flag. -/
theorem C15_stage_flags_from_layout_witness :
    ((true = true) ↔
      WorkedExample.layout.combinedStageFlags &&& WorkedExample.flags.AllGraphicsStages ≠ 0) ∧
    ((false = true) ↔
      WorkedExample.layout.combinedStageFlags &&& WorkedExample.flags.ComputeStage ≠ 0) ∧
    true = true ∧ false = false :=
  C15_stage_flags_from_layout WorkedExample.flags WorkedExample.device WorkedExample.layout
    WorkedExample.resourceViews WorkedExample.descWithoutTexture.resourceViews
    { heapTypeCbvSrvUav := some ⟨⟨.CBV_SRV_UAV, 3⟩, 4096⟩
      heapTypeSampler := some ⟨⟨.SAMPLER, 1⟩, 8192⟩
      descriptorHeaps := [⟨⟨.CBV_SRV_UAV, 3⟩, 4096⟩, ⟨⟨.SAMPLER, 1⟩, 8192⟩]
      numDescriptorHeaps := 2
      hasGraphicsDescriptors := true
      hasComputeDescriptors := false
      descriptorHandleStrides := (64, 32)
      numDescriptorSets := 2 }
    { heapTypeCbvSrvUav := some ⟨⟨.CBV_SRV_UAV, 2⟩, 4096⟩
      heapTypeSampler := some ⟨⟨.SAMPLER, 1⟩, 8192⟩
      descriptorHeaps := [⟨⟨.CBV_SRV_UAV, 2⟩, 4096⟩, ⟨⟨.SAMPLER, 1⟩, 8192⟩]
      numDescriptorHeaps := 2
      hasGraphicsDescriptors := true
      hasComputeDescriptors := false
      descriptorHandleStrides := (64, 32)
      numDescriptorSets := 1 }
    _ _ WorkedExample.construct_result WorkedExample.construct_withoutTexture

/-- C16: the loop terminates: it returns the state after some number `n >= 1` of iterations
of its body, at most one more than the number of resource views from the first binding index
on; every descriptor set after the first one is started only while `bindingIndex` is below
the number of resource views, so once `bindingIndex` has reached that number after an
iteration, no further descriptor set is started. -/
theorem C16_loop_terminates (fc : FlagConstants) (device : ID3D12Device)
    (desc : ResourceHeapDescriptor) (pipelineLayout : D3D12PipelineLayout)
    (st : HeapBuildState) :
    ∃ n, 0 < n ∧ n ≤ desc.resourceViews.length - st.bindingIndex + 1 ∧
      createDescriptors fc device desc pipelineLayout st =
        descriptorSetStates fc device desc pipelineLayout st n ∧
      (∀ j, 0 < j → j < n →
        (descriptorSetStates fc device desc pipelineLayout st j).bindingIndex <
          desc.resourceViews.length) ∧
      (∀ j, 0 < j →
        desc.resourceViews.length ≤
          (descriptorSetStates fc device desc pipelineLayout st j).bindingIndex → n ≤ j) := by
  obtain ⟨n, hn, hnd, hloop, hall, _⟩ :=
    createDescriptors_trace fc device desc pipelineLayout _ st (Nat.le_refl _)
  have hlt : ∀ j, 0 < j → j < n →
      (descriptorSetStates fc device desc pipelineLayout st j).bindingIndex <
        desc.resourceViews.length := by
    intro j hj hjn
    obtain ⟨i, rfl⟩ : ∃ i, j = i + 1 := ⟨j - 1, by omega⟩
    exact (hall i hjn).1
  refine ⟨n, hn, hnd, hloop, hlt, ?_⟩
  intro j hj hge
  by_contra hnj
  have := hlt j hj (by omega)
  omega

/-- C20: on every construction that completes, with fewer than `2^32` resource views (the
set counter is a 32-bit unsigned integer), `1 <= GetNumDescriptorSets() <= max(1, number of
resource views)`; the count is the number `n` of loop iterations, and every iteration but the
last strictly increases `bindingIndex`. -/
theorem C20_set_count_bounds (fc : FlagConstants) (device : ID3D12Device)
    (desc : ResourceHeapDescriptor) (heap : D3D12ResourceHeap) (written : List DescriptorWrite)
    (h32 : desc.resourceViews.length < 2 ^ 32)
    (h : D3D12ResourceHeap.construct fc device desc = .constructed heap written) :
    1 ≤ heap.GetNumDescriptorSets ∧
    heap.GetNumDescriptorSets ≤ max 1 desc.resourceViews.length ∧
    ∃ pipelineLayout c1 c2,
      desc.pipelineLayout = some pipelineLayout ∧
      createDescriptors fc device desc pipelineLayout
          { cpuDescHandleCbvSrvUav := c1, cpuDescHandleSampler := c2, bindingIndex := 0,
            numDescriptorSets := 0, written := [] } =
        descriptorSetStates fc device desc pipelineLayout
          { cpuDescHandleCbvSrvUav := c1, cpuDescHandleSampler := c2, bindingIndex := 0,
            numDescriptorSets := 0, written := [] } heap.GetNumDescriptorSets ∧
      ∀ j, j + 1 < heap.GetNumDescriptorSets →
        (descriptorSetStates fc device desc pipelineLayout
          { cpuDescHandleCbvSrvUav := c1, cpuDescHandleSampler := c2, bindingIndex := 0,
            numDescriptorSets := 0, written := [] } j).bindingIndex <
        (descriptorSetStates fc device desc pipelineLayout
          { cpuDescHandleCbvSrvUav := c1, cpuDescHandleSampler := c2, bindingIndex := 0,
            numDescriptorSets := 0, written := [] } (j + 1)).bindingIndex := by
  obtain ⟨L, c1, c2, hl, _, _, _, hsets, _⟩ := construct_constructed fc device desc heap written h
  obtain ⟨n, hn, hnd, hloop, hall, _⟩ :=
    createDescriptors_trace fc device desc L _
      { cpuDescHandleCbvSrvUav := c1, cpuDescHandleSampler := c2, bindingIndex := 0,
        numDescriptorSets := 0, written := [] } (Nat.le_refl _)
  have hbound : n ≤ max 1 desc.resourceViews.length := by
    by_cases h1 : n = 1
    · omega
    · have hge := descriptorSetStates_bindingIndex_ge fc device desc L _ n hall (n - 1) (by omega)
      have hlt := (hall (n - 2) (by omega)).1
      rw [show n - 2 + 1 = n - 1 by omega] at hlt
      simp only at hge
      omega
  have hcount : heap.GetNumDescriptorSets = n := by
    rw [D3D12ResourceHeap.GetNumDescriptorSets, hsets, hloop,
      descriptorSetStates_numDescriptorSets fc device desc L _ (Nat.two_pow_pos 32)]
    simp only [Nat.zero_add]
    exact Nat.mod_eq_of_lt (by omega)
  rw [hcount]
  exact ⟨hn, hbound, L, c1, c2, hl, hloop, fun j hj => (hall j hj).2⟩

/-- C20 at the worked example: 4 resource views, 2 descriptor sets. -/
theorem C20_set_count_bounds_witness :
    1 ≤ (2 : Nat) ∧ (2 : Nat) ≤ max 1 WorkedExample.desc.resourceViews.length ∧
    ∃ pipelineLayout c1 c2,
      WorkedExample.desc.pipelineLayout = some pipelineLayout ∧
      createDescriptors WorkedExample.flags WorkedExample.device WorkedExample.desc pipelineLayout
          { cpuDescHandleCbvSrvUav := c1, cpuDescHandleSampler := c2, bindingIndex := 0,
            numDescriptorSets := 0, written := [] } =
        descriptorSetStates WorkedExample.flags WorkedExample.device WorkedExample.desc
          pipelineLayout
          { cpuDescHandleCbvSrvUav := c1, cpuDescHandleSampler := c2, bindingIndex := 0,
            numDescriptorSets := 0, written := [] } 2 ∧
      ∀ j, j + 1 < 2 →
        (descriptorSetStates WorkedExample.flags WorkedExample.device WorkedExample.desc
          pipelineLayout
          { cpuDescHandleCbvSrvUav := c1, cpuDescHandleSampler := c2, bindingIndex := 0,
            numDescriptorSets := 0, written := [] } j).bindingIndex <
        (descriptorSetStates WorkedExample.flags WorkedExample.device WorkedExample.desc
          pipelineLayout
          { cpuDescHandleCbvSrvUav := c1, cpuDescHandleSampler := c2, bindingIndex := 0,
            numDescriptorSets := 0, written := [] } (j + 1)).bindingIndex :=
  C20_set_count_bounds WorkedExample.flags WorkedExample.device WorkedExample.desc _ _
    (by decide) WorkedExample.construct_result

/-! ## Claims on one pass and on the bind-flag test -/

theorem advanceCursor_mod (stride : Nat) :
    ∀ (n cursor : Nat), cursor < 2 ^ 64 →
      advanceCursor stride cursor n = (cursor + n * stride) % 2 ^ 64 := by
  intro n
  induction n with
  | zero =>
    intro cursor h
    simp only [advanceCursor, Nat.zero_mul, Nat.add_zero]
    exact (Nat.mod_eq_of_lt h).symm
  | succ n ih =>
    intro cursor _
    rw [advanceCursor, ih _ (Nat.mod_lt _ (Nat.two_pow_pos 64)), Nat.mod_add_mod]
    congr 1
    rw [Nat.succ_mul]
    omega

theorem applyRun_cursor (device : ID3D12Device) (k : BindingKind) (rs : List Resource)
    (st : HeapBuildState) :
    kindCursor k (applyRun device k rs st) =
      advanceCursor (kindStride device k) (kindCursor k st) rs.length := by
  cases k <;> rfl

theorem kindCallback_match (fc : FlagConstants) (device : ID3D12Device)
    (pipelineLayout : D3D12PipelineLayout) (k : BindingKind) (r : Resource)
    (st : HeapBuildState) (h : (kindCallback fc device pipelineLayout k r st).1 = true) :
    (kindCallback fc device pipelineLayout k r st).2.bindingIndex = st.bindingIndex + 1 ∧
    kindCursor k (kindCallback fc device pipelineLayout k r st).2 =
      (kindCursor k st + kindStride device k) % 2 ^ 64 ∧
    (kindCallback fc device pipelineLayout k r st).2.written =
      st.written ++ [⟨k.heapType, kindCursor k st, k.view, r⟩] := by
  unfold kindCallback at h ⊢
  split at h
  · rename_i hc
    rw [if_pos hc]
    cases k <;> exact ⟨rfl, rfl, rfl⟩
  · cases h

/-- C17: one kind-specific pass run with layout count `N` for its kind (the passes of
`CreateConstantBufferViews`, `CreateShaderResourceViews`, `CreateUnorderedAccessViews` and
`CreateSamplers` are the six passes `kindPass`): a matching callback adds one view at the write
cursor of the heap of the kind, increments `bindingIndex` by one and advances that cursor by
one increment size (64-bit pointer arithmetic); the pass writes `m <= N` views, after it
`bindingIndex` has grown by `m` and the write cursor by `m * incrementSize`; and the pass
stops scanning as soon as `N` matches are made: when a front part `A` of the scanned resource
views already yields `N` matches, the result is that of the pass over `A` alone. -/
theorem C17_pass_postcondition (fc : FlagConstants) (device : ID3D12Device)
    (desc : ResourceHeapDescriptor) (pipelineLayout : D3D12PipelineLayout) (first : Nat)
    (k : BindingKind) (st : HeapBuildState) (hcursor : kindCursor k st < 2 ^ 64) :
    (∀ s, CreateConstantBufferViews fc device desc pipelineLayout first
        pipelineLayout.rootParameterLayout s =
      kindPass fc device desc pipelineLayout first .BufferCBV s) ∧
    (∀ s, CreateShaderResourceViews fc device desc pipelineLayout first
        pipelineLayout.rootParameterLayout s =
      kindPass fc device desc pipelineLayout first .TextureSRV
        (kindPass fc device desc pipelineLayout first .BufferSRV s)) ∧
    (∀ s, CreateUnorderedAccessViews fc device desc pipelineLayout first
        pipelineLayout.rootParameterLayout s =
      kindPass fc device desc pipelineLayout first .TextureUAV
        (kindPass fc device desc pipelineLayout first .BufferUAV s)) ∧
    (∀ s, CreateSamplers device desc first pipelineLayout.rootParameterLayout s =
      kindPass fc device desc pipelineLayout first .Samplers s) ∧
    (∀ r s, (kindCallback fc device pipelineLayout k r s).1 = true →
      (kindCallback fc device pipelineLayout k r s).2.bindingIndex = s.bindingIndex + 1 ∧
      kindCursor k (kindCallback fc device pipelineLayout k r s).2 =
        (kindCursor k s + device.GetDescriptorHandleIncrementSize k.heapType) % 2 ^ 64 ∧
      (kindCallback fc device pipelineLayout k r s).2.written =
        s.written ++ [⟨k.heapType, kindCursor k s, k.view, r⟩]) ∧
    (∃ m, m ≤ pipelineLayout.rootParameterLayout.count k ∧
      (kindPass fc device desc pipelineLayout first k st).bindingIndex = st.bindingIndex + m ∧
      (kindPass fc device desc pipelineLayout first k st).written.length =
        st.written.length + m ∧
      kindCursor k (kindPass fc device desc pipelineLayout first k st) =
        (kindCursor k st + m * device.GetDescriptorHandleIncrementSize k.heapType) % 2 ^ 64) ∧
    (∀ A B : List ResourceViewDescriptor, desc.resourceViews.drop first = A ++ B →
      (kindPass fc device ⟨desc.pipelineLayout, A⟩ pipelineLayout 0 k st).bindingIndex =
        st.bindingIndex + pipelineLayout.rootParameterLayout.count k →
      kindPass fc device desc pipelineLayout first k st =
        kindPass fc device ⟨desc.pipelineLayout, A⟩ pipelineLayout 0 k st) := by
  refine ⟨fun s => CreateConstantBufferViews_eq fc device desc pipelineLayout first s,
    fun s => CreateShaderResourceViews_eq fc device desc pipelineLayout first s,
    fun s => CreateUnorderedAccessViews_eq fc device desc pipelineLayout first s,
    fun s => CreateSamplers_eq fc device desc pipelineLayout first s,
    fun r s h => kindCallback_match fc device pipelineLayout k r s h, ?_, ?_⟩
  · obtain ⟨m0, hm0, h0⟩ := kindPass_take fc device desc pipelineLayout first k st
    refine ⟨((kindResources fc k (desc.resourceViews.drop first)).take m0).length, ?_, ?_, ?_, ?_⟩
    · rw [List.length_take]
      omega
    · rw [h0, applyRun_bindingIndex]
    · rw [h0, applyRun_written_length]
    · rw [h0, applyRun_cursor, advanceCursor_mod _ _ _ hcursor]
      rfl
  · intro A B hdrop hfull
    rw [kindPass_eq, applyRun_bindingIndex, passResources, List.length_take] at hfull
    have hle := slotRun_le (pipelineLayout.slotAccepts fc k)
      (pipelineLayout.rootParameterLayout.count k) st.bindingIndex
    simp only [List.drop_zero] at hfull
    rw [kindPass_eq, kindPass_eq, passResources, passResources, hdrop, kindResources_append]
    simp only [List.drop_zero]
    rw [List.take_append_of_le_length (by omega)]

/-- C17 at the worked example: the constant-buffer pass of the first descriptor set, with
layout count 2, started at the heap start 4096 with increment size 32. -/
theorem C17_pass_postcondition_witness :
    kindCursor .BufferCBV WorkedExample.initialState < 2 ^ 64 ∧
    ∃ m, m ≤ WorkedExample.layout.rootParameterLayout.count .BufferCBV ∧
      (kindPass WorkedExample.flags WorkedExample.device WorkedExample.desc WorkedExample.layout
        0 .BufferCBV WorkedExample.initialState).bindingIndex =
        WorkedExample.initialState.bindingIndex + m ∧
      (kindPass WorkedExample.flags WorkedExample.device WorkedExample.desc WorkedExample.layout
        0 .BufferCBV WorkedExample.initialState).written.length =
        WorkedExample.initialState.written.length + m ∧
      kindCursor .BufferCBV
        (kindPass WorkedExample.flags WorkedExample.device WorkedExample.desc
          WorkedExample.layout 0 .BufferCBV WorkedExample.initialState) =
        (kindCursor .BufferCBV WorkedExample.initialState +
          m * WorkedExample.device.GetDescriptorHandleIncrementSize
            BindingKind.BufferCBV.heapType) % 2 ^ 64 :=
  ⟨by decide,
    (C17_pass_postcondition WorkedExample.flags WorkedExample.device WorkedExample.desc
      WorkedExample.layout 0 .BufferCBV WorkedExample.initialState (by decide)).2.2.2.2.2.1⟩

/-- C18: `MatchBindFlags` returns true iff the bind flags of the resource intersect the
required flags and the bind flags of the pipeline layout at the current `bindingIndex`
intersect the required flags; `bindingIndex` is increased by exactly one when it returns true
and is unchanged when it returns false; and a resource on which the callback of a pass gets
false from `MatchBindFlags` is skipped without consuming a slot: the pass goes on over the
remaining resource views with the same state (binding index, write cursors) and the same
remaining count. -/
theorem C18_MatchBindFlags_skips (pipelineLayout : D3D12PipelineLayout)
    (resourceBindFlags requiredBindFlags bindingIndex : Nat)
    (layoutOfDesc : Option D3D12PipelineLayout) (resourceType : ResourceType) (view : ViewKind)
    (descHandleStride : Nat) (resource : Resource) (rest : List ResourceViewDescriptor)
    (numResourceViewsInLayout : Nat) (st : HeapBuildState) :
    ((MatchBindFlags pipelineLayout resourceBindFlags requiredBindFlags bindingIndex).1 = true ↔
      (resourceBindFlags &&& requiredBindFlags ≠ 0 ∧
        pipelineLayout.GetBindFlagsByIndex bindingIndex &&& requiredBindFlags ≠ 0)) ∧
    ((MatchBindFlags pipelineLayout resourceBindFlags requiredBindFlags bindingIndex).1 = true →
      (MatchBindFlags pipelineLayout resourceBindFlags requiredBindFlags bindingIndex).2 =
        bindingIndex + 1) ∧
    ((MatchBindFlags pipelineLayout resourceBindFlags requiredBindFlags bindingIndex).1 = false →
      (MatchBindFlags pipelineLayout resourceBindFlags requiredBindFlags bindingIndex).2 =
        bindingIndex) ∧
    ((MatchBindFlags pipelineLayout resource.bindFlags requiredBindFlags st.bindingIndex).1 =
        false →
      ForEachResourceViewOfType ⟨layoutOfDesc, ⟨some resource⟩ :: rest⟩ resourceType 0
          numResourceViewsInLayout
          (fun resource st =>
            let m := MatchBindFlags pipelineLayout resource.bindFlags requiredBindFlags
              st.bindingIndex
            if m.1 then
              (true, writeViewCbvSrvUav view descHandleStride resource
                { st with bindingIndex := m.2 })
            else (false, st))
          st =
        ForEachResourceViewOfType ⟨layoutOfDesc, rest⟩ resourceType 0 numResourceViewsInLayout
          (fun resource st =>
            let m := MatchBindFlags pipelineLayout resource.bindFlags requiredBindFlags
              st.bindingIndex
            if m.1 then
              (true, writeViewCbvSrvUav view descHandleStride resource
                { st with bindingIndex := m.2 })
            else (false, st))
          st) := by
  refine ⟨?_, ?_, ?_, ?_⟩
  · unfold MatchBindFlags
    split <;> simp_all
  · unfold MatchBindFlags
    split <;> simp
  · unfold MatchBindFlags
    split <;> simp
  · intro h
    cases numResourceViewsInLayout with
    | zero =>
      cases rest <;> simp [ForEachResourceViewOfType, ForEachResourceViewOfType.loop]
    | succ n =>
      by_cases hty : resource.resourceType = resourceType
      · simp [ForEachResourceViewOfType, ForEachResourceViewOfType.loop, hty, h]
      · simp [ForEachResourceViewOfType, ForEachResourceViewOfType.loop, hty]

/-- C18 at the worked example: the texture `texB` (bind flag `Sampled`) does not match the
constant-buffer requirement, and a buffer pass over `[texB, bufC, samplerD]` is the pass over
`[bufC, samplerD]`. -/
theorem C18_MatchBindFlags_skips_witness :
    (MatchBindFlags WorkedExample.layout WorkedExample.texB.bindFlags
      WorkedExample.flags.ConstantBuffer 1).1 = false ∧
    ForEachResourceViewOfType
        ⟨some WorkedExample.layout,
          ⟨some WorkedExample.texB⟩ :: [⟨some WorkedExample.bufC⟩, ⟨some WorkedExample.samplerD⟩]⟩
        .Buffer 0 1
        (fun resource st =>
          let m := MatchBindFlags WorkedExample.layout resource.bindFlags
            WorkedExample.flags.ConstantBuffer st.bindingIndex
          if m.1 then
            (true, writeViewCbvSrvUav .ConstantBufferView 32 resource
              { st with bindingIndex := m.2 })
          else (false, st))
        (⟨4128, 8192, 1, 0, []⟩ : HeapBuildState) =
      ForEachResourceViewOfType
        ⟨some WorkedExample.layout, [⟨some WorkedExample.bufC⟩, ⟨some WorkedExample.samplerD⟩]⟩
        .Buffer 0 1
        (fun resource st =>
          let m := MatchBindFlags WorkedExample.layout resource.bindFlags
            WorkedExample.flags.ConstantBuffer st.bindingIndex
          if m.1 then
            (true, writeViewCbvSrvUav .ConstantBufferView 32 resource
              { st with bindingIndex := m.2 })
          else (false, st))
        (⟨4128, 8192, 1, 0, []⟩ : HeapBuildState) :=
  ⟨by decide,
    (C18_MatchBindFlags_skips WorkedExample.layout 0 WorkedExample.flags.ConstantBuffer 0
      (some WorkedExample.layout) .Buffer .ConstantBufferView 32 WorkedExample.texB
      [⟨some WorkedExample.bufC⟩, ⟨some WorkedExample.samplerD⟩] 1
      ⟨4128, 8192, 1, 0, []⟩).2.2.2 (by decide)⟩

/-! ## Claims on the descriptor heaps -/

theorem countP_isCounted_lt (isCounted : ResourceType → Bool)
    (views : List ResourceViewDescriptor) (h32 : views.length < 2 ^ 32) :
    views.countP (ResourceViewDescriptor.isCounted isCounted) < 2 ^ 32 :=
  Nat.lt_of_le_of_lt (List.countP_le_length _) h32

theorem CreateHeapTypeCbvSrvUav_closed (device : ID3D12Device) (desc : ResourceHeapDescriptor)
    (self : D3D12ResourceHeap)
    (hnull : ∀ rv ∈ desc.resourceViews, rv.resource ≠ none)
    (h32 : desc.resourceViews.length < 2 ^ 32)
    (hdev : ∀ heapDesc, device.CreateDescriptorHeap heapDesc ≠ none) :
    ∃ c1, (c1 = 0 ∨ ∃ heapDesc, device.CreateDescriptorHeap heapDesc = some c1) ∧
      CreateHeapTypeCbvSrvUav device desc self =
      .ok (if numCbvSrvUavViews desc.resourceViews = 0 then self
        else AppendDescriptorHeapToArray
          { self with
            heapTypeCbvSrvUav :=
              some ⟨⟨.CBV_SRV_UAV, numCbvSrvUavViews desc.resourceViews⟩, c1⟩ }
          ⟨⟨.CBV_SRV_UAV, numCbvSrvUavViews desc.resourceViews⟩, c1⟩, c1) := by
  unfold CreateHeapTypeCbvSrvUav
  rw [countDescriptors_eq _ _ _ hnull (Nat.two_pow_pos 32), Nat.zero_add,
    Nat.mod_eq_of_lt (countP_isCounted_lt _ _ h32)]
  rw [show desc.resourceViews.countP _ = numCbvSrvUavViews desc.resourceViews from rfl]
  by_cases hz : numCbvSrvUavViews desc.resourceViews = 0
  · refine ⟨0, Or.inl rfl, ?_⟩
    simp only [hz, gt_iff_lt, Nat.lt_irrefl, if_false, if_true]
  · obtain ⟨c1, hc1⟩ := Option.ne_none_iff_exists'.mp
      (hdev ⟨.CBV_SRV_UAV, numCbvSrvUavViews desc.resourceViews⟩)
    refine ⟨c1, Or.inr ⟨_, hc1⟩, ?_⟩
    simp only [gt_iff_lt, Nat.pos_of_ne_zero hz, if_true, hc1, if_neg hz]

theorem CreateHeapTypeSampler_closed (device : ID3D12Device) (desc : ResourceHeapDescriptor)
    (self : D3D12ResourceHeap)
    (hnull : ∀ rv ∈ desc.resourceViews, rv.resource ≠ none)
    (h32 : desc.resourceViews.length < 2 ^ 32)
    (hdev : ∀ heapDesc, device.CreateDescriptorHeap heapDesc ≠ none) :
    ∃ c2, (c2 = 0 ∨ ∃ heapDesc, device.CreateDescriptorHeap heapDesc = some c2) ∧
      CreateHeapTypeSampler device desc self =
      .ok (if numSamplerViews desc.resourceViews = 0 then self
        else AppendDescriptorHeapToArray
          { self with
            heapTypeSampler :=
              some ⟨⟨.SAMPLER, numSamplerViews desc.resourceViews⟩, c2⟩ }
          ⟨⟨.SAMPLER, numSamplerViews desc.resourceViews⟩, c2⟩, c2) := by
  unfold CreateHeapTypeSampler
  rw [countDescriptors_eq _ _ _ hnull (Nat.two_pow_pos 32), Nat.zero_add,
    Nat.mod_eq_of_lt (countP_isCounted_lt _ _ h32)]
  rw [show desc.resourceViews.countP _ = numSamplerViews desc.resourceViews from rfl]
  by_cases hz : numSamplerViews desc.resourceViews = 0
  · refine ⟨0, Or.inl rfl, ?_⟩
    simp only [hz, gt_iff_lt, Nat.lt_irrefl, if_false, if_true]
  · obtain ⟨c2, hc2⟩ := Option.ne_none_iff_exists'.mp
      (hdev ⟨.SAMPLER, numSamplerViews desc.resourceViews⟩)
    refine ⟨c2, Or.inr ⟨_, hc2⟩, ?_⟩
    simp only [gt_iff_lt, Nat.pos_of_ne_zero hz, if_true, hc2, if_neg hz]

theorem construct_heaps (fc : FlagConstants) (device : ID3D12Device)
    (desc : ResourceHeapDescriptor) (self1 self2 : D3D12ResourceHeap) (c1 c2 : Nat)
    (hc : CreateHeapTypeCbvSrvUav device desc D3D12ResourceHeap.initial = .ok (self1, c1))
    (hs : CreateHeapTypeSampler device desc self1 = .ok (self2, c2)) :
    (D3D12ResourceHeap.construct fc device desc).heaps = self2.descriptorHeaps ∧
    ∀ heap written, D3D12ResourceHeap.construct fc device desc = .constructed heap written →
      heap.descriptorHeaps = self2.descriptorHeaps ∧
      heap.numDescriptorHeaps = self2.numDescriptorHeaps ∧
      heap.heapTypeCbvSrvUav = self2.heapTypeCbvSrvUav ∧
      heap.heapTypeSampler = self2.heapTypeSampler := by
  cases hl : desc.pipelineLayout with
  | none =>
    have hcon : D3D12ResourceHeap.construct fc device desc =
        .failed .noPipelineLayout self2.descriptorHeaps := by
      unfold D3D12ResourceHeap.construct
      rw [hc]
      simp only [hs, GetD3DPipelineLayout, hl]
    rw [hcon]
    exact ⟨rfl, fun heap written h => by cases h⟩
  | some pipelineLayout =>
    rw [construct_of_ok fc device desc pipelineLayout self1 self2 c1 c2 hc hs hl]
    refine ⟨rfl, ?_⟩
    intro heap written h
    injection h with hheap _
    subst hheap
    exact ⟨rfl, rfl, rfl, rfl⟩

/-- C11: for resource views with no null handle (fewer than `2^32` of them, the counters
being 32-bit unsigned integers) and a device that creates the heaps it is asked for: the
combined-view heap is requested with exactly as many descriptors as there are resource views
of type Buffer or Texture and is not created when that count is zero; the sampler heap is
requested with exactly as many descriptors as there are resource views of type Sampler and is
not created when that count is zero; the heaps created are these, in this order (also when
the constructor then fails for want of a pipeline layout), and on a constructed object
`numDescriptorHeaps_` is the number of non-zero counts. -/
theorem C11_heap_sizing (fc : FlagConstants) (device : ID3D12Device)
    (desc : ResourceHeapDescriptor)
    (hnull : ∀ rv ∈ desc.resourceViews, rv.resource ≠ none)
    (h32 : desc.resourceViews.length < 2 ^ 32)
    (hdev : ∀ heapDesc, device.CreateDescriptorHeap heapDesc ≠ none) :
    (D3D12ResourceHeap.construct fc device desc).heaps.map ID3D12DescriptorHeap.heapDesc =
      (if numCbvSrvUavViews desc.resourceViews = 0 then []
        else [⟨.CBV_SRV_UAV, numCbvSrvUavViews desc.resourceViews⟩]) ++
      (if numSamplerViews desc.resourceViews = 0 then []
        else [⟨.SAMPLER, numSamplerViews desc.resourceViews⟩]) ∧
    ∀ heap written, D3D12ResourceHeap.construct fc device desc = .constructed heap written →
      heap.numDescriptorHeaps =
        (if numCbvSrvUavViews desc.resourceViews = 0 then 0 else 1) +
        (if numSamplerViews desc.resourceViews = 0 then 0 else 1) ∧
      heap.descriptorHeaps.length = heap.numDescriptorHeaps ∧
      heap.heapTypeCbvSrvUav.map ID3D12DescriptorHeap.heapDesc =
        (if numCbvSrvUavViews desc.resourceViews = 0 then none
          else some ⟨.CBV_SRV_UAV, numCbvSrvUavViews desc.resourceViews⟩) ∧
      heap.heapTypeSampler.map ID3D12DescriptorHeap.heapDesc =
        (if numSamplerViews desc.resourceViews = 0 then none
          else some ⟨.SAMPLER, numSamplerViews desc.resourceViews⟩) := by
  obtain ⟨c1, _, hc⟩ :=
    CreateHeapTypeCbvSrvUav_closed device desc D3D12ResourceHeap.initial hnull h32 hdev
  obtain ⟨c2, _, hs⟩ := CreateHeapTypeSampler_closed device desc
    (if numCbvSrvUavViews desc.resourceViews = 0 then D3D12ResourceHeap.initial
      else AppendDescriptorHeapToArray
        { D3D12ResourceHeap.initial with
          heapTypeCbvSrvUav :=
            some ⟨⟨.CBV_SRV_UAV, numCbvSrvUavViews desc.resourceViews⟩, c1⟩ }
        ⟨⟨.CBV_SRV_UAV, numCbvSrvUavViews desc.resourceViews⟩, c1⟩) hnull h32 hdev
  obtain ⟨hheaps, hobj⟩ := construct_heaps fc device desc _ _ c1 c2 hc hs
  refine ⟨?_, ?_⟩
  · rw [hheaps]
    by_cases hzc : numCbvSrvUavViews desc.resourceViews = 0 <;>
      by_cases hzs : numSamplerViews desc.resourceViews = 0 <;>
      simp [hzc, hzs, AppendDescriptorHeapToArray, D3D12ResourceHeap.initial]
  · intro heap written h
    obtain ⟨h1, h2, h3, h4⟩ := hobj heap written h
    rw [h1, h2, h3, h4]
    by_cases hzc : numCbvSrvUavViews desc.resourceViews = 0 <;>
      by_cases hzs : numSamplerViews desc.resourceViews = 0 <;>
      simp [hzc, hzs, AppendDescriptorHeapToArray, D3D12ResourceHeap.initial]

/-- C11 at the worked example: `[bufA, texB, bufC, samplerD]` has three entries of type
Buffer or Texture and one of type Sampler; a combined-view heap of 3 descriptors and a
sampler heap of 1 descriptor are created. -/
theorem C11_heap_sizing_witness :
    (D3D12ResourceHeap.construct WorkedExample.flags WorkedExample.device
        WorkedExample.desc).heaps.map ID3D12DescriptorHeap.heapDesc =
      [⟨.CBV_SRV_UAV, 3⟩, ⟨.SAMPLER, 1⟩] :=
  (C11_heap_sizing WorkedExample.flags WorkedExample.device WorkedExample.desc (by decide)
    (by decide) exampleDevice_creates).1

/-! ## Cursors over complete descriptor sets -/

theorem advanceCursor_add (stride : Nat) :
    ∀ (a b cursor : Nat),
      advanceCursor stride (advanceCursor stride cursor a) b = advanceCursor stride cursor (a + b) := by
  intro a
  induction a with
  | zero => intro b cursor; simp [advanceCursor]
  | succ a ih =>
    intro b cursor
    rw [show a + 1 + b = (a + b) + 1 by omega, advanceCursor, advanceCursor, ih]

theorem applyBlock_cursors (fc : FlagConstants) (device : ID3D12Device)
    (block : List ResourceViewDescriptor) (st : HeapBuildState) (rl : D3D12RootParameterLayout)
    (hcount : ∀ k, kindCount fc k block = rl.count k) :
    (applyBlock fc device block st).cpuDescHandleCbvSrvUav =
      advanceCursor (device.GetDescriptorHandleIncrementSize .CBV_SRV_UAV)
        st.cpuDescHandleCbvSrvUav
        (rl.numBufferCBV + rl.numBufferSRV + rl.numTextureSRV + rl.numBufferUAV +
          rl.numTextureUAV) ∧
    (applyBlock fc device block st).cpuDescHandleSampler =
      advanceCursor (device.GetDescriptorHandleIncrementSize .SAMPLER) st.cpuDescHandleSampler
        rl.numSamplers := by
  have hlen : ∀ k, (kindResources fc k block).length = rl.count k := hcount
  simp only [applyBlock, applyRun, BindingKind.heapType, kindStride, advanceCursor_add, hlen,
    D3D12RootParameterLayout.count, and_self]

/-- State after `j` complete descriptor sets: when the resource views start with `k` groups of
`bindingsPerSet` entries, each holding the resources of one set, the loop body leaves after
`j <= k` iterations the binding index `j * bindingsPerSet` and cursors advanced by `j` times
the bindings of the layout in the heap. -/
theorem descriptorSetStates_groups (fc : FlagConstants) (device : ID3D12Device)
    (desc : ResourceHeapDescriptor) (pipelineLayout : D3D12PipelineLayout) (k : Nat)
    (st : HeapBuildState) (hst : st.bindingIndex = 0)
    (hblocks : ∀ j, j < k → ∀ kind,
      kindCount fc kind
        ((desc.resourceViews.drop (j * pipelineLayout.rootParameterLayout.bindingsPerSet)).take
          pipelineLayout.rootParameterLayout.bindingsPerSet) =
        pipelineLayout.rootParameterLayout.count kind)
    (hvalid : ∀ j, j < k →
      pipelineLayout.SlotsValid fc (j * pipelineLayout.rootParameterLayout.bindingsPerSet)) :
    ∀ j, j ≤ k →
      (descriptorSetStates fc device desc pipelineLayout st j).bindingIndex =
        j * pipelineLayout.rootParameterLayout.bindingsPerSet ∧
      (descriptorSetStates fc device desc pipelineLayout st j).cpuDescHandleCbvSrvUav =
        advanceCursor (device.GetDescriptorHandleIncrementSize .CBV_SRV_UAV)
          st.cpuDescHandleCbvSrvUav
          (j * (pipelineLayout.rootParameterLayout.numBufferCBV +
            pipelineLayout.rootParameterLayout.numBufferSRV +
            pipelineLayout.rootParameterLayout.numTextureSRV +
            pipelineLayout.rootParameterLayout.numBufferUAV +
            pipelineLayout.rootParameterLayout.numTextureUAV)) ∧
      (descriptorSetStates fc device desc pipelineLayout st j).cpuDescHandleSampler =
        advanceCursor (device.GetDescriptorHandleIncrementSize .SAMPLER) st.cpuDescHandleSampler
          (j * pipelineLayout.rootParameterLayout.numSamplers) := by
  intro j
  induction j with
  | zero =>
    intro _
    simp [descriptorSetStates, advanceCursor, hst]
  | succ j ih =>
    intro hj
    have hjk : j < k := by omega
    obtain ⟨hb, hc, hs⟩ := ih (by omega)
    have hset := createDescriptorSet_full fc device desc pipelineLayout
      (descriptorSetStates fc device desc pipelineLayout st j) _ _
      (by rw [hb]; exact (List.take_append_drop _ _).symm) (hblocks j hjk)
      (by rw [hb]; exact hvalid j hjk)
    have hcur := applyBlock_cursors fc device
      ((desc.resourceViews.drop (j * pipelineLayout.rootParameterLayout.bindingsPerSet)).take
        pipelineLayout.rootParameterLayout.bindingsPerSet)
      (descriptorSetStates fc device desc pipelineLayout st j)
      pipelineLayout.rootParameterLayout (hblocks j hjk)
    have hbi := applyBlock_bindingIndex fc device
      ((desc.resourceViews.drop (j * pipelineLayout.rootParameterLayout.bindingsPerSet)).take
        pipelineLayout.rootParameterLayout.bindingsPerSet)
      (descriptorSetStates fc device desc pipelineLayout st j)
      pipelineLayout.rootParameterLayout (hblocks j hjk)
    rw [descriptorSetStates, hset]
    refine ⟨?_, ?_, ?_⟩
    · simp only [hbi, hb, Nat.succ_mul]
    · simp only [hcur.1, hc, advanceCursor_add, Nat.succ_mul]
    · simp only [hcur.2, hs, advanceCursor_add, Nat.succ_mul]

/-- For a constructed object, with fewer than `2^32` resource views: the set count is the
number `n >= 1` of iterations of the loop, the loop condition holds after every iteration but
the last and fails after the last. -/
theorem construct_setCount (fc : FlagConstants) (device : ID3D12Device)
    (desc : ResourceHeapDescriptor) (heap : D3D12ResourceHeap) (written : List DescriptorWrite)
    (h32 : desc.resourceViews.length < 2 ^ 32)
    (h : D3D12ResourceHeap.construct fc device desc = .constructed heap written) :
    ∃ pipelineLayout c1 c2,
      desc.pipelineLayout = some pipelineLayout ∧
      0 < heap.numDescriptorSets ∧
      createDescriptors fc device desc pipelineLayout
          { cpuDescHandleCbvSrvUav := c1, cpuDescHandleSampler := c2, bindingIndex := 0,
            numDescriptorSets := 0, written := [] } =
        descriptorSetStates fc device desc pipelineLayout
          { cpuDescHandleCbvSrvUav := c1, cpuDescHandleSampler := c2, bindingIndex := 0,
            numDescriptorSets := 0, written := [] } heap.numDescriptorSets ∧
      (∀ j, j + 1 < heap.numDescriptorSets →
        loopContinues desc
          (descriptorSetStates fc device desc pipelineLayout
            { cpuDescHandleCbvSrvUav := c1, cpuDescHandleSampler := c2, bindingIndex := 0,
              numDescriptorSets := 0, written := [] } j)
          (descriptorSetStates fc device desc pipelineLayout
            { cpuDescHandleCbvSrvUav := c1, cpuDescHandleSampler := c2, bindingIndex := 0,
              numDescriptorSets := 0, written := [] } (j + 1))) ∧
      ¬ loopContinues desc
          (descriptorSetStates fc device desc pipelineLayout
            { cpuDescHandleCbvSrvUav := c1, cpuDescHandleSampler := c2, bindingIndex := 0,
              numDescriptorSets := 0, written := [] } (heap.numDescriptorSets - 1))
          (descriptorSetStates fc device desc pipelineLayout
            { cpuDescHandleCbvSrvUav := c1, cpuDescHandleSampler := c2, bindingIndex := 0,
              numDescriptorSets := 0, written := [] } heap.numDescriptorSets) := by
  obtain ⟨L, c1, c2, hl, _, _, _, hsets, _⟩ := construct_constructed fc device desc heap written h
  obtain ⟨n, hn, hnd, hloop, hall, hlast⟩ :=
    createDescriptors_trace fc device desc L _
      { cpuDescHandleCbvSrvUav := c1, cpuDescHandleSampler := c2, bindingIndex := 0,
        numDescriptorSets := 0, written := [] } (Nat.le_refl _)
  have hbound : n ≤ max 1 desc.resourceViews.length := by
    by_cases h1 : n = 1
    · omega
    · have hge := descriptorSetStates_bindingIndex_ge fc device desc L _ n hall (n - 1) (by omega)
      have hlt := (hall (n - 2) (by omega)).1
      rw [show n - 2 + 1 = n - 1 by omega] at hlt
      simp only at hge
      omega
  have hcount : heap.numDescriptorSets = n := by
    rw [hsets, hloop, descriptorSetStates_numDescriptorSets fc device desc L _
      (Nat.two_pow_pos 32)]
    simp only [Nat.zero_add]
    exact Nat.mod_eq_of_lt (by omega)
  rw [hcount]
  exact ⟨L, c1, c2, hl, hn, hloop, hall, hlast⟩

/-- With a pipeline layout, no null resource, fewer than `2^32` resource views and a device
that creates the heaps, the constructor returns; the loop starts at the heap starts (`0` for a
heap that is not created). -/
theorem construct_closed (fc : FlagConstants) (device : ID3D12Device)
    (desc : ResourceHeapDescriptor) (pipelineLayout : D3D12PipelineLayout)
    (hl : desc.pipelineLayout = some pipelineLayout)
    (hnull : ∀ rv ∈ desc.resourceViews, rv.resource ≠ none)
    (h32 : desc.resourceViews.length < 2 ^ 32)
    (hdev : ∀ heapDesc, device.CreateDescriptorHeap heapDesc ≠ none) :
    ∃ heap c1 c2,
      D3D12ResourceHeap.construct fc device desc =
        .constructed heap
          (createDescriptors fc device desc pipelineLayout
            { cpuDescHandleCbvSrvUav := c1, cpuDescHandleSampler := c2, bindingIndex := 0,
              numDescriptorSets := 0, written := [] }).written ∧
      heap.numDescriptorSets =
        (createDescriptors fc device desc pipelineLayout
            { cpuDescHandleCbvSrvUav := c1, cpuDescHandleSampler := c2, bindingIndex := 0,
              numDescriptorSets := 0, written := [] }).numDescriptorSets ∧
      heap.descriptorHandleStrides =
        (strideCbvSrvUav device pipelineLayout.rootParameterLayout,
          strideSampler device pipelineLayout.rootParameterLayout) ∧
      (c1 = 0 ∨ ∃ heapDesc, device.CreateDescriptorHeap heapDesc = some c1) ∧
      (c2 = 0 ∨ ∃ heapDesc, device.CreateDescriptorHeap heapDesc = some c2) ∧
      (∀ h, heap.heapTypeCbvSrvUav = some h → h.cpuHandleForHeapStart = c1) ∧
      (∀ h, heap.heapTypeSampler = some h → h.cpuHandleForHeapStart = c2) := by
  obtain ⟨c1, ho1, hc⟩ :=
    CreateHeapTypeCbvSrvUav_closed device desc D3D12ResourceHeap.initial hnull h32 hdev
  obtain ⟨c2, ho2, hs⟩ := CreateHeapTypeSampler_closed device desc
    (if numCbvSrvUavViews desc.resourceViews = 0 then D3D12ResourceHeap.initial
      else AppendDescriptorHeapToArray
        { D3D12ResourceHeap.initial with
          heapTypeCbvSrvUav :=
            some ⟨⟨.CBV_SRV_UAV, numCbvSrvUavViews desc.resourceViews⟩, c1⟩ }
        ⟨⟨.CBV_SRV_UAV, numCbvSrvUavViews desc.resourceViews⟩, c1⟩) hnull h32 hdev
  have key : ∀ self1 self2 : D3D12ResourceHeap,
      CreateHeapTypeCbvSrvUav device desc D3D12ResourceHeap.initial = .ok (self1, c1) →
      CreateHeapTypeSampler device desc self1 = .ok (self2, c2) →
      (∀ h, self2.heapTypeCbvSrvUav = some h → h.cpuHandleForHeapStart = c1) →
      (∀ h, self2.heapTypeSampler = some h → h.cpuHandleForHeapStart = c2) →
      ∃ heap c1 c2,
        D3D12ResourceHeap.construct fc device desc =
          .constructed heap
            (createDescriptors fc device desc pipelineLayout
              { cpuDescHandleCbvSrvUav := c1, cpuDescHandleSampler := c2, bindingIndex := 0,
                numDescriptorSets := 0, written := [] }).written ∧
        heap.numDescriptorSets =
          (createDescriptors fc device desc pipelineLayout
              { cpuDescHandleCbvSrvUav := c1, cpuDescHandleSampler := c2, bindingIndex := 0,
                numDescriptorSets := 0, written := [] }).numDescriptorSets ∧
        heap.descriptorHandleStrides =
          (strideCbvSrvUav device pipelineLayout.rootParameterLayout,
            strideSampler device pipelineLayout.rootParameterLayout) ∧
        (c1 = 0 ∨ ∃ heapDesc, device.CreateDescriptorHeap heapDesc = some c1) ∧
        (c2 = 0 ∨ ∃ heapDesc, device.CreateDescriptorHeap heapDesc = some c2) ∧
        (∀ h, heap.heapTypeCbvSrvUav = some h → h.cpuHandleForHeapStart = c1) ∧
        (∀ h, heap.heapTypeSampler = some h → h.cpuHandleForHeapStart = c2) := by
    intro self1 self2 hc hs hh1 hh2
    have h0 := CreateHeapTypeSampler_numDescriptorSets device desc self1 self2 c2 hs
    rw [CreateHeapTypeCbvSrvUav_numDescriptorSets device desc _ self1 c1 hc] at h0
    have hcon := construct_of_ok fc device desc pipelineLayout self1 self2 c1 c2 hc hs hl
    rw [h0] at hcon
    exact ⟨_, c1, c2, hcon, rfl, rfl, ho1, ho2, hh1, hh2⟩
  refine key _ _ hc hs ?_ ?_
  · intro h hh
    by_cases hzc : numCbvSrvUavViews desc.resourceViews = 0 <;>
      by_cases hzs : numSamplerViews desc.resourceViews = 0 <;>
      simp [hzc, hzs, AppendDescriptorHeapToArray, D3D12ResourceHeap.initial] at hh <;>
      rw [← hh]
  · intro h hh
    by_cases hzc : numCbvSrvUavViews desc.resourceViews = 0 <;>
      by_cases hzs : numSamplerViews desc.resourceViews = 0 <;>
      simp [hzc, hzs, AppendDescriptorHeapToArray, D3D12ResourceHeap.initial] at hh <;>
      rw [← hh]

/-- Complete sets only: when the resource views are exactly `k >= 1` groups of
`bindingsPerSet > 0` entries, each holding the resources of one set, the loop runs exactly `k`
times. -/
theorem createDescriptors_complete (fc : FlagConstants) (device : ID3D12Device)
    (desc : ResourceHeapDescriptor) (pipelineLayout : D3D12PipelineLayout) (k : Nat)
    (st : HeapBuildState) (hst : st.bindingIndex = 0) (hk : 1 ≤ k)
    (hpos : 0 < pipelineLayout.rootParameterLayout.bindingsPerSet)
    (hlen : desc.resourceViews.length = k * pipelineLayout.rootParameterLayout.bindingsPerSet)
    (hblocks : ∀ j, j < k → ∀ kind,
      kindCount fc kind
        ((desc.resourceViews.drop (j * pipelineLayout.rootParameterLayout.bindingsPerSet)).take
          pipelineLayout.rootParameterLayout.bindingsPerSet) =
        pipelineLayout.rootParameterLayout.count kind)
    (hvalid : ∀ j, j < k →
      pipelineLayout.SlotsValid fc (j * pipelineLayout.rootParameterLayout.bindingsPerSet)) :
    createDescriptors fc device desc pipelineLayout st =
      descriptorSetStates fc device desc pipelineLayout st k := by
  have hstates := descriptorSetStates_groups fc device desc pipelineLayout k st hst hblocks hvalid
  obtain ⟨n, hn, _, hloop, hall, hlast⟩ :=
    createDescriptors_trace fc device desc pipelineLayout _ st (Nat.le_refl _)
  obtain ⟨m, rfl⟩ : ∃ m, n = m + 1 := ⟨n - 1, by omega⟩
  rw [Nat.add_sub_cancel] at hlast
  have hnk : m + 1 = k := by
    rcases Nat.lt_trichotomy (m + 1) k with hlt | heq | hgt
    · exfalso
      apply hlast
      have h1 := (hstates m (by omega)).1
      have h2 := (hstates (m + 1) (by omega)).1
      have h3 : (m + 1) * pipelineLayout.rootParameterLayout.bindingsPerSet <
          k * pipelineLayout.rootParameterLayout.bindingsPerSet :=
        Nat.mul_lt_mul_of_pos_right hlt hpos
      rw [Nat.succ_mul] at h2 h3
      unfold loopContinues
      omega
    · exact heq
    · exfalso
      obtain ⟨i, rfl⟩ : ∃ i, k = i + 1 := ⟨k - 1, by omega⟩
      have hc := (hall i (by omega)).1
      have h2 := (hstates (i + 1) (Nat.le_refl _)).1
      omega
  rw [hloop, hnk]

theorem exampleDevice_ptr (heapDesc : D3D12_DESCRIPTOR_HEAP_DESC) (c : Nat)
    (h : WorkedExample.device.CreateDescriptorHeap heapDesc = some c) : c < 2 ^ 64 := by
  cases hty : heapDesc.heapType <;> simp [WorkedExample.device, hty] at h <;> omega

namespace Scenarios

/-- The construction for `[b1, b2, s1, s2]`: three descriptor sets; the second and the third
write a sampler only. -/
theorem construct_grouped :
    D3D12ResourceHeap.construct WorkedExample.flags WorkedExample.device descGrouped =
      .constructed
        { heapTypeCbvSrvUav := some ⟨⟨.CBV_SRV_UAV, 2⟩, 4096⟩
          heapTypeSampler := some ⟨⟨.SAMPLER, 2⟩, 8192⟩
          descriptorHeaps := [⟨⟨.CBV_SRV_UAV, 2⟩, 4096⟩, ⟨⟨.SAMPLER, 2⟩, 8192⟩]
          numDescriptorHeaps := 2
          hasGraphicsDescriptors := true
          hasComputeDescriptors := false
          descriptorHandleStrides := (32, 32)
          numDescriptorSets := 3 }
        [⟨.CBV_SRV_UAV, 4096, .ConstantBufferView, b1⟩,
          ⟨.SAMPLER, 8192, .SamplerView, s1⟩,
          ⟨.SAMPLER, 8224, .SamplerView, s1⟩,
          ⟨.SAMPLER, 8256, .SamplerView, s2⟩] := by
  have hc : CreateHeapTypeCbvSrvUav WorkedExample.device descGrouped D3D12ResourceHeap.initial =
      .ok (⟨some ⟨⟨.CBV_SRV_UAV, 2⟩, 4096⟩, none, [⟨⟨.CBV_SRV_UAV, 2⟩, 4096⟩], 1, false, false,
        (0, 0), 0⟩, 4096) := rfl
  have hs : CreateHeapTypeSampler WorkedExample.device descGrouped
      ⟨some ⟨⟨.CBV_SRV_UAV, 2⟩, 4096⟩, none, [⟨⟨.CBV_SRV_UAV, 2⟩, 4096⟩], 1, false, false,
        (0, 0), 0⟩ =
      .ok (⟨some ⟨⟨.CBV_SRV_UAV, 2⟩, 4096⟩, some ⟨⟨.SAMPLER, 2⟩, 8192⟩,
        [⟨⟨.CBV_SRV_UAV, 2⟩, 4096⟩, ⟨⟨.SAMPLER, 2⟩, 8192⟩], 2, false, false, (0, 0), 0⟩,
        8192) := rfl
  rw [construct_of_ok WorkedExample.flags WorkedExample.device descGrouped layoutCBVSampler
    _ _ _ _ hc hs rfl]
  rw [createDescriptors_unfold, if_pos (by decide), createDescriptors_unfold,
    if_pos (by decide), createDescriptors_unfold, if_neg (by decide)]
  decide

/-- The construction for `[b1, s1, b2]`: two descriptor sets, the second with the constant
buffer only. -/
theorem construct_withTail :
    D3D12ResourceHeap.construct WorkedExample.flags WorkedExample.device descWithTail =
      .constructed
        { heapTypeCbvSrvUav := some ⟨⟨.CBV_SRV_UAV, 2⟩, 4096⟩
          heapTypeSampler := some ⟨⟨.SAMPLER, 1⟩, 8192⟩
          descriptorHeaps := [⟨⟨.CBV_SRV_UAV, 2⟩, 4096⟩, ⟨⟨.SAMPLER, 1⟩, 8192⟩]
          numDescriptorHeaps := 2
          hasGraphicsDescriptors := true
          hasComputeDescriptors := false
          descriptorHandleStrides := (32, 32)
          numDescriptorSets := 2 }
        [⟨.CBV_SRV_UAV, 4096, .ConstantBufferView, b1⟩,
          ⟨.SAMPLER, 8192, .SamplerView, s1⟩,
          ⟨.CBV_SRV_UAV, 4128, .ConstantBufferView, b2⟩] := by
  have hc : CreateHeapTypeCbvSrvUav WorkedExample.device descWithTail D3D12ResourceHeap.initial =
      .ok (⟨some ⟨⟨.CBV_SRV_UAV, 2⟩, 4096⟩, none, [⟨⟨.CBV_SRV_UAV, 2⟩, 4096⟩], 1, false, false,
        (0, 0), 0⟩, 4096) := rfl
  have hs : CreateHeapTypeSampler WorkedExample.device descWithTail
      ⟨some ⟨⟨.CBV_SRV_UAV, 2⟩, 4096⟩, none, [⟨⟨.CBV_SRV_UAV, 2⟩, 4096⟩], 1, false, false,
        (0, 0), 0⟩ =
      .ok (⟨some ⟨⟨.CBV_SRV_UAV, 2⟩, 4096⟩, some ⟨⟨.SAMPLER, 1⟩, 8192⟩,
        [⟨⟨.CBV_SRV_UAV, 2⟩, 4096⟩, ⟨⟨.SAMPLER, 1⟩, 8192⟩], 2, false, false, (0, 0), 0⟩,
        8192) := rfl
  rw [construct_of_ok WorkedExample.flags WorkedExample.device descWithTail layoutCBVSampler
    _ _ _ _ hc hs rfl]
  rw [createDescriptors_unfold, if_pos (by decide), createDescriptors_unfold,
    if_neg (by decide)]
  decide

end Scenarios

/-! ## Claims on the cursors, on a partial last set and on the heap capacity -/

/-- C13, counterexample: one constant buffer and one sampler declared, resource views
`[b1, b2, s1, s2]`, increment size 32, combined-view heap at 4096.  The construction produces
3 sets with `descriptorHandleStrides_[0] = 32`, and at the start of set 2 the combined-view
write cursor is 4128, not `4096 + 2 * 32`: sets 1 and 2 write no combined view. -/
theorem C13_counterexample :
    ¬ ∀ heap written,
      D3D12ResourceHeap.construct WorkedExample.flags WorkedExample.device
        Scenarios.descGrouped = .constructed heap written →
      ∀ j, j < heap.GetNumDescriptorSets →
        (descriptorSetStates WorkedExample.flags WorkedExample.device Scenarios.descGrouped
          Scenarios.layoutCBVSampler ⟨4096, 8192, 0, 0, []⟩ j).cpuDescHandleCbvSrvUav =
          4096 + j * heap.descriptorHandleStrides.1 := by
  intro h
  exact absurd (h _ _ Scenarios.construct_grouped 2 (by decide)) (by decide)

/-- C13, amended: when the resource views (all non-null, fewer than `2^32`) are exactly
`k >= 1` consecutive groups of `bindingsPerSet` entries, each group with per-kind counts equal
to those of the layout, the bind-flag table is in line with the counts for each of the `k`
sets, neither stride exceeds 32 bits and the device returns 64-bit handles, the constructor
returns with `k` sets, the loop runs `k` times from the heap starts, and for every `j < k` the
combined-view write cursor at the start of set `j` is the heap start plus
`j * descriptorHandleStrides_[0]` and the sampler write cursor is the sampler-heap start plus
`j * descriptorHandleStrides_[1]` (64-bit pointer arithmetic; the start is 0 for a heap that
is not created). -/
theorem C13_cursor_advance_per_set (fc : FlagConstants) (device : ID3D12Device)
    (pipelineLayout : D3D12PipelineLayout) (views : List ResourceViewDescriptor) (k : Nat)
    (hk : 1 ≤ k) (h32 : views.length < 2 ^ 32)
    (hpos : 0 < pipelineLayout.rootParameterLayout.bindingsPerSet)
    (hnull : ∀ rv ∈ views, rv.resource ≠ none)
    (hlen : views.length = k * pipelineLayout.rootParameterLayout.bindingsPerSet)
    (hgroups : ∀ j, j < k → ∀ kind,
      kindCount fc kind
        ((views.drop (j * pipelineLayout.rootParameterLayout.bindingsPerSet)).take
          pipelineLayout.rootParameterLayout.bindingsPerSet) =
        pipelineLayout.rootParameterLayout.count kind)
    (hvalid : ∀ j, j < k →
      pipelineLayout.SlotsValid fc (j * pipelineLayout.rootParameterLayout.bindingsPerSet))
    (hdev : ∀ heapDesc, device.CreateDescriptorHeap heapDesc ≠ none)
    (hptr : ∀ heapDesc c, device.CreateDescriptorHeap heapDesc = some c → c < 2 ^ 64)
    (hstride0 : (pipelineLayout.rootParameterLayout.numBufferCBV +
      pipelineLayout.rootParameterLayout.numBufferSRV +
      pipelineLayout.rootParameterLayout.numTextureSRV +
      pipelineLayout.rootParameterLayout.numBufferUAV +
      pipelineLayout.rootParameterLayout.numTextureUAV) *
      device.GetDescriptorHandleIncrementSize .CBV_SRV_UAV < 2 ^ 32)
    (hstride1 : pipelineLayout.rootParameterLayout.numSamplers *
      device.GetDescriptorHandleIncrementSize .SAMPLER < 2 ^ 32) :
    ∃ heap written c1 c2,
      D3D12ResourceHeap.construct fc device ⟨some pipelineLayout, views⟩ =
        .constructed heap written ∧
      heap.GetNumDescriptorSets = k ∧
      (∀ h, heap.heapTypeCbvSrvUav = some h → h.cpuHandleForHeapStart = c1) ∧
      (∀ h, heap.heapTypeSampler = some h → h.cpuHandleForHeapStart = c2) ∧
      createDescriptors fc device ⟨some pipelineLayout, views⟩ pipelineLayout
          { cpuDescHandleCbvSrvUav := c1, cpuDescHandleSampler := c2, bindingIndex := 0,
            numDescriptorSets := 0, written := [] } =
        descriptorSetStates fc device ⟨some pipelineLayout, views⟩ pipelineLayout
          { cpuDescHandleCbvSrvUav := c1, cpuDescHandleSampler := c2, bindingIndex := 0,
            numDescriptorSets := 0, written := [] } k ∧
      ∀ j, j < k →
        (descriptorSetStates fc device ⟨some pipelineLayout, views⟩ pipelineLayout
          { cpuDescHandleCbvSrvUav := c1, cpuDescHandleSampler := c2, bindingIndex := 0,
            numDescriptorSets := 0, written := [] } j).cpuDescHandleCbvSrvUav =
          (c1 + j * heap.descriptorHandleStrides.1) % 2 ^ 64 ∧
        (descriptorSetStates fc device ⟨some pipelineLayout, views⟩ pipelineLayout
          { cpuDescHandleCbvSrvUav := c1, cpuDescHandleSampler := c2, bindingIndex := 0,
            numDescriptorSets := 0, written := [] } j).cpuDescHandleSampler =
          (c2 + j * heap.descriptorHandleStrides.2) % 2 ^ 64 := by
  obtain ⟨heap, c1, c2, hcon, hsets, hstr, ho1, ho2, hh1, hh2⟩ :=
    construct_closed fc device ⟨some pipelineLayout, views⟩ pipelineLayout rfl hnull h32 hdev
  have hc1 : c1 < 2 ^ 64 := by
    rcases ho1 with rfl | ⟨d, hd⟩
    · exact Nat.two_pow_pos 64
    · exact hptr d c1 hd
  have hc2 : c2 < 2 ^ 64 := by
    rcases ho2 with rfl | ⟨d, hd⟩
    · exact Nat.two_pow_pos 64
    · exact hptr d c2 hd
  have hloop := createDescriptors_complete fc device ⟨some pipelineLayout, views⟩ pipelineLayout
    k ⟨c1, c2, 0, 0, []⟩ rfl hk hpos hlen hgroups hvalid
  have hstates := descriptorSetStates_groups fc device ⟨some pipelineLayout, views⟩
    pipelineLayout k ⟨c1, c2, 0, 0, []⟩ rfl hgroups hvalid
  have hkle : k ≤ views.length := by
    rw [hlen]
    exact Nat.le_mul_of_pos_right k hpos
  refine ⟨heap, _, c1, c2, hcon, ?_, hh1, hh2, hloop, ?_⟩
  · rw [D3D12ResourceHeap.GetNumDescriptorSets, hsets, hloop,
      descriptorSetStates_numDescriptorSets fc device _ pipelineLayout _ (Nat.two_pow_pos 32)]
    simp only [Nat.zero_add]
    exact Nat.mod_eq_of_lt (by omega)
  · intro j hj
    obtain ⟨_, hc, hs⟩ := hstates j (by omega)
    rw [hc, hs, hstr]
    simp only [strideCbvSrvUav, strideSampler, Nat.mod_eq_of_lt hstride0,
      Nat.mod_eq_of_lt hstride1]
    rw [advanceCursor_mod _ _ _ hc1, advanceCursor_mod _ _ _ hc2, Nat.mul_assoc, Nat.mul_assoc]
    exact ⟨rfl, rfl⟩

/-- C13, amended, at `k = 2` with one constant buffer and one sampler per set and the resource
views `[b1, s1, b2, s2]`. -/
theorem C13_cursor_advance_per_set_witness :
    ∃ heap written c1 c2,
      D3D12ResourceHeap.construct WorkedExample.flags WorkedExample.device
        ⟨some Scenarios.layoutCBVSampler, Scenarios.descSetAfterSet.resourceViews⟩ =
        .constructed heap written ∧
      heap.GetNumDescriptorSets = 2 ∧
      (∀ h, heap.heapTypeCbvSrvUav = some h → h.cpuHandleForHeapStart = c1) ∧
      (∀ h, heap.heapTypeSampler = some h → h.cpuHandleForHeapStart = c2) ∧
      createDescriptors WorkedExample.flags WorkedExample.device
          ⟨some Scenarios.layoutCBVSampler, Scenarios.descSetAfterSet.resourceViews⟩
          Scenarios.layoutCBVSampler
          { cpuDescHandleCbvSrvUav := c1, cpuDescHandleSampler := c2, bindingIndex := 0,
            numDescriptorSets := 0, written := [] } =
        descriptorSetStates WorkedExample.flags WorkedExample.device
          ⟨some Scenarios.layoutCBVSampler, Scenarios.descSetAfterSet.resourceViews⟩
          Scenarios.layoutCBVSampler
          { cpuDescHandleCbvSrvUav := c1, cpuDescHandleSampler := c2, bindingIndex := 0,
            numDescriptorSets := 0, written := [] } 2 ∧
      ∀ j, j < 2 →
        (descriptorSetStates WorkedExample.flags WorkedExample.device
          ⟨some Scenarios.layoutCBVSampler, Scenarios.descSetAfterSet.resourceViews⟩
          Scenarios.layoutCBVSampler
          { cpuDescHandleCbvSrvUav := c1, cpuDescHandleSampler := c2, bindingIndex := 0,
            numDescriptorSets := 0, written := [] } j).cpuDescHandleCbvSrvUav =
          (c1 + j * heap.descriptorHandleStrides.1) % 2 ^ 64 ∧
        (descriptorSetStates WorkedExample.flags WorkedExample.device
          ⟨some Scenarios.layoutCBVSampler, Scenarios.descSetAfterSet.resourceViews⟩
          Scenarios.layoutCBVSampler
          { cpuDescHandleCbvSrvUav := c1, cpuDescHandleSampler := c2, bindingIndex := 0,
            numDescriptorSets := 0, written := [] } j).cpuDescHandleSampler =
          (c2 + j * heap.descriptorHandleStrides.2) % 2 ^ 64 :=
  C13_cursor_advance_per_set WorkedExample.flags WorkedExample.device Scenarios.layoutCBVSampler
    Scenarios.descSetAfterSet.resourceViews 2 (by decide) (by decide) (by decide) (by decide)
    rfl
    (by
      intro j hj kind
      interval_cases j <;> cases kind <;> rfl)
    (by
      intro j hj k i hi
      interval_cases j <;> cases k <;>
        simp [Scenarios.layoutCBVSampler, D3D12RootParameterLayout.count] at hi <;>
        subst hi <;> rfl)
    exampleDevice_creates exampleDevice_ptr (by decide) (by decide)

/-- C14, counterexample: one constant buffer and one sampler declared, resource views
`[b1, s1, b2]`: after the complete set `[b1, s1]` the view `b2` fills a partial set only (the
sampler is missing), and the construction does not fail: it returns an object with 2
descriptor sets. -/
theorem C14_counterexample :
    (∃ heap written,
      D3D12ResourceHeap.construct WorkedExample.flags WorkedExample.device
        Scenarios.descWithTail = .constructed heap written ∧
      heap.GetNumDescriptorSets = 2) ∧
    ¬ ∃ err heapsCreated,
      D3D12ResourceHeap.construct WorkedExample.flags WorkedExample.device
        Scenarios.descWithTail = .failed err heapsCreated := by
  refine ⟨⟨_, _, Scenarios.construct_withTail, rfl⟩, ?_⟩
  rintro ⟨err, heapsCreated, h⟩
  rw [Scenarios.construct_withTail] at h
  cases h

/-- C14, amended: when the resource views (all non-null, fewer than `2^32`) start with `k`
complete groups of `bindingsPerSet` entries, each with per-kind counts equal to those of the
layout and with the bind-flag table in line with the counts, and views remain after them that
fill only a partial set (more than `k * bindingsPerSet` and fewer than
`(k + 1) * bindingsPerSet` views), construction does not fail: the constructor returns an
object (the device creating the heaps), and the remaining views are given a descriptor set of
their own, `GetNumDescriptorSets() >= k + 1`. -/
theorem C14_trailing_views_not_detected (fc : FlagConstants) (device : ID3D12Device)
    (pipelineLayout : D3D12PipelineLayout) (views : List ResourceViewDescriptor) (k : Nat)
    (h32 : views.length < 2 ^ 32)
    (hnull : ∀ rv ∈ views, rv.resource ≠ none)
    (hmore : k * pipelineLayout.rootParameterLayout.bindingsPerSet < views.length)
    (htail : views.length < (k + 1) * pipelineLayout.rootParameterLayout.bindingsPerSet)
    (hgroups : ∀ j, j < k → ∀ kind,
      kindCount fc kind
        ((views.drop (j * pipelineLayout.rootParameterLayout.bindingsPerSet)).take
          pipelineLayout.rootParameterLayout.bindingsPerSet) =
        pipelineLayout.rootParameterLayout.count kind)
    (hvalid : ∀ j, j < k →
      pipelineLayout.SlotsValid fc (j * pipelineLayout.rootParameterLayout.bindingsPerSet))
    (hdev : ∀ heapDesc, device.CreateDescriptorHeap heapDesc ≠ none) :
    ∃ heap written,
      D3D12ResourceHeap.construct fc device ⟨some pipelineLayout, views⟩ =
        .constructed heap written ∧
      k + 1 ≤ heap.GetNumDescriptorSets := by
  obtain ⟨heap, c1, c2, hcon, _⟩ :=
    construct_succeeds fc device ⟨some pipelineLayout, views⟩ pipelineLayout rfl hnull hdev
  refine ⟨heap, _, hcon, ?_⟩
  obtain ⟨L, d1, d2, hl, hn, _, _, hlast⟩ :=
    construct_setCount fc device ⟨some pipelineLayout, views⟩ heap _ h32 hcon
  cases hl
  have hpos : 0 < pipelineLayout.rootParameterLayout.bindingsPerSet := by
    rw [Nat.succ_mul] at htail
    omega
  have hstates := descriptorSetStates_groups fc device ⟨some pipelineLayout, views⟩
    pipelineLayout k ⟨d1, d2, 0, 0, []⟩ rfl hgroups hvalid
  rw [D3D12ResourceHeap.GetNumDescriptorSets]
  by_contra hlt
  obtain ⟨m, hm⟩ : ∃ m, heap.numDescriptorSets = m + 1 := ⟨heap.numDescriptorSets - 1, by omega⟩
  rw [hm, Nat.add_sub_cancel] at hlast
  apply hlast
  have h1 := (hstates m (by omega)).1
  have h2 := (hstates (m + 1) (by omega)).1
  have h3 : (m + 1) * pipelineLayout.rootParameterLayout.bindingsPerSet ≤
      k * pipelineLayout.rootParameterLayout.bindingsPerSet :=
    Nat.mul_le_mul_right _ (by omega)
  rw [Nat.succ_mul] at h2 h3
  unfold loopContinues
  simp only at h1 h2 ⊢
  omega

/-- C14, amended, at `[b1, s1, b2]` with one constant buffer and one sampler per set and
`k = 1`. -/
theorem C14_trailing_views_not_detected_witness :
    ∃ heap written,
      D3D12ResourceHeap.construct WorkedExample.flags WorkedExample.device
        ⟨some Scenarios.layoutCBVSampler, Scenarios.descWithTail.resourceViews⟩ =
        .constructed heap written ∧
      1 + 1 ≤ heap.GetNumDescriptorSets :=
  C14_trailing_views_not_detected WorkedExample.flags WorkedExample.device
    Scenarios.layoutCBVSampler Scenarios.descWithTail.resourceViews 1 (by decide) (by decide)
    (by decide) (by decide)
    (by
      intro j hj kind
      interval_cases j
      cases kind <;> rfl)
    (by
      intro j hj k i hi
      interval_cases j
      cases k <;>
        simp [Scenarios.layoutCBVSampler, D3D12RootParameterLayout.count] at hi <;>
        subst hi <;> rfl)
    exampleDevice_creates

/-- C19, failing input: the worked example (2 constant buffers and 1 sampler declared,
resource views `[bufA, texB, bufC, samplerD]`).  The sampler heap is created with
`NumDescriptors = 1`, the number of Sampler entries, and the construction writes two sampler
views, the second one increment past the only descriptor of the heap. -/
theorem C19_sampler_heap_overrun :
    ∃ heap written,
      D3D12ResourceHeap.construct WorkedExample.flags WorkedExample.device WorkedExample.desc =
        .constructed heap written ∧
      numSamplerViews WorkedExample.desc.resourceViews = 1 ∧
      heap.heapTypeSampler = some ⟨⟨.SAMPLER, 1⟩, 8192⟩ ∧
      (viewsWrittenTo .SAMPLER written).length = 2 ∧
      (written.filter (fun w => decide (w.heapType = .SAMPLER))).map (fun w => w.ptr) =
        [8192, 8192 + 1 * WorkedExample.device.GetDescriptorHandleIncrementSize .SAMPLER] :=
  ⟨_, _, WorkedExample.construct_result, by decide, rfl, by decide, by decide⟩

/-! ## Claims on a null pipeline layout and on the Direct3D 11 files -/

/-- C21: for resource views that are all non-null, construction with a null pipeline layout
fails, no descriptor view is written and no descriptor set is counted; when the device
creates the descriptor heaps it is asked for, the exception is the `std::invalid_argument`
with the message "cannot create resource heap without pipeline layout". -/
theorem C21_null_layout_fails (fc : FlagConstants) (device : ID3D12Device)
    (views : List ResourceViewDescriptor)
    (hnull : ∀ rv ∈ views, rv.resource ≠ none) :
    (∃ err heapsCreated,
      D3D12ResourceHeap.construct fc device ⟨none, views⟩ = .failed err heapsCreated) ∧
    (D3D12ResourceHeap.construct fc device ⟨none, views⟩).written = [] ∧
    (D3D12ResourceHeap.construct fc device ⟨none, views⟩).numDescriptorSets = 0 ∧
    ((∀ heapDesc, device.CreateDescriptorHeap heapDesc ≠ none) →
      ∃ heapsCreated,
        D3D12ResourceHeap.construct fc device ⟨none, views⟩ =
          .failed .noPipelineLayout heapsCreated ∧
        HeapError.what .noPipelineLayout =
          "cannot create resource heap without pipeline layout") := by
  have hfail : ∃ err heapsCreated,
      D3D12ResourceHeap.construct fc device ⟨none, views⟩ = .failed err heapsCreated := by
    cases hc : CreateHeapTypeCbvSrvUav device ⟨none, views⟩ D3D12ResourceHeap.initial with
    | error e =>
      refine ⟨e, [], ?_⟩
      unfold D3D12ResourceHeap.construct
      rw [hc]
    | ok r1 =>
      obtain ⟨self1, c1⟩ := r1
      cases hs : CreateHeapTypeSampler device ⟨none, views⟩ self1 with
      | error e =>
        refine ⟨e, self1.descriptorHeaps, ?_⟩
        unfold D3D12ResourceHeap.construct
        rw [hc]
        simp only [hs]
      | ok r2 =>
        obtain ⟨self2, c2⟩ := r2
        refine ⟨.noPipelineLayout, self2.descriptorHeaps, ?_⟩
        unfold D3D12ResourceHeap.construct
        rw [hc]
        simp only [hs, GetD3DPipelineLayout]
  obtain ⟨err, heapsCreated, hcon⟩ := hfail
  refine ⟨⟨err, heapsCreated, hcon⟩, by rw [hcon]; rfl, by rw [hcon]; rfl, ?_⟩
  intro hdev
  obtain ⟨self1, c1, hc, _⟩ :=
    CreateHeapTypeCbvSrvUav_ok device ⟨none, views⟩ D3D12ResourceHeap.initial hnull hdev
  obtain ⟨self2, c2, hs, _⟩ := CreateHeapTypeSampler_ok device ⟨none, views⟩ self1 hnull hdev
  refine ⟨self2.descriptorHeaps, ?_, rfl⟩
  unfold D3D12ResourceHeap.construct
  rw [hc]
  simp only [hs, GetD3DPipelineLayout]

/-- C21 at the resource views of the worked example, without pipeline layout. -/
theorem C21_null_layout_fails_witness :
    ∃ heapsCreated,
      D3D12ResourceHeap.construct WorkedExample.flags WorkedExample.device
          ⟨none, WorkedExample.resourceViews⟩ = .failed .noPipelineLayout heapsCreated ∧
      HeapError.what .noPipelineLayout =
        "cannot create resource heap without pipeline layout" :=
  (C21_null_layout_fails WorkedExample.flags WorkedExample.device WorkedExample.resourceViews
    (by decide)).2.2.2 exampleDevice_creates

/-- C22, failing input: a system on which `D3D11CreateDevice` fails with `E_FAIL` for the
driver types hardware, WARP and software.  `CreateDevice` calls it for the three driver types
in that order and then returns without an exception, the device being null.  This is so for
every system: the `hr` that `DXThrowIfFailed` receives is the variable of the function body,
which is 0, so `CreateDevice` throws only if `DXThrowIfFailed` throws for 0. -/
theorem C22_CreateDevice_does_not_throw :
    (∀ driver, SUCCEEDED
      (Scenarios.envNoDevice.D3D11CreateDevice none driver 0
        Scenarios.envNoDevice.featureLevels).hr = false) ∧
    (D3D11RenderSystem.CreateDevice Scenarios.envNoDevice ⟨none, 0, none⟩ none).tried =
      [.D3D_DRIVER_TYPE_HARDWARE, .D3D_DRIVER_TYPE_WARP, .D3D_DRIVER_TYPE_SOFTWARE] ∧
    (D3D11RenderSystem.CreateDevice Scenarios.envNoDevice ⟨none, 0, none⟩ none).thrown = none ∧
    (D3D11RenderSystem.CreateDevice Scenarios.envNoDevice ⟨none, 0, none⟩ none).self.device_ =
      none ∧
    (D3D11RenderSystem.CreateDevice Scenarios.envWarp ⟨none, 0, none⟩ none).tried =
      [.D3D_DRIVER_TYPE_HARDWARE, .D3D_DRIVER_TYPE_WARP] ∧
    ∀ (env : D3D11Environment) (self : D3D11RenderSystem) (adapter : Option Nat),
      ((D3D11RenderSystem.CreateDevice env self adapter).thrown ≠ none ↔
        env.DXThrowIfFailed 0 = true) := by
  refine ⟨fun driver => by cases driver <;> decide, by decide, by decide, by decide,
    by decide, ?_⟩
  intro env self adapter
  unfold D3D11RenderSystem.CreateDevice
  cases h : env.DXThrowIfFailed 0 <;> simp [h]

/-- The loop of `LinkShaders` over slots `l`, started with the error `e`, ends with `NoError`
iff it starts with `NoError` and every shader attached to a slot of `l` has a native object. -/
theorem linkShaders_loop (shaders : Fin 6 → Option D3D11Shader) :
    ∀ (l : List (Fin 6)) (e : LinkError),
      l.foldl
          (fun linkError i =>
            match shaders i with
            | some shader => if shader.native = 0 then LinkError.InvalidByteCode else linkError
            | none => linkError)
          e = LinkError.NoError ↔
        e = LinkError.NoError ∧ ∀ i ∈ l, ∀ shader, shaders i = some shader → shader.native ≠ 0 := by
  intro l
  induction l with
  | nil => intro e; simp
  | cons i l ih =>
    intro e
    rw [List.foldl_cons, ih]
    cases hs : shaders i with
    | none => simp [hs]
    | some shader =>
      by_cases hn : shader.native = 0
      · simp [hs, hn]
      · simp [hs, hn]

theorem linkShaders_iff (ValidateShaderComposition : (Fin 6 → Option D3D11Shader) → Bool)
    (self : D3D11ShaderProgram) :
    (D3D11ShaderProgram.LinkShaders ValidateShaderComposition self).1 = true ↔
      (∀ i shader, self.shaders_ i = some shader → shader.native ≠ 0) ∧
      ValidateShaderComposition self.shaders_ = true := by
  have hall : ∀ i : Fin 6, i ∈ ([0, 1, 2, 3, 4, 5] : List (Fin 6)) := by decide
  have hloop := linkShaders_loop self.shaders_ [0, 1, 2, 3, 4, 5] LinkError.NoError
  unfold D3D11ShaderProgram.LinkShaders
  cases hv : ValidateShaderComposition self.shaders_
  · simp
  · simp only [Bool.not_true, Bool.false_eq_true, if_false, beq_iff_eq, and_true]
    rw [hloop]
    constructor
    · rintro ⟨_, h⟩ i shader hi
      exact h i (hall i) shader hi
    · intro h
      exact ⟨rfl, fun i _ shader hi => h i shader hi⟩

/-- C23: `LinkShaders` returns true iff every shader attached to one of the six slots has a
non-null native shader object and `ValidateShaderComposition` accepts the six slots; the
result does not depend on the link error that an earlier call has left; a shader that
`AttachShader` has stored and whose native object is null makes `LinkShaders` return false;
after `DetachAll` the result is that of `ValidateShaderComposition` on six empty slots. -/
theorem C23_LinkShaders_result
    (ValidateShaderComposition : (Fin 6 → Option D3D11Shader) → Bool)
    (shaderTypeVertex : Nat) (ToHex : Nat → String) (self : D3D11ShaderProgram) :
    ((D3D11ShaderProgram.LinkShaders ValidateShaderComposition self).1 = true ↔
      (∀ i shader, self.shaders_ i = some shader → shader.native ≠ 0) ∧
      ValidateShaderComposition self.shaders_ = true) ∧
    (∀ earlier : LinkError,
      (D3D11ShaderProgram.LinkShaders ValidateShaderComposition
        { self with linkError_ := earlier }).1 =
      (D3D11ShaderProgram.LinkShaders ValidateShaderComposition self).1) ∧
    (∀ shader attached,
      D3D11ShaderProgram.AttachShader shaderTypeVertex ToHex self shader = .ok attached →
      shader.native = 0 →
      (D3D11ShaderProgram.LinkShaders ValidateShaderComposition attached).1 = false) ∧
    (D3D11ShaderProgram.LinkShaders ValidateShaderComposition self.DetachAll).1 =
      ValidateShaderComposition (fun _ => none) := by
  refine ⟨linkShaders_iff ValidateShaderComposition self, fun _ => rfl, ?_, ?_⟩
  · intro shader attached hattach hnative
    unfold D3D11ShaderProgram.AttachShader at hattach
    simp only at hattach
    split at hattach
    · rename_i hidx
      injection hattach with hattach
      cases hlink : (D3D11ShaderProgram.LinkShaders ValidateShaderComposition attached).1
      · rfl
      · exfalso
        have h := ((linkShaders_iff ValidateShaderComposition attached).mp hlink).1
          ⟨_, hidx⟩ shader (by rw [← hattach]; simp)
        exact h hnative
    · cases hattach
  · cases hv : ValidateShaderComposition (fun _ => none) with
    | false =>
      cases hlink : (D3D11ShaderProgram.LinkShaders ValidateShaderComposition self.DetachAll).1
      · rfl
      · have h := ((linkShaders_iff ValidateShaderComposition self.DetachAll).mp hlink).2
        rw [show self.DetachAll.shaders_ = fun _ => none from rfl, hv] at h
        cases h
    | true =>
      exact (linkShaders_iff ValidateShaderComposition self.DetachAll).mpr
        ⟨fun i shader hi => (by cases hi), hv⟩

theorem buildInputLayout_attributes (Map : Nat → Except String Nat) (format : Nat → Nat)
    (inputSlot : Nat) :
    ∀ (attributes : List VertexAttribute) (inputElements : List D3D11_INPUT_ELEMENT_DESC),
      (∀ a ∈ attributes, Map a.vectorType = .ok (format a.vectorType)) →
      D3D11ShaderProgram.BuildInputLayout.attributes Map inputSlot attributes inputElements =
        .ok (inputElements ++ attributes.map (inputElementOf format inputSlot)) := by
  intro attributes
  induction attributes with
  | nil => intro inputElements _; simp [D3D11ShaderProgram.BuildInputLayout.attributes]
  | cons a rest ih =>
    intro inputElements h
    have ha := h a (List.mem_cons_self _ _)
    have hrest : ∀ b ∈ rest, Map b.vectorType = .ok (format b.vectorType) :=
      fun b hb => h b (List.mem_cons_of_mem _ hb)
    simp only [D3D11ShaderProgram.BuildInputLayout.attributes, GetInputElementFormat, ha]
    rw [ih _ hrest]
    simp [inputElementOf]

theorem buildInputLayout_formats (Map : Nat → Except String Nat) (format : Nat → Nat) :
    ∀ (vertexFormats : List VertexFormat) (inputElements : List D3D11_INPUT_ELEMENT_DESC),
      (∀ vf ∈ vertexFormats, ∀ a ∈ vf.attributes, Map a.vectorType = .ok (format a.vectorType)) →
      D3D11ShaderProgram.BuildInputLayout.formats Map vertexFormats inputElements =
        .ok (inputElements ++ inputElementsOf format vertexFormats) := by
  intro vertexFormats
  induction vertexFormats with
  | nil =>
    intro inputElements _
    simp [D3D11ShaderProgram.BuildInputLayout.formats, inputElementsOf]
  | cons vf rest ih =>
    intro inputElements h
    have hrest : ∀ g ∈ rest, ∀ a ∈ g.attributes, Map a.vectorType = .ok (format a.vectorType) :=
      fun g hg => h g (List.mem_cons_of_mem _ hg)
    simp only [D3D11ShaderProgram.BuildInputLayout.formats,
      buildInputLayout_attributes Map format vf.inputSlot vf.attributes inputElements
        (h vf (List.mem_cons_self _ _))]
    rw [ih _ hrest]
    simp [inputElementsOf]

theorem buildInputLayout_attributes_inv (Map : Nat → Except String Nat) (inputSlot : Nat) :
    ∀ (attributes : List VertexAttribute) (inputElements out : List D3D11_INPUT_ELEMENT_DESC),
      D3D11ShaderProgram.BuildInputLayout.attributes Map inputSlot attributes inputElements =
        .ok out →
      out = inputElements ++ attributes.map (inputElementOf (mappedFormat Map) inputSlot) := by
  intro attributes
  induction attributes with
  | nil =>
    intro inputElements out h
    simp only [D3D11ShaderProgram.BuildInputLayout.attributes, Except.ok.injEq] at h
    simp [h]
  | cons a rest ih =>
    intro inputElements out h
    cases hm : Map a.vectorType with
    | error e =>
      simp [D3D11ShaderProgram.BuildInputLayout.attributes, GetInputElementFormat, hm] at h
    | ok f =>
      simp only [D3D11ShaderProgram.BuildInputLayout.attributes, GetInputElementFormat, hm] at h
      rw [ih _ _ h]
      simp [inputElementOf, mappedFormat, hm]

theorem buildInputLayout_formats_inv (Map : Nat → Except String Nat) :
    ∀ (vertexFormats : List VertexFormat) (inputElements out : List D3D11_INPUT_ELEMENT_DESC),
      D3D11ShaderProgram.BuildInputLayout.formats Map vertexFormats inputElements = .ok out →
      out = inputElements ++ inputElementsOf (mappedFormat Map) vertexFormats := by
  intro vertexFormats
  induction vertexFormats with
  | nil =>
    intro inputElements out h
    simp only [D3D11ShaderProgram.BuildInputLayout.formats, Except.ok.injEq] at h
    simp [h, inputElementsOf]
  | cons vf rest ih =>
    intro inputElements out h
    cases ha : D3D11ShaderProgram.BuildInputLayout.attributes Map vf.inputSlot vf.attributes
        inputElements with
    | error e => simp [D3D11ShaderProgram.BuildInputLayout.formats, ha] at h
    | ok mid =>
      simp only [D3D11ShaderProgram.BuildInputLayout.formats, ha] at h
      rw [ih _ _ h, buildInputLayout_attributes_inv Map vf.inputSlot _ _ _ ha]
      simp [inputElementsOf]

/-- C24: `BuildInputLayout` does nothing when `numVertexFormats == 0` or `vertexFormats` is
null, whatever the vertex shader (no call, no exception, the object unchanged).  Otherwise,
given a vertex shader with non-empty byte code, a call of `CreateInputLayout`, if one is made,
is the only one and passes as input elements the concatenation, in vertex-format order and
then attribute order, of one element per vertex attribute, with `InputSlot` the input slot of
the format, `AlignedByteOffset` the offset of the attribute and the slot class per-instance
exactly when `instanceDivisor > 0`, per-vertex otherwise (the semantic name being the name of
the attribute as a C string); the call is made when `D3D11Types::Map` maps the vector type of
every attribute (otherwise `GetInputElementFormat` throws before it). -/
theorem C24_BuildInputLayout_elements (Map : Nat → Except String Nat)
    (CreateInputLayout : CreateInputLayoutCall → Int × Option Nat)
    (DXThrowIfFailed : Int → Bool) (self : D3D11ShaderProgram) :
    (∀ vs_ formats, D3D11ShaderProgram.BuildInputLayout Map CreateInputLayout DXThrowIfFailed
      vs_ self 0 formats = { self := self, calls := [], thrown := none }) ∧
    (∀ vs_ n, D3D11ShaderProgram.BuildInputLayout Map CreateInputLayout DXThrowIfFailed vs_
      self n none = { self := self, calls := [], thrown := none }) ∧
    (∀ (vs : D3D11Shader) (numVertexFormats : Nat) (vertexFormats : List VertexFormat),
      numVertexFormats ≠ 0 → numVertexFormats ≤ vertexFormats.length → vs.byteCode ≠ [] →
      ((D3D11ShaderProgram.BuildInputLayout Map CreateInputLayout DXThrowIfFailed (some vs) self
          numVertexFormats (some vertexFormats)).calls = [] ∨
        (D3D11ShaderProgram.BuildInputLayout Map CreateInputLayout DXThrowIfFailed (some vs) self
          numVertexFormats (some vertexFormats)).calls =
        [{ pInputElementDescs :=
             inputElementsOf (mappedFormat Map) (vertexFormats.take numVertexFormats)
           NumElements :=
             (inputElementsOf (mappedFormat Map)
               (vertexFormats.take numVertexFormats)).length % 2 ^ 32
           pShaderBytecodeWithInputSignature := vs.byteCode
           BytecodeLength := vs.byteCode.length }]) ∧
      ((∀ vf ∈ vertexFormats.take numVertexFormats, ∀ a ∈ vf.attributes,
          ∃ format, Map a.vectorType = .ok format) →
        (D3D11ShaderProgram.BuildInputLayout Map CreateInputLayout DXThrowIfFailed (some vs) self
          numVertexFormats (some vertexFormats)).calls =
        [{ pInputElementDescs :=
             inputElementsOf (mappedFormat Map) (vertexFormats.take numVertexFormats)
           NumElements :=
             (inputElementsOf (mappedFormat Map)
               (vertexFormats.take numVertexFormats)).length % 2 ^ 32
           pShaderBytecodeWithInputSignature := vs.byteCode
           BytecodeLength := vs.byteCode.length }]) ∧
      (vertexFormats.take numVertexFormats).length = numVertexFormats) ∧
    (∀ vertexFormats : List VertexFormat,
      inputElementsOf (mappedFormat Map) vertexFormats =
        vertexFormats.flatMap
          (fun vf => vf.attributes.map (inputElementOf (mappedFormat Map) vf.inputSlot)) ∧
      (inputElementsOf (mappedFormat Map) vertexFormats).length =
        (vertexFormats.map (fun vf => vf.attributes.length)).sum) ∧
    ∀ inputSlot attrib,
      (inputElementOf (mappedFormat Map) inputSlot attrib).InputSlot = inputSlot ∧
      (inputElementOf (mappedFormat Map) inputSlot attrib).AlignedByteOffset = attrib.offset ∧
      ((inputElementOf (mappedFormat Map) inputSlot attrib).InputSlotClass =
          .D3D11_INPUT_PER_INSTANCE_DATA ↔ attrib.instanceDivisor > 0) ∧
      ((inputElementOf (mappedFormat Map) inputSlot attrib).InputSlotClass =
          .D3D11_INPUT_PER_VERTEX_DATA ↔ ¬ attrib.instanceDivisor > 0) := by
  refine ⟨?_, ?_, ?_, ?_, ?_⟩
  · intro vs_ formats
    cases formats <;> simp [D3D11ShaderProgram.BuildInputLayout]
  · intro vs_ n
    rfl
  · intro vs numVertexFormats vertexFormats hnum hlen hcode
    have hempty : vs.byteCode.isEmpty = false := by
      cases hb : vs.byteCode with
      | nil => exact absurd hb hcode
      | cons _ _ => rfl
    refine ⟨?_, ?_, List.length_take_of_le hlen⟩
    · cases hf : D3D11ShaderProgram.BuildInputLayout.formats Map
          (vertexFormats.take numVertexFormats) [] with
      | error e =>
        left
        simp only [D3D11ShaderProgram.BuildInputLayout, hnum, if_false, hempty, hf,
          Bool.false_eq_true]
      | ok out =>
        right
        have hout := buildInputLayout_formats_inv Map _ _ _ hf
        rw [List.nil_append] at hout
        simp only [D3D11ShaderProgram.BuildInputLayout, hnum, if_false, hempty, hf, hout,
          Bool.false_eq_true]
    · intro hmap
      have hformats := buildInputLayout_formats Map (mappedFormat Map)
        (vertexFormats.take numVertexFormats) []
        (fun vf hvf a ha => by
          obtain ⟨f, hf⟩ := hmap vf hvf a ha
          simp [mappedFormat, hf])
      simp only [D3D11ShaderProgram.BuildInputLayout, hnum, if_false, hempty, hformats,
        List.nil_append, Bool.false_eq_true]
  · intro vertexFormats
    refine ⟨rfl, ?_⟩
    simp only [inputElementsOf, List.length_flatMap]
    congr 1
    apply List.map_congr_left
    intro vf _
    simp
  · intro inputSlot attrib
    by_cases hdiv : attrib.instanceDivisor > 0 <;> simp [inputElementOf, hdiv]

/-- C24 at two vertex formats (position and normal per vertex in slot 0, a colour per
instance in slot 1): three input elements are passed, in this order; with no vertex shader
at all, nothing is done for `numVertexFormats == 0`; and an attribute name with a NUL
character after its second character is passed as the semantic name `PO`. -/
theorem C24_BuildInputLayout_elements_witness :
    (D3D11ShaderProgram.BuildInputLayout Scenarios.mapFormat (fun _ => (0, some 9)) FAILED
        (some Scenarios.vertexShader) Scenarios.emptyProgram 2
        (some Scenarios.vertexFormats)).calls =
      [{ pInputElementDescs :=
           [⟨"POSITION", 0, 6, 0, 0, .D3D11_INPUT_PER_VERTEX_DATA, 0⟩,
            ⟨"NORMAL", 0, 6, 0, 12, .D3D11_INPUT_PER_VERTEX_DATA, 0⟩,
            ⟨"COLOR", 0, 2, 1, 0, .D3D11_INPUT_PER_INSTANCE_DATA, 1⟩]
         NumElements := 3
         pShaderBytecodeWithInputSignature := [68, 88, 66, 67]
         BytecodeLength := 4 }] ∧
    D3D11ShaderProgram.BuildInputLayout Scenarios.mapFormat (fun _ => (0, some 9)) FAILED
        none Scenarios.emptyProgram 0 (some Scenarios.vertexFormats) =
      { self := Scenarios.emptyProgram, calls := [], thrown := none } ∧
    (D3D11ShaderProgram.BuildInputLayout Scenarios.mapFormat (fun _ => (0, some 9)) FAILED
        (some Scenarios.vertexShader) Scenarios.emptyProgram 1
        (some Scenarios.vertexFormatsNul)).calls =
      [{ pInputElementDescs := [⟨"PO", 0, 6, 0, 0, .D3D11_INPUT_PER_VERTEX_DATA, 0⟩]
         NumElements := 1
         pShaderBytecodeWithInputSignature := [68, 88, 66, 67]
         BytecodeLength := 4 }] :=
  ⟨((C24_BuildInputLayout_elements Scenarios.mapFormat (fun _ => (0, some 9)) FAILED
      Scenarios.emptyProgram).2.2.1 Scenarios.vertexShader 2 Scenarios.vertexFormats
      (by decide) (by decide) (by decide)).2.1
    (by
      intro vf hvf a ha
      simp only [Scenarios.vertexFormats, List.take, List.mem_cons, List.mem_singleton,
        List.not_mem_nil, or_false] at hvf
      rcases hvf with rfl | rfl <;>
        simp only [List.mem_cons, List.mem_singleton, List.not_mem_nil, or_false] at ha
      · rcases ha with rfl | rfl <;> exact ⟨6, rfl⟩
      · subst ha
        exact ⟨2, rfl⟩),
    (C24_BuildInputLayout_elements Scenarios.mapFormat (fun _ => (0, some 9)) FAILED
      Scenarios.emptyProgram).1 none (some Scenarios.vertexFormats),
    by decide⟩

end LLGL
